import Mathlib

/-!
# NES_Keyboard: USB HID protocol engine

A shallow embedding of `Source/Usb.c`, `Source/UsbDescriptors.h` and the parts of
`Source/Main.c` that drive it.  Every C global becomes a field of `State`; every C
function becomes a function on `State`.  Bytes and 16-bit words are `Nat`; where the
C code truncates, the truncation is written out.

Pointers (`inPtr`, `outPtr`, `ROMoutPtr`) are a pair of the object they point into
and a byte offset.  Each object is followed by memory the program does not declare;
the bytes of that memory live in `State.beyond` (data memory) and `Layout.romBeyond`
(program memory), so that an access outside a declared object never aliases a
modelled variable.
-/

namespace NESKeyboard

/-! ## Constants of `Usb.c` -/

-- Commands
abbrev GET_STATUS : Nat := 0x00
abbrev CLEAR_FEATURE : Nat := 0x01
abbrev SET_FEATURE : Nat := 0x03
abbrev SET_ADDRESS : Nat := 0x05
abbrev GET_DESCRIPTOR : Nat := 0x06
abbrev SET_DESCRIPTOR : Nat := 0x07
abbrev GET_CONFIGURATION : Nat := 0x08
abbrev SET_CONFIGURATION : Nat := 0x09
abbrev GET_INTERFACE : Nat := 0x0A
abbrev SET_INTERFACE : Nat := 0x0B
abbrev SYNCH_FRAME : Nat := 0x0C

-- Descriptor types
abbrev DEVICE_DESCRIPTOR : Nat := 0x01
abbrev CONFIGURATION_DESCRIPTOR : Nat := 0x02
abbrev STRING_DESCRIPTOR : Nat := 0x03

-- Class descriptor types
abbrev HID_DESCRIPTOR : Nat := 0x21
abbrev REPORT_DESCRIPTOR : Nat := 0x22
abbrev PHYSICAL_DESCRIPTOR : Nat := 0x23

-- HID class specific requests
abbrev GET_REPORT : Nat := 0x01
abbrev GET_IDLE : Nat := 0x02
abbrev GET_PROTOCOL : Nat := 0x03
abbrev SET_REPORT : Nat := 0x09
abbrev SET_IDLE : Nat := 0x0A
abbrev SET_PROTOCOL : Nat := 0x0B

-- Standard feature selectors
abbrev DEVICE_REMOTE_WAKEUP : Nat := 0x01
abbrev ENDPOINT_HALT : Nat := 0x00

-- Device states (Chap 9.1.1)
abbrev DETACHED : Nat := 0x00
abbrev ATTACHED : Nat := 0x01
abbrev POWERED : Nat := 0x02
abbrev DEFAULT : Nat := 0x03
abbrev ADDRESS : Nat := 0x04
abbrev CONFIGURED : Nat := 0x05

-- Interrupt flag masks
abbrev USB_SOF : Nat := 0x40
abbrev USB_STALL : Nat := 0x20
abbrev USB_IDLE : Nat := 0x10
abbrev USB_TRN : Nat := 0x08
abbrev USB_RESUM : Nat := 0x04
abbrev USB_UERR : Nat := 0x02
abbrev USB_URST : Nat := 0x01

-- Buffer descriptor bit masks
abbrev UOWN : Nat := 0x80
abbrev DTS : Nat := 0x40
abbrev KEN : Nat := 0x20
abbrev INCDIS : Nat := 0x10
abbrev DTSEN : Nat := 0x08
abbrev BSTALL : Nat := 0x04
abbrev BC9 : Nat := 0x02
abbrev BC8 : Nat := 0x01

-- Control transfer stages
abbrev SETUP_STAGE : Nat := 0x00
abbrev DATA_OUT_STAGE : Nat := 0x01
abbrev DATA_IN_STAGE : Nat := 0x02
abbrev STATUS_STAGE : Nat := 0x03

/-! ## Constants of `UsbDescriptors.h` -/

abbrev VendorId : Nat := 0x04D8
abbrev ProductId : Nat := 0x01A6
abbrev ReleaseNo : Nat := 0x0001
abbrev InterfaceCount : Nat := 0x01
abbrev StringDescriptorCount : Nat := 0x03
abbrev Endpoint0BufferSize : Nat := 0x08
abbrev HidDescriptorSize : Nat := 0x20
abbrev HidReportByteCount : Nat := 0x08
abbrev HidInterfaceNumber : Nat := 0x00
abbrev SMAN : Nat := 0x01
abbrev SPRD : Nat := 0x02
abbrev SSER : Nat := 0x00
abbrev SCON : Nat := 0x00

/-- Modelled from the spec: `E0SZ` is declared in `Usb.h`, which is not among the
sources.  It is the endpoint-0 maximum packet size; `UsbDescriptors.h` annotates its
use in the device descriptor with "(8)" and declares `Endpoint0BufferSize 0x08`. -/
abbrev E0SZ : Nat := Endpoint0BufferSize

/-- Modelled from the spec: `CONFIG_HEADER_SIZE` is declared in `Usb.h`; the
configuration descriptor header initialiser has 9 bytes. -/
abbrev CONFIG_HEADER_SIZE : Nat := 9

/-- Modelled from the spec: `VIDL` is declared in `Usb.h`: low byte of `VendorId`. -/
abbrev VIDL : Nat := VendorId % 256
/-- Modelled from the spec: `VIDH` is declared in `Usb.h`: high byte of `VendorId`. -/
abbrev VIDH : Nat := VendorId / 256
/-- Modelled from the spec: `PIDL` is declared in `Usb.h`: low byte of `ProductId`. -/
abbrev PIDL : Nat := ProductId % 256
/-- Modelled from the spec: `PIDH` is declared in `Usb.h`: high byte of `ProductId`. -/
abbrev PIDH : Nat := ProductId / 256
/-- Modelled from the spec: `RELL` is declared in `Usb.h`: low byte of `ReleaseNo`. -/
abbrev RELL : Nat := ReleaseNo % 256
/-- Modelled from the spec: `RELH` is declared in `Usb.h`: high byte of `ReleaseNo`. -/
abbrev RELH : Nat := ReleaseNo / 256
/-- Modelled from the spec: `INTF` is declared in `Usb.h`: the interface count. -/
abbrev INTF : Nat := InterfaceCount
/-- Modelled from the spec: `IHID` is declared in `Usb.h`: the HID interface number. -/
abbrev IHID : Nat := HidInterfaceNumber
/-- Short name `HRBC` of `UsbDescriptors.h`. -/
abbrev HRBC : Nat := HidReportByteCount

/-! ## Descriptor tables (program memory) -/

/-- Device descriptor, `UsbDescriptors.h` lines 52-72. -/
def DeviceDescriptor : List Nat :=
  [0x12, 0x01, 0x00, 0x02, 0x00, 0x00, 0x00, E0SZ, VIDL, VIDH, PIDL, PIDH, RELL, RELH,
   SMAN, SPRD, SSER, 0x01]

/-- Member `configHeader` of `ConfigurationDescriptor`. -/
def configHeader : List Nat :=
  [0x09, 0x02, 0x29, 0x00, INTF, 0x01, SCON, 0xA0, 0x32]

/-- Member `HIDDescriptor` of `ConfigurationDescriptor`: interface descriptor, HID
class descriptor and the two endpoint descriptors. -/
def HIDDescriptor : List Nat :=
  [0x09, 0x04, IHID, 0x00, 0x02, 0x03, 0x01, 0x01, 0x00,
   0x09, 0x21, 0x11, 0x01, 0x00, 0x01, 0x22, 0x3F, 0x00,
   0x07, 0x05, 0x81, 0x03, HRBC, 0x00, 0x01,
   0x07, 0x05, 0x01, 0x03, HRBC, 0x00, 0x01]

/-- The whole `ConfigurationDescriptor` structure as bytes. -/
def ConfigurationDescriptor : List Nat := configHeader ++ HIDDescriptor

/-- Report descriptor `HIDReport`, `UsbDescriptors.h` lines 142-175. -/
def HIDReport : List Nat :=
  [0x05, 0x01, 0x09, 0x06, 0xa1, 0x01, 0x05, 0x07, 0x19, 0xe0, 0x29, 0xe7, 0x15, 0x00,
   0x25, 0x01, 0x75, 0x01, 0x95, 0x08, 0x81, 0x02, 0x95, 0x01, 0x75, 0x08, 0x81, 0x03,
   0x95, 0x05, 0x75, 0x01, 0x05, 0x08, 0x19, 0x01, 0x29, 0x05, 0x91, 0x02, 0x95, 0x01,
   0x75, 0x03, 0x91, 0x03, 0x95, 0x06, 0x75, 0x08, 0x15, 0x00, 0x25, 0x65, 0x05, 0x07,
   0x19, 0x00, 0x29, 0x65, 0x81, 0x00, 0xc0]

/-- Bytes of a string descriptor structure `{bLength, bDscType, uint16_t string[n]}`
whose `bLength` is `sizeof` of the structure; 16-bit units are little endian. -/
def stringDescriptorBytes (units : List Nat) : List Nat :=
  (2 + 2 * units.length) :: 0x03 :: units.flatMap (fun u => [u % 256, u / 256])

/-- Language-ID descriptor `StringDescriptor0`. -/
def StringDescriptor0 : List Nat := stringDescriptorBytes [0x0409]

/-- Manufacturer string `StringDescriptor1`. -/
def StringDescriptor1 : List Nat :=
  stringDescriptorBytes
    (['J', 'o', 'e', ' ', 'O', 's', 't', 'r', 'a', 'n', 'd', 'e', 'r'].map Char.toNat)

/-- Product string `StringDescriptor2`. -/
def StringDescriptor2 : List Nat :=
  stringDescriptorBytes
    (['N', 'E', 'S', ' ', 'K', 'e', 'y', 'b', 'o', 'a', 'r', 'd'].map Char.toNat)

/-! ## Pointers -/

/-- Objects of program memory a `const uint8_t *` can point into. -/
inductive RomObj where
  | null
  | DeviceDescriptor
  | ConfigurationDescriptor
  | HIDReport
  | StringDescriptor0
  | StringDescriptor1
  | StringDescriptor2
  deriving DecidableEq, Repr

/-- Objects of data memory a `uint8_t *` can point into. -/
inductive RamObj where
  | null
  | Interfaces
  | ControlTransferBuffer
  | HidIdleRate
  | HidProtocol
  | CurrentConfiguration
  | HIDTxBuffer
  | HIDRxBuffer
  deriving DecidableEq, Repr

/-- A pointer into program memory: object and byte offset. -/
structure RomPtr where
  obj : RomObj
  off : Nat
  deriving DecidableEq, Repr

/-- A pointer into data memory: object and byte offset. -/
structure RamPtr where
  obj : RamObj
  off : Nat
  deriving DecidableEq, Repr

/-- The declared bytes of each program-memory object. -/
def romTable : RomObj → List Nat
  | .null => []
  | .DeviceDescriptor => DeviceDescriptor
  | .ConfigurationDescriptor => ConfigurationDescriptor
  | .HIDReport => HIDReport
  | .StringDescriptor0 => StringDescriptor0
  | .StringDescriptor1 => StringDescriptor1
  | .StringDescriptor2 => StringDescriptor2

/-- `StringDescriptorPointers`, `UsbDescriptors.h` lines 187-192. -/
def StringDescriptorPointers : List RomPtr :=
  [⟨.StringDescriptor0, 0⟩, ⟨.StringDescriptor1, 0⟩, ⟨.StringDescriptor2, 0⟩]

/-- `BufferInfo` (declared in `Usb.h`): a size and the buffer it describes. -/
structure BufferInfo where
  Size : Nat
  Buffer : RamObj
  deriving DecidableEq, Repr

/-- What the sources do not determine: the 16-bit addresses that the macro `PTR16`
(declared in `Usb.h`) yields for `SetupPacket` and for the buffer objects, the content
of program memory outside the descriptor tables, and what an index past the end of
the table `Buffers` finds. -/
structure Layout where
  SetupPacket : Nat
  addr : RamObj → Nat
  romBeyond : RomObj → Nat → Nat
  buffersBeyond : Nat → BufferInfo

/-- `Buffers`, `UsbDescriptors.h` lines 41-45. -/
def Buffers : List BufferInfo :=
  [⟨HidReportByteCount, .HIDTxBuffer⟩, ⟨HidReportByteCount, .HIDRxBuffer⟩]

/-- The element `Buffers[k]`. -/
def BuffersAt (L : Layout) (k : Nat) : BufferInfo :=
  if h : k < Buffers.length then Buffers[k] else L.buffersBeyond k

/-- Macro `PTR16` applied to the address of a data-memory object. -/
def PTR16 (L : Layout) (o : RamObj) : Nat := L.addr o

/-- Read `*p` for a pointer into program memory. -/
def romRead (L : Layout) (p : RomPtr) : Nat :=
  if p.off < (romTable p.obj).length then (romTable p.obj).getD p.off 0
  else L.romBeyond p.obj p.off

/-! ## Data model -/

/-- Buffer descriptor `BDT`. -/
structure BDT where
  Stat : Nat
  Cnt : Nat
  ADDR : Nat
  deriving DecidableEq, Repr

/-- Descriptor pair `Interface` of one endpoint. -/
structure Interface where
  Output : BDT
  Input : BDT
  deriving DecidableEq, Repr

/-- Setup packet `setupPacketStruct`. -/
structure setupPacketStruct where
  bmRequestType : Nat
  bRequest : Nat
  wValue0 : Nat
  wValue1 : Nat
  wIndex0 : Nat
  wIndex1 : Nat
  wLength : Nat
  extra : Nat
  deriving DecidableEq, Repr

/-- The bits of register `UCON` the firmware names. -/
structure UCONbits where
  PPBRST : Nat
  SE0 : Nat
  PKTDIS : Nat
  USBEN : Nat
  SUSPND : Nat
  deriving DecidableEq, Repr

/-- All globals of `Usb.c`, the buffers of `UsbDescriptors.h`, the globals of `Main.c`
and the SIE registers the firmware touches.  `Interfaces k` for `k > InterfaceCount`
and `ControlTransferBuffer k` for `k ≥ E0SZ` (likewise the two HID buffers) are the
memory that follows the declared array. -/
structure State where
  RemoteWakeup : Nat
  DeviceAddress : Nat
  SelfPowered : Nat
  CtrlTransferStage : Nat
  CurrentConfiguration : Nat
  HIDPostProcess : Nat
  RequestHandled : Nat
  HidIdleRate : Nat
  HidProtocol : Nat
  HidRxLen : Nat
  ROMoutPtr : RomPtr
  outPtr : RamPtr
  inPtr : RamPtr
  transferType : Nat
  wCount : Nat
  SetupPacket : setupPacketStruct
  ControlTransferBuffer : Nat → Nat
  EndpointFlags : Nat → Nat
  Interfaces : Nat → Interface
  DeviceState : Nat
  HIDRxBuffer : Nat → Nat
  HIDTxBuffer : Nat → Nat
  beyond : RamObj → Nat → Nat
  UCFG : Nat
  UADDR : Nat
  UEIR : Nat
  UEIE : Nat
  UIR : Nat
  UIE : Nat
  UEP0 : Nat
  USTAT : Nat
  UCON : UCONbits
  UsbInterrupt : Nat
  last_keypad_reading : Nat
  LED : Nat

/-! ## Byte access through pointers -/

/-- Byte `k` (0..3) of a buffer descriptor: `Stat`, `Cnt`, then `ADDR` low and high. -/
def BDT.readByte (b : BDT) (k : Nat) : Nat :=
  if k = 0 then b.Stat
  else if k = 1 then b.Cnt
  else if k = 2 then b.ADDR % 256
  else b.ADDR / 256 % 256

/-- Store `v` into byte `k` (0..3) of a buffer descriptor. -/
def BDT.writeByte (b : BDT) (k v : Nat) : BDT :=
  if k = 0 then { b with Stat := v }
  else if k = 1 then { b with Cnt := v }
  else if k = 2 then { b with ADDR := b.ADDR / 256 % 256 * 256 + v % 256 }
  else { b with ADDR := v % 256 * 256 + b.ADDR % 256 }

/-- An assignment to fields of `Interfaces[k].Output`. -/
abbrev State.modOutput (s : State) (k : Nat) (f : BDT → BDT) : State :=
  { s with
    Interfaces :=
      Function.update s.Interfaces k { (s.Interfaces k) with Output := f (s.Interfaces k).Output } }

/-- An assignment to fields of `Interfaces[k].Input`. -/
abbrev State.modInput (s : State) (k : Nat) (f : BDT → BDT) : State :=
  { s with
    Interfaces :=
      Function.update s.Interfaces k { (s.Interfaces k) with Input := f (s.Interfaces k).Input } }

/-- Read `*p` for a pointer into data memory.  An `Interface` is 8 bytes: the OUT
descriptor then the IN descriptor, 4 bytes each. -/
def readByte (s : State) (p : RamPtr) : Nat :=
  match p.obj with
  | .Interfaces =>
    if p.off % 8 < 4 then (s.Interfaces (p.off / 8)).Output.readByte (p.off % 4)
    else (s.Interfaces (p.off / 8)).Input.readByte (p.off % 4)
  | .ControlTransferBuffer => s.ControlTransferBuffer p.off
  | .HIDTxBuffer => s.HIDTxBuffer p.off
  | .HIDRxBuffer => s.HIDRxBuffer p.off
  | .HidIdleRate => if p.off = 0 then s.HidIdleRate else s.beyond .HidIdleRate p.off
  | .HidProtocol => if p.off = 0 then s.HidProtocol else s.beyond .HidProtocol p.off
  | .CurrentConfiguration =>
    if p.off = 0 then s.CurrentConfiguration else s.beyond .CurrentConfiguration p.off
  | .null => s.beyond .null p.off

/-- Perform `*p = v` for a pointer into data memory. -/
def writeByte (s : State) (p : RamPtr) (v : Nat) : State :=
  match p.obj with
  | .Interfaces =>
    if p.off % 8 < 4 then
      s.modOutput (p.off / 8) fun b => b.writeByte (p.off % 4) v
    else
      s.modInput (p.off / 8) fun b => b.writeByte (p.off % 4) v
  | .ControlTransferBuffer =>
    { s with ControlTransferBuffer := Function.update s.ControlTransferBuffer p.off v }
  | .HIDTxBuffer => { s with HIDTxBuffer := Function.update s.HIDTxBuffer p.off v }
  | .HIDRxBuffer => { s with HIDRxBuffer := Function.update s.HIDRxBuffer p.off v }
  | .HidIdleRate =>
    if p.off = 0 then { s with HidIdleRate := v }
    else { s with beyond := Function.update s.beyond .HidIdleRate
                    (Function.update (s.beyond .HidIdleRate) p.off v) }
  | .HidProtocol =>
    if p.off = 0 then { s with HidProtocol := v }
    else { s with beyond := Function.update s.beyond .HidProtocol
                    (Function.update (s.beyond .HidProtocol) p.off v) }
  | .CurrentConfiguration =>
    if p.off = 0 then { s with CurrentConfiguration := v }
    else { s with beyond := Function.update s.beyond .CurrentConfiguration
                    (Function.update (s.beyond .CurrentConfiguration) p.off v) }
  | .null =>
    { s with beyond := Function.update s.beyond .null
               (Function.update (s.beyond .null) p.off v) }

/-- Pointer increment `p++`. -/
def RamPtr.succ (p : RamPtr) : RamPtr := { p with off := p.off + 1 }

/-- Pointer increment `p++` in program memory. -/
def RomPtr.succ (p : RomPtr) : RomPtr := { p with off := p.off + 1 }

/-! ## Report send / receive (`Usb.c` lines 186-229) -/

/-- `IsUsbDataAvaialble`. -/
def IsUsbDataAvaialble (s : State) (InterfaceNo : Nat) : Nat :=
  if InterfaceNo ≥ InterfaceCount then 0
  else if (s.Interfaces (InterfaceNo + 1)).Output.Stat &&& UOWN = 0 then
    (s.Interfaces (InterfaceNo + 1)).Output.Cnt
  else 0

/-- `ReArmInterface`. -/
def ReArmInterface (L : Layout) (InterfaceNo : Nat) (s : State) : State :=
  if (s.Interfaces (InterfaceNo + 1)).Output.Stat &&& UOWN = 0 then
    let s := s.modOutput (InterfaceNo + 1) fun b =>
      { b with
        Cnt := (BuffersAt L (InterfaceNo * 2 + 1)).Size }
    if (s.Interfaces (InterfaceNo + 1)).Output.Stat &&& DTS ≠ 0 then
      s.modOutput (InterfaceNo + 1) fun b =>
        { b with Stat := UOWN ||| DTSEN }
    else
      s.modOutput (InterfaceNo + 1) fun b =>
        { b with Stat := UOWN ||| DTS ||| DTSEN }
  else s

/-- `HIDSend`. -/
def HIDSend (L : Layout) (InterfaceNo : Nat) (s : State) : State :=
  if (s.Interfaces (InterfaceNo + 1)).Input.Stat &&& UOWN ≠ 0 then s
  else
    let s := s.modInput (InterfaceNo + 1) fun b =>
      { b with
        Cnt := (BuffersAt L (InterfaceNo * 2)).Size }
    if (s.Interfaces (InterfaceNo + 1)).Input.Stat &&& DTS ≠ 0 then
      s.modInput (InterfaceNo + 1) fun b =>
        { b with Stat := UOWN ||| DTSEN }
    else
      s.modInput (InterfaceNo + 1) fun b =>
        { b with Stat := UOWN ||| DTS ||| DTSEN }

/-- Body of the loop of `HIDInitEndpoints` for interface `i`. -/
def HIDInitEndpoints_body (L : Layout) (s : State) (i : Nat) : State :=
  let s := { s with EndpointFlags := Function.update s.EndpointFlags i 0x1E }
  let s := s.modOutput (i + 1) fun b =>
    { b with Cnt := (BuffersAt L (i * 2 + 1)).Size }
  let s := s.modOutput (i + 1) fun b =>
    { b with ADDR := PTR16 L (BuffersAt L (i * 2 + 1)).Buffer }
  let s := s.modOutput (i + 1) fun b =>
    { b with Stat := UOWN ||| DTSEN }
  let s := s.modInput (i + 1) fun b =>
    { b with ADDR := PTR16 L (BuffersAt L (i * 2)).Buffer }
  s.modInput (i + 1) fun b => { b with Stat := DTS }

/-- `HIDInitEndpoints`: the loop runs `i = 0 .. InterfaceCount - 1`. -/
def HIDInitEndpoints (L : Layout) (s : State) : State :=
  (List.range InterfaceCount).foldl (HIDInitEndpoints_body L) { s with HidRxLen := 0 }

/-! ## HID class requests (`Usb.c` lines 258-340) -/

/-- `ProcessHIDRequest`. -/
def ProcessHIDRequest (s : State) : State :=
  -- Has to be to the HID interface
  if s.SetupPacket.bmRequestType &&& 0x1F ≠ 0x01 ∨ s.SetupPacket.wIndex0 ≠ 0x00 then s
  else
    let bRequest := s.SetupPacket.bRequest
    let s :=
      if bRequest = GET_DESCRIPTOR then
        let descriptorType := s.SetupPacket.wValue1
        if descriptorType = HID_DESCRIPTOR then
          { s with RequestHandled := 1
                   ROMoutPtr := ⟨.ConfigurationDescriptor, CONFIG_HEADER_SIZE⟩
                   wCount := HidDescriptorSize
                   transferType := 1 }
        else if descriptorType = REPORT_DESCRIPTOR then
          { s with RequestHandled := 1
                   ROMoutPtr := ⟨.HIDReport, 0⟩
                   wCount := HIDReport.length
                   transferType := 1 }
        else s
      else s
    if s.SetupPacket.bmRequestType &&& 0x60 ≠ 0x20 then s
    else if bRequest = GET_REPORT then s
    else if bRequest = SET_REPORT then
      { s with HIDPostProcess := 1, RequestHandled := 1 }
    else if bRequest = GET_IDLE then
      { s with RequestHandled := 1, outPtr := ⟨.HidIdleRate, 0⟩, wCount := 1,
               transferType := 0 }
    else if bRequest = SET_IDLE then
      { s with RequestHandled := 1, HidIdleRate := s.SetupPacket.wValue1 }
    else if bRequest = GET_PROTOCOL then
      { s with RequestHandled := 1, outPtr := ⟨.HidProtocol, 0⟩, wCount := 1,
               transferType := 0 }
    else if bRequest = SET_PROTOCOL then
      { s with RequestHandled := 1, HidProtocol := s.SetupPacket.wValue0 }
    else s

/-! ## Standard requests (`Usb.c` lines 343-560) -/

/-- `GetDescriptor`. -/
def GetDescriptor (L : Layout) (s : State) : State :=
  if s.SetupPacket.bmRequestType = 0x80 then
    let descriptorType := s.SetupPacket.wValue1
    let descriptorIndex := s.SetupPacket.wValue0
    if descriptorType = DEVICE_DESCRIPTOR then
      { s with RequestHandled := 1
               ROMoutPtr := ⟨.DeviceDescriptor, 0⟩
               wCount := DeviceDescriptor.length
               transferType := 1 }
    else if descriptorType = CONFIGURATION_DESCRIPTOR then
      { s with RequestHandled := 1
               ROMoutPtr := ⟨.ConfigurationDescriptor, 0⟩
               wCount := CONFIG_HEADER_SIZE + HidDescriptorSize
               transferType := 1 }
    else if descriptorType = STRING_DESCRIPTOR then
      let s := { s with RequestHandled := 1 }
      let s :=
        if descriptorIndex ≥ StringDescriptorCount then
          { s with ROMoutPtr := ⟨.StringDescriptor0, 0⟩ }
        else
          { s with ROMoutPtr := StringDescriptorPointers.getD descriptorIndex ⟨.null, 0⟩ }
      { s with wCount := romRead L s.ROMoutPtr, transferType := 1 }
    else s
  else s

/-- `GetStatus`. -/
def GetStatus (s : State) : State :=
  let recipient := s.SetupPacket.bmRequestType &&& 0x1F
  let s := { s with ControlTransferBuffer := Function.update s.ControlTransferBuffer 0 0 }
  let s := { s with ControlTransferBuffer := Function.update s.ControlTransferBuffer 1 0 }
  let s :=
    if recipient = 0x00 then
      let s := { s with RequestHandled := 1 }
      let s :=
        if s.SelfPowered ≠ 0 then
          { s with ControlTransferBuffer :=
              Function.update s.ControlTransferBuffer 0 (s.ControlTransferBuffer 0 ||| 0x01) }
        else s
      if s.RemoteWakeup ≠ 0 then
        { s with ControlTransferBuffer :=
            Function.update s.ControlTransferBuffer 0 (s.ControlTransferBuffer 0 ||| 0x02) }
      else s
    else if recipient = 0x01 then
      { s with RequestHandled := 1 }
    else if recipient = 0x02 then
      let endpointNum := s.SetupPacket.wIndex0 &&& 0x0F
      let endpointDir := s.SetupPacket.wIndex0 &&& 0x80
      let s := { s with RequestHandled := 1 }
      let s := { s with inPtr := ⟨.Interfaces, endpointNum * 8⟩ }
      let s := if endpointDir ≠ 0 then { s with inPtr := ⟨s.inPtr.obj, s.inPtr.off + 4⟩ } else s
      if readByte s s.inPtr &&& BSTALL ≠ 0 then
        { s with ControlTransferBuffer := Function.update s.ControlTransferBuffer 0 0x01 }
      else s
    else s
  if s.RequestHandled ≠ 0 then
    { s with outPtr := ⟨.ControlTransferBuffer, 0⟩, wCount := 2, transferType := 0 }
  else s

/-- `SetFeature` (handles `SET_FEATURE` and `CLEAR_FEATURE`). -/
def SetFeature (s : State) : State :=
  let recipient := s.SetupPacket.bmRequestType &&& 0x1F
  let feature := s.SetupPacket.wValue0
  if recipient = 0x00 then
    if feature = DEVICE_REMOTE_WAKEUP then
      let s := { s with RequestHandled := 1 }
      if s.SetupPacket.bRequest = SET_FEATURE then { s with RemoteWakeup := 1 }
      else { s with RemoteWakeup := 0 }
    else s
  else if recipient = 0x02 then
    let endpointNum := s.SetupPacket.wIndex0 &&& 0x0F
    let endpointDir := s.SetupPacket.wIndex0 &&& 0x80
    if feature = ENDPOINT_HALT ∧ endpointNum ≠ 0 then
      let s := { s with RequestHandled := 1 }
      let s := { s with inPtr := ⟨.Interfaces, endpointNum * 8⟩ }
      let s := if endpointDir ≠ 0 then { s with inPtr := ⟨s.inPtr.obj, s.inPtr.off + 4⟩ } else s
      if s.SetupPacket.bRequest = SET_FEATURE then writeByte s s.inPtr 0x84
      else if endpointDir = 1 then writeByte s s.inPtr 0x00
      else writeByte s s.inPtr 0x88
    else s
  else s

/-- `ProcessStandardRequest`. -/
def ProcessStandardRequest (L : Layout) (s : State) : State :=
  let request := s.SetupPacket.bRequest
  if s.SetupPacket.bmRequestType &&& 0x60 ≠ 0x00 then s
  else if request = SET_ADDRESS then
    { s with RequestHandled := 1, DeviceState := ADDRESS,
             DeviceAddress := s.SetupPacket.wValue0 }
  else if request = GET_DESCRIPTOR then GetDescriptor L s
  else if request = SET_CONFIGURATION then
    let s := { s with RequestHandled := 1, CurrentConfiguration := s.SetupPacket.wValue0 }
    if s.CurrentConfiguration = 0 then { s with DeviceState := ADDRESS }
    else HIDInitEndpoints L { s with DeviceState := CONFIGURED }
  else if request = GET_CONFIGURATION then
    { s with RequestHandled := 1, outPtr := ⟨.CurrentConfiguration, 0⟩, wCount := 1,
             transferType := 0 }
  else if request = GET_STATUS then GetStatus s
  else if request = CLEAR_FEATURE ∨ request = SET_FEATURE then SetFeature s
  else if request = GET_INTERFACE then
    { s with RequestHandled := 1
             ControlTransferBuffer := Function.update s.ControlTransferBuffer 0 0
             outPtr := ⟨.ControlTransferBuffer, 0⟩
             wCount := 1
             transferType := 0 }
  else if request = SET_INTERFACE then { s with RequestHandled := 1 }
  else if request = SET_DESCRIPTOR then s
  else if request = SYNCH_FRAME then s
  else s

/-! ## Control transfers (`Usb.c` lines 563-751) -/

/-- Body of the loop `for(i=0;i<n;i++) *inPtr++ = *ROMoutPtr++;`. -/
def copyFromRom_body (L : Layout) (s : State) : State :=
  let s := writeByte s s.inPtr (romRead L s.ROMoutPtr)
  { s with inPtr := s.inPtr.succ, ROMoutPtr := s.ROMoutPtr.succ }

/-- The loop `for(i=0;i<n;i++) *inPtr++ = *ROMoutPtr++;`. -/
def copyFromRom (L : Layout) : Nat → State → State
  | 0, s => s
  | n + 1, s => copyFromRom L n (copyFromRom_body L s)

/-- Body of the loop `for(i=0;i<n;i++) *inPtr++ = *outPtr++;`. -/
def copyFromRam_body (s : State) : State :=
  let s := writeByte s s.inPtr (readByte s s.outPtr)
  { s with inPtr := s.inPtr.succ, outPtr := s.outPtr.succ }

/-- The loop `for(i=0;i<n;i++) *inPtr++ = *outPtr++;`. -/
def copyFromRam : Nat → State → State
  | 0, s => s
  | n + 1, s => copyFromRam n (copyFromRam_body s)

/-- `InDataStage`. -/
def InDataStage (L : Layout) (s : State) : State :=
  let bufferSize := if s.wCount < E0SZ then s.wCount else E0SZ
  let s := s.modInput 0 fun b =>
    { b with Stat := b.Stat &&& (0xFF ^^^ (BC8 ||| BC9)) }
  let s := s.modInput 0 fun b =>
    { b with Stat := b.Stat ||| (((bufferSize &&& 0x0300) >>> 8) % 256) }
  let s := s.modInput 0 fun b => { b with Cnt := (bufferSize &&& 0xFF) % 256 }
  let s := s.modInput 0 fun b =>
    { b with ADDR := PTR16 L .ControlTransferBuffer }
  let s := { s with wCount := s.wCount - bufferSize }
  let s := { s with inPtr := ⟨.ControlTransferBuffer, 0⟩ }
  if s.transferType = 1 then copyFromRom L bufferSize s
  else copyFromRam bufferSize s

/-- `OutDataStage`. -/
def OutDataStage (s : State) : State :=
  let bufferSize := (((0x03 &&& (s.Interfaces 0).Output.Stat) <<< 8) ||| (s.Interfaces 0).Output.Cnt) % 65536
  let s := { s with wCount := (s.wCount + bufferSize) % 65536 }
  let s := { s with outPtr := ⟨.ControlTransferBuffer, 0⟩ }
  copyFromRam bufferSize s

/-- `SetupStage`. -/
def SetupStage (L : Layout) (s : State) : State :=
  let s := s.modInput 0 fun b =>
    { b with Stat := b.Stat &&& (0xFF ^^^ UOWN) }
  let s := s.modOutput 0 fun b =>
    { b with Stat := b.Stat &&& (0xFF ^^^ UOWN) }
  let s := { s with CtrlTransferStage := SETUP_STAGE, RequestHandled := 0,
                    HIDPostProcess := 0, wCount := 0 }
  let s := ProcessStandardRequest L s
  let s := ProcessHIDRequest s
  let s :=
    if s.RequestHandled = 0 then
      let s := s.modOutput 0 fun b => { b with Cnt := E0SZ }
      let s := s.modOutput 0 fun b => { b with ADDR := L.SetupPacket }
      let s := s.modOutput 0 fun b => { b with Stat := UOWN ||| BSTALL }
      s.modInput 0 fun b => { b with Stat := UOWN ||| BSTALL }
    else if s.SetupPacket.bmRequestType &&& 0x80 ≠ 0 then
      let s := if s.SetupPacket.wLength < s.wCount then
                 { s with wCount := s.SetupPacket.wLength } else s
      let s := InDataStage L s
      let s := { s with CtrlTransferStage := DATA_IN_STAGE }
      let s := s.modOutput 0 fun b => { b with Cnt := E0SZ }
      let s := s.modOutput 0 fun b => { b with ADDR := L.SetupPacket }
      let s := s.modOutput 0 fun b => { b with Stat := UOWN }
      let s := s.modInput 0 fun b =>
        { b with ADDR := PTR16 L .ControlTransferBuffer }
      s.modInput 0 fun b => { b with Stat := UOWN ||| DTS ||| DTSEN }
    else
      let s := { s with CtrlTransferStage := DATA_OUT_STAGE }
      let s := s.modInput 0 fun b => { b with Cnt := 0 }
      let s := s.modInput 0 fun b => { b with Stat := UOWN ||| DTS ||| DTSEN }
      let s := s.modOutput 0 fun b => { b with Cnt := E0SZ }
      let s := s.modOutput 0 fun b =>
        { b with ADDR := PTR16 L .ControlTransferBuffer }
      s.modOutput 0 fun b => { b with Stat := UOWN ||| DTS ||| DTSEN }
  { s with UCON := { s.UCON with PKTDIS := 0 } }

/-- `WaitForSetupStage`. -/
def WaitForSetupStage (L : Layout) (s : State) : State :=
  let s := { s with CtrlTransferStage := SETUP_STAGE }
  let s := s.modOutput 0 fun b => { b with Cnt := E0SZ }
  let s := s.modOutput 0 fun b => { b with ADDR := L.SetupPacket }
  let s := s.modOutput 0 fun b => { b with Stat := UOWN ||| DTSEN }
  s.modInput 0 fun b => { b with Stat := 0x00 }

/-- `ProcessControlTransfer`. -/
def ProcessControlTransfer (L : Layout) (s : State) : State :=
  if s.USTAT = 0 then
    -- Endpoint 0:out
    let PID := ((s.Interfaces 0).Output.Stat &&& 0x3C) >>> 2
    if PID = 0x0D then SetupStage L s
    else if s.CtrlTransferStage = DATA_OUT_STAGE then
      let s := OutDataStage s
      if (s.Interfaces 0).Output.Stat &&& DTS ≠ 0 then
        s.modOutput 0 fun b => { b with Stat := UOWN ||| DTSEN }
      else
        s.modOutput 0 fun b => { b with Stat := UOWN ||| DTS ||| DTSEN }
    else WaitForSetupStage L s
  else if s.USTAT = 0x04 then
    -- Endpoint 0:in
    let s :=
      if s.UADDR = 0 ∧ s.DeviceState = ADDRESS then
        let s := { s with UADDR := s.SetupPacket.wValue0 }
        if s.UADDR = 0 then { s with DeviceState := DEFAULT } else s
      else s
    if s.CtrlTransferStage = DATA_IN_STAGE then
      let s := InDataStage L s
      if (s.Interfaces 0).Input.Stat &&& DTS ≠ 0 then
        s.modInput 0 fun b => { b with Stat := UOWN ||| DTSEN }
      else
        s.modInput 0 fun b => { b with Stat := UOWN ||| DTS ||| DTSEN }
    else WaitForSetupStage L s
  else s

/-! ## Bus events (`Usb.c` lines 833-857) -/

/-- `BusReset`.  The loop `while (UIRbits.TRNIF == 1) UIRbits.TRNIF = 0;` clears the
flag when it is set. -/
def BusReset (L : Layout) (s : State) : State :=
  let s := { s with UEIR := 0x00 }
  let s := { s with UIR := 0x00 }
  let s := { s with UEIE := 0x9f }
  let s := { s with UIE := 0x7b }
  let s := { s with UADDR := 0x00 }
  let s := { s with UEP0 := 0x16 }
  let s := if s.UIR &&& USB_TRN ≠ 0 then { s with UIR := s.UIR &&& (0xFF ^^^ USB_TRN) } else s
  let s := { s with UCON := { s.UCON with PKTDIS := 0 } }
  let s := WaitForSetupStage L s
  { s with RemoteWakeup := 0, SelfPowered := 0, CurrentConfiguration := 0,
           DeviceState := DEFAULT }

/-! ## Concrete inputs -/

/-- A link layout: every address distinct, unmodelled memory all zero. -/
def sampleLayout : Layout :=
  { SetupPacket := 0x2010
    addr := fun o =>
      match o with
      | .ControlTransferBuffer => 0x2020
      | .HIDTxBuffer => 0x2030
      | .HIDRxBuffer => 0x2038
      | _ => 0
    romBeyond := fun _ _ => 0
    buffersBeyond := fun _ => ⟨0, .null⟩ }

/-- The state at program start: C zero-initialises every global. -/
def zeroState : State :=
  { RemoteWakeup := 0, DeviceAddress := 0, SelfPowered := 0, CtrlTransferStage := 0,
    CurrentConfiguration := 0, HIDPostProcess := 0, RequestHandled := 0, HidIdleRate := 0,
    HidProtocol := 0, HidRxLen := 0, ROMoutPtr := ⟨.null, 0⟩, outPtr := ⟨.null, 0⟩,
    inPtr := ⟨.null, 0⟩, transferType := 0, wCount := 0,
    SetupPacket := ⟨0, 0, 0, 0, 0, 0, 0, 0⟩,
    ControlTransferBuffer := fun _ => 0, EndpointFlags := fun _ => 0,
    Interfaces := fun _ => ⟨⟨0, 0, 0⟩, ⟨0, 0, 0⟩⟩, DeviceState := 0,
    HIDRxBuffer := fun _ => 0, HIDTxBuffer := fun _ => 0, beyond := fun _ _ => 0,
    UCFG := 0, UADDR := 0, UEIR := 0, UEIE := 0, UIR := 0, UIE := 0, UEP0 := 0, USTAT := 0,
    UCON := ⟨0, 0, 0, 0, 0⟩, UsbInterrupt := 0, last_keypad_reading := 0, LED := 0 }

/-- A state holding the Setup packet `p`, everything else as at program start. -/
def stateWithPacket (p : setupPacketStruct) : State := { zeroState with SetupPacket := p }

/-- A state in which endpoint 1 is in flight in both directions: both descriptors
are owned by the SIE. -/
def inFlightState : State :=
  { zeroState with
    DeviceState := CONFIGURED
    Interfaces := fun k =>
      if k = 1 then ⟨⟨UOWN ||| DTSEN, 8, 0x2038⟩, ⟨UOWN ||| DTS ||| DTSEN, 8, 0x2030⟩⟩
      else ⟨⟨0, 0, 0⟩, ⟨0, 0, 0⟩⟩ }

/-- A configured state in which the firmware owns the IN descriptor of endpoint 1. -/
def readyState : State :=
  { zeroState with
    DeviceState := CONFIGURED
    Interfaces := fun k =>
      if k = 1 then ⟨⟨UOWN ||| DTSEN, 8, 0x2038⟩, ⟨DTS, 0, 0x2030⟩⟩
      else ⟨⟨0, 0, 0⟩, ⟨0, 0, 0⟩⟩ }

/-- A state in the Default device state holding the Setup packet `p`. -/
def defaultStateWithPacket (p : setupPacketStruct) : State :=
  { zeroState with SetupPacket := p, DeviceState := DEFAULT }

/-! ## Decomposition of the control-transfer functions -/

/-- The assignments `SetupStage` makes before it dispatches the request. -/
def SetupStage_init (s : State) : State :=
  let s := s.modInput 0 fun b => { b with Stat := b.Stat &&& (0xFF ^^^ UOWN) }
  let s := s.modOutput 0 fun b => { b with Stat := b.Stat &&& (0xFF ^^^ UOWN) }
  { s with CtrlTransferStage := SETUP_STAGE, RequestHandled := 0,
           HIDPostProcess := 0, wCount := 0 }

/-- The assignments `SetupStage` makes after the two dispatchers ran. -/
def SetupStage_finish (L : Layout) (s : State) : State :=
  let s :=
    if s.RequestHandled = 0 then
      let s := s.modOutput 0 fun b => { b with Cnt := E0SZ }
      let s := s.modOutput 0 fun b => { b with ADDR := L.SetupPacket }
      let s := s.modOutput 0 fun b => { b with Stat := UOWN ||| BSTALL }
      s.modInput 0 fun b => { b with Stat := UOWN ||| BSTALL }
    else if s.SetupPacket.bmRequestType &&& 0x80 ≠ 0 then
      let s := if s.SetupPacket.wLength < s.wCount then
                 { s with wCount := s.SetupPacket.wLength } else s
      let s := InDataStage L s
      let s := { s with CtrlTransferStage := DATA_IN_STAGE }
      let s := s.modOutput 0 fun b => { b with Cnt := E0SZ }
      let s := s.modOutput 0 fun b => { b with ADDR := L.SetupPacket }
      let s := s.modOutput 0 fun b => { b with Stat := UOWN }
      let s := s.modInput 0 fun b =>
        { b with ADDR := PTR16 L .ControlTransferBuffer }
      s.modInput 0 fun b => { b with Stat := UOWN ||| DTS ||| DTSEN }
    else
      let s := { s with CtrlTransferStage := DATA_OUT_STAGE }
      let s := s.modInput 0 fun b => { b with Cnt := 0 }
      let s := s.modInput 0 fun b => { b with Stat := UOWN ||| DTS ||| DTSEN }
      let s := s.modOutput 0 fun b => { b with Cnt := E0SZ }
      let s := s.modOutput 0 fun b =>
        { b with ADDR := PTR16 L .ControlTransferBuffer }
      s.modOutput 0 fun b => { b with Stat := UOWN ||| DTS ||| DTSEN }
  { s with UCON := { s.UCON with PKTDIS := 0 } }

/-- A state that either is marked handled or still has `wCount = w`. -/
def unhandledKeeps (w : Nat) (x : State) : Prop := x.RequestHandled = 0 → x.wCount = w

/-- The bytes the endpoint-0 IN descriptor presents to the SIE: `Cnt` bytes of the
control transfer buffer. -/
def stagedPacket (s : State) : List Nat :=
  (List.range (s.Interfaces 0).Input.Cnt).map s.ControlTransferBuffer

/-- An endpoint-0 IN transaction completes: the SIE reports `USTAT = 0x04` and the
firmware runs `ProcessControlTransfer`. -/
def completeIn (L : Layout) (s : State) : State :=
  ProcessControlTransfer L { s with USTAT := 0x04 }

/-- Drain the Data-In stage: while `wCount` is not zero, let an IN transaction
complete and collect the packet staged in response.  Returns the bytes staged and
the final state. -/
def drainIn (L : Layout) : Nat → State → List Nat × State
  | 0, s => ([], s)
  | fuel + 1, s =>
    if s.wCount = 0 then ([], s)
    else
      let s1 := completeIn L s
      ((stagedPacket s1) ++ (drainIn L fuel s1).1, (drainIn L fuel s1).2)

/-- The bytes `n` reads of program memory starting at `p` yield. -/
def romBytes (L : Layout) (p : RomPtr) (n : Nat) : List Nat :=
  (List.range n).map fun i => romRead L ⟨p.obj, p.off + i⟩

/-- The address update `ProcessControlTransfer` makes on an endpoint-0 IN completion. -/
def applyAddress (s : State) : State :=
  if s.UADDR = 0 ∧ s.DeviceState = ADDRESS then
    let s := { s with UADDR := s.SetupPacket.wValue0 }
    if s.UADDR = 0 then { s with DeviceState := DEFAULT } else s
  else s

/-- The data-toggle flip `ProcessControlTransfer` makes after `InDataStage`. -/
def toggleIn (s : State) : State :=
  if (s.Interfaces 0).Input.Stat &&& DTS ≠ 0 then
    s.modInput 0 fun b => { b with Stat := UOWN ||| DTSEN }
  else
    s.modInput 0 fun b => { b with Stat := UOWN ||| DTS ||| DTSEN }

/-- The clamp of `wCount` to `wLength` that `SetupStage` applies to a device-to-host
request. -/
def clampCount (s : State) : State :=
  if s.SetupPacket.wLength < s.wCount then { s with wCount := s.SetupPacket.wLength } else s

/-- The pending transfer `GetDescriptor` sets up for the device descriptor. -/
def pendingDeviceDescriptor (s : State) : State :=
  { s with RequestHandled := 1, ROMoutPtr := ⟨.DeviceDescriptor, 0⟩,
           wCount := DeviceDescriptor.length, transferType := 1 }

/-! ## Bus events, continued (`Usb.c` lines 797-936) -/

/-- Modelled from the spec: the macro `ClearUsbInterruptFlag` is declared in `Usb.h`,
which is not among the sources; it clears the given flag of the interrupt flag
register `UIR` ("flag cleared", spec section 7). -/
def ClearUsbInterruptFlag (x : Nat) (s : State) : State :=
  { s with UIR := s.UIR &&& (0xFF ^^^ x) }

/-- `UnSuspend`.  `UIEbits.ACTVIE` is the bit of `UIE` at the mask `USB_RESUM`. -/
def UnSuspend (s : State) : State :=
  let s := { s with UCON := { s.UCON with SUSPND := 0 } }
  let s := { s with UIE := s.UIE &&& (0xFF ^^^ USB_RESUM) }
  { s with UIR := s.UIR &&& 0xFB }

/-- `StartOfFrame`: `UIRbits.SOFIF = 0`. -/
def StartOfFrame (s : State) : State :=
  { s with UIR := s.UIR &&& (0xFF ^^^ USB_SOF) }

/-- `Stall`.  `UEP0bits.EPSTALL` is bit 0 of the endpoint-0 control register. -/
def Stall (L : Layout) (s : State) : State :=
  let s :=
    if s.UEP0 &&& 0x01 = 1 then
      let s := WaitForSetupStage L s
      { s with UEP0 := s.UEP0 &&& (0xFF ^^^ 0x01) }
    else s
  { s with UIR := s.UIR &&& (0xFF ^^^ USB_STALL) }

/-- `Suspend`. -/
def Suspend (s : State) : State :=
  let s := { s with UIE := s.UIE ||| USB_RESUM }
  let s := { s with UIR := s.UIR &&& 0xEF }
  { s with UCON := { s.UCON with SUSPND := 1 } }

/-- `ProcessUSBTransactions`.  `UIRbits.xIF` and `UIEbits.xIE` are the bits of `UIR`
and `UIE` at the masks `USB_x` of `Usb.c` lines 84-90. -/
def ProcessUSBTransactions (L : Layout) (s : State) : State :=
  if s.DeviceState = DETACHED then { s with UIR := 0, UsbInterrupt := 0 }
  else
    let s :=
      if s.UIR &&& USB_RESUM ≠ 0 ∧ s.UIE &&& USB_RESUM ≠ 0 then
        ClearUsbInterruptFlag USB_RESUM (UnSuspend s)
      else s
    if s.UCON.SUSPND = 1 then { s with UIR := 0, UsbInterrupt := 0 }
    else
      let s :=
        if s.UIR &&& USB_URST ≠ 0 ∧ s.UIE &&& USB_URST ≠ 0 then
          ClearUsbInterruptFlag USB_URST (BusReset L s)
        else s
      let s :=
        if s.UIR &&& USB_IDLE ≠ 0 ∧ s.UIE &&& USB_IDLE ≠ 0 then
          ClearUsbInterruptFlag USB_IDLE (Suspend s)
        else s
      let s :=
        if s.UIR &&& USB_SOF ≠ 0 ∧ s.UIE &&& USB_SOF ≠ 0 then
          ClearUsbInterruptFlag USB_SOF (StartOfFrame s)
        else s
      let s :=
        if s.UIR &&& USB_STALL ≠ 0 ∧ s.UIE &&& USB_STALL ≠ 0 then
          ClearUsbInterruptFlag USB_STALL (Stall L s)
        else s
      let s :=
        if s.UIR &&& USB_UERR ≠ 0 ∧ s.UIE &&& USB_UERR ≠ 0 then
          let s := { s with UIR := s.UIR &&& (0xFF ^^^ USB_UERR) }
          let s := { s with UEIR := 0 }
          ClearUsbInterruptFlag USB_UERR s
        else s
      if s.DeviceState < DEFAULT then { s with UIR := 0, UsbInterrupt := 0 }
      else
        let s :=
          if s.UIR &&& USB_TRN ≠ 0 ∧ s.UIE &&& USB_TRN ≠ 0 then
            ClearUsbInterruptFlag USB_TRN (ProcessControlTransfer L s)
          else s
        { s with UsbInterrupt := 0 }

/-! ## Keypad translation (`Main.c`, `nes_keyboard.h`) -/

-- Modifier keys (first byte of the keyboard report), `Main.c` lines 49-56
abbrev KEY_L_CTRL : Nat := 0x01
abbrev KEY_L_SHIFT : Nat := 0x02
abbrev KEY_L_ALT : Nat := 0x04
abbrev KEY_L_WIN : Nat := 0x08
abbrev KEY_R_CTRL : Nat := 0x10
abbrev KEY_R_SHIFT : Nat := 0x20
abbrev KEY_R_ALT : Nat := 0x40
abbrev KEY_R_WIN : Nat := 0x80

-- Buttons, `nes_keyboard.h` lines 6-13
abbrev BUTTON_A : Nat := 1 <<< 0
abbrev BUTTON_B : Nat := 1 <<< 1
abbrev BUTTON_SELECT : Nat := 1 <<< 2
abbrev BUTTON_START : Nat := 1 <<< 3
abbrev BUTTON_UP : Nat := 1 <<< 4
abbrev BUTTON_DOWN : Nat := 1 <<< 5
abbrev BUTTON_LEFT : Nat := 1 <<< 6
abbrev BUTTON_RIGHT : Nat := 1 <<< 7

/-- Modelled from the spec: `usb_hid_keys.h` is not among the sources.  The spec gives
the key code of button A, `KEY_X`, as 0x1B; it is the HID keyboard usage of the key. -/
abbrev KEY_X : Nat := 0x1b
/-- Modelled from the spec: `usb_hid_keys.h` is absent; HID keyboard usage of Z. -/
abbrev KEY_Z : Nat := 0x1d
/-- Modelled from the spec: `usb_hid_keys.h` is absent; HID keyboard usage of Enter. -/
abbrev KEY_ENTER : Nat := 0x28
/-- Modelled from the spec: `usb_hid_keys.h` is absent; HID keyboard usage of Right. -/
abbrev KEY_RIGHT : Nat := 0x4f
/-- Modelled from the spec: `usb_hid_keys.h` is absent; HID keyboard usage of Left. -/
abbrev KEY_LEFT : Nat := 0x50
/-- Modelled from the spec: `usb_hid_keys.h` is absent; HID keyboard usage of Down. -/
abbrev KEY_DOWN : Nat := 0x51
/-- Modelled from the spec: `usb_hid_keys.h` is absent; HID keyboard usage of Up. -/
abbrev KEY_UP : Nat := 0x52
/-- Modelled from the spec: `usb_hid_keys.h` is absent; HID keyboard usage of the
right shift key, the one the spec calls the right-shift modifier of SELECT. -/
abbrev KEY_RIGHTSHIFT : Nat := 0xe5

/-- Table entry `struct KEYMAP`. -/
structure KEYMAP where
  button : Nat
  key : Nat
  deriving DecidableEq, Repr

/-- `button_key_maps`, `nes_keyboard.h` lines 21-33, with its `{ NULL, NULL }` end
marker. -/
def button_key_maps : List KEYMAP :=
  [⟨BUTTON_A, KEY_X⟩,
   ⟨BUTTON_B, KEY_Z⟩,
   ⟨BUTTON_SELECT, KEY_RIGHTSHIFT⟩,
   ⟨BUTTON_START, KEY_ENTER⟩,
   ⟨BUTTON_UP, KEY_UP⟩,
   ⟨BUTTON_DOWN, KEY_DOWN⟩,
   ⟨BUTTON_LEFT, KEY_LEFT⟩,
   ⟨BUTTON_RIGHT, KEY_RIGHT⟩,
   ⟨0, 0⟩]

/-- The `while` loop of `PrepareTxBuffer`, entered at the table entries `maps` with
the write position `index`.  The loop ends at the end marker (`button == NULL`) or
at the `break`; `max_buttons` is 6. -/
def PrepareTxBuffer_loop (keypad_reading : Nat) : List KEYMAP → Nat → State → State
  | [], _, s => s
  | m :: maps, index, s =>
    if m.button = 0 then s
    else if keypad_reading &&& m.button > 0 then
      let key := m.key
      if key = KEY_RIGHTSHIFT then
        PrepareTxBuffer_loop keypad_reading maps index
          { s with HIDTxBuffer := Function.update s.HIDTxBuffer 0 KEY_R_SHIFT }
      else
        let s := { s with HIDTxBuffer := Function.update s.HIDTxBuffer index (key % 256) }
        let index := index + 1
        if index > 6 then s
        else PrepareTxBuffer_loop keypad_reading maps index s
    else PrepareTxBuffer_loop keypad_reading maps index s

/-- The first loop of `PrepareTxBuffer`:
`for(n = 0 ; n < HidReportByteCount; n++) HIDTxBuffer[n] = 0x00;`. -/
def PrepareTxBuffer_clear (s : State) : State :=
  (List.range HidReportByteCount).foldl
    (fun s n => { s with HIDTxBuffer := Function.update s.HIDTxBuffer n 0x00 }) s

/-- `PrepareTxBuffer`.  `LED_SetHigh` and `LED_SetLow` drive the pin modelled by
`State.LED`. -/
def PrepareTxBuffer (keypad_reading : Nat) (s : State) : State :=
  let s := PrepareTxBuffer_clear s
  if keypad_reading > 0 then
    let s := { s with LED := 1 }
    PrepareTxBuffer_loop keypad_reading button_key_maps 2 s
  else { s with LED := 0 }

/-- `ProcessIncomingData`: the body is a comment. -/
def ProcessIncomingData (s : State) : State := s

/-- `CheckUsb`. -/
def CheckUsb (L : Layout) (s : State) : State :=
  if IsUsbDataAvaialble s HidInterfaceNumber > 0 then
    ReArmInterface L HidInterfaceNumber (ProcessIncomingData s)
  else s

/-- `ProcessIO`.  The value of the macro `IsUsbReady` (declared in `Usb.h`) and the
value `NES_read_pad` returns are inputs. -/
def ProcessIO (L : Layout) (IsUsbReady : Bool) (reading : Nat) (s : State) : State :=
  let s := if IsUsbReady then CheckUsb L s else s
  if reading = s.last_keypad_reading then s
  else
    let s := PrepareTxBuffer reading s
    let s := HIDSend L HidInterfaceNumber s
    { s with last_keypad_reading := reading }

/-- The 8-byte report held in `HIDTxBuffer`. -/
def report (s : State) : List Nat := (List.range HidReportByteCount).map s.HIDTxBuffer

/-- The report `PrepareTxBuffer` builds for a reading, starting from the state at
program start. -/
def reportOf (keypad_reading : Nat) : List Nat :=
  report (PrepareTxBuffer keypad_reading zeroState)

/-- The first report (button A) is in flight: endpoint 1 IN is owned by the SIE,
`HIDTxBuffer` holds the report of reading 0x01, which is also the last reading. -/
def firstReportInFlight : State :=
  { inFlightState with
    HIDTxBuffer := fun k => if k = 2 then KEY_X else 0
    last_keypad_reading := 0x01 }

/-! ## Bus events as categories -/

/-- The event categories of `ProcessUSBTransactions`. -/
inductive BusEvent where
  | resume
  | reset
  | idle
  | startOfFrame
  | stall
  | error
  | transactionComplete
  deriving DecidableEq, Repr

/-- The mask of the category's flag in `UIR` and of its enable bit in `UIE`. -/
def BusEvent.flag : BusEvent → Nat
  | .resume => USB_RESUM
  | .reset => USB_URST
  | .idle => USB_IDLE
  | .startOfFrame => USB_SOF
  | .stall => USB_STALL
  | .error => USB_UERR
  | .transactionComplete => USB_TRN

/-- The category's flag is pending and its interrupt is enabled. -/
abbrev BusEvent.pending (e : BusEvent) (s : State) : Prop :=
  s.UIR &&& e.flag ≠ 0 ∧ s.UIE &&& e.flag ≠ 0

/-- The statements `ProcessUSBTransactions` runs for a bus error:
`UIRbits.UERRIF = 0; UEIR = 0;`. -/
def clearErrors (s : State) : State :=
  let s := { s with UIR := s.UIR &&& (0xFF ^^^ USB_UERR) }
  { s with UEIR := 0 }

/-- The handler `ProcessUSBTransactions` runs for a category. -/
def BusEvent.handler (L : Layout) : BusEvent → State → State
  | .resume => UnSuspend
  | .reset => BusReset L
  | .idle => Suspend
  | .startOfFrame => StartOfFrame
  | .stall => Stall L
  | .error => clearErrors
  | .transactionComplete => ProcessControlTransfer L

/-- Service one category: if it is pending and enabled, run its handler and clear its
flag. -/
def service (L : Layout) (e : BusEvent) (s : State) : State :=
  if e.pending s then ClearUsbInterruptFlag e.flag (e.handler L s) else s

/-- Service the categories of a list, one after the other. -/
def serviceAll (L : Layout) (es : List BusEvent) (s : State) : State :=
  es.foldl (fun s e => service L e s) s

/-- The order in which the categories are serviced. -/
def priorityOrder : List BusEvent :=
  [.resume, .reset, .idle, .startOfFrame, .stall, .error, .transactionComplete]

/-- The early return of `ProcessUSBTransactions`: `UIR = 0; UsbInterrupt = 0; return;`. -/
def quiesce (s : State) : State := { s with UIR := 0, UsbInterrupt := 0 }

/-- A configured, running device with an idle event and a completed endpoint-0 IN
transaction both pending and enabled. -/
def idleAndTransactionPending : State :=
  { zeroState with
    DeviceState := CONFIGURED
    UIR := USB_IDLE ||| USB_TRN
    UIE := 0x7b
    USTAT := 0x04 }

/-- An attached, powered device that has not been reset, with a completed
transaction flagged. -/
def poweredWithTransaction : State :=
  { zeroState with
    DeviceState := POWERED
    UIR := USB_TRN ||| USB_SOF
    UIE := 0x4b
    USTAT := 0x04 }

/-- A suspended device with a transaction flagged and the bus-activity interrupt
enabled but not pending. -/
def suspendedWithTransaction : State :=
  { zeroState with
    DeviceState := CONFIGURED
    UCON := ⟨0, 0, 0, 1, 1⟩
    UIR := USB_TRN
    UIE := 0x7f
    USTAT := 0x04 }

/-! ## Setup packets used as inputs -/

/-- SET_FEATURE(ENDPOINT_HALT) for the endpoint address `ep`. -/
def setHaltPacket (ep : Nat) : setupPacketStruct :=
  ⟨0x02, SET_FEATURE, ENDPOINT_HALT, 0, ep, 0, 0, 0⟩

/-- CLEAR_FEATURE(ENDPOINT_HALT) for the endpoint address `ep`. -/
def clearHaltPacket (ep : Nat) : setupPacketStruct :=
  ⟨0x02, CLEAR_FEATURE, ENDPOINT_HALT, 0, ep, 0, 0, 0⟩

/-- GET_STATUS for the endpoint address `ep`. -/
def getEndpointStatusPacket (ep : Nat) : setupPacketStruct :=
  ⟨0x82, GET_STATUS, 0, 0, ep, 0, 2, 0⟩

/-- The SIE stores the Setup packet `p` and the firmware runs
`ProcessStandardRequest` on it. -/
def standardRequest (L : Layout) (p : setupPacketStruct) (s : State) : State :=
  ProcessStandardRequest L { s with SetupPacket := p }

/-- The descriptor of endpoint 1 an endpoint address selects: IN when bit 7 is set. -/
def endpoint1Descriptor (ep : Nat) (s : State) : BDT :=
  if ep &&& 0x80 ≠ 0 then (s.Interfaces 1).Input else (s.Interfaces 1).Output

/-- GET_DESCRIPTOR(HID) addressed to the HID interface, 9 bytes requested. -/
def getHidDescriptorPacket : setupPacketStruct :=
  ⟨0x81, GET_DESCRIPTOR, 0x00, HID_DESCRIPTOR, 0x00, 0x00, 0x09, 0x00⟩

/-- GET_STATUS for endpoint 1 IN arrives while that endpoint is halted. -/
def haltedInStatusRequest : State :=
  { zeroState with
    DeviceState := CONFIGURED
    SetupPacket := getEndpointStatusPacket 0x81
    Interfaces := fun k =>
      if k = 1 then ⟨⟨UOWN ||| DTSEN, 8, 0x2038⟩, ⟨UOWN ||| BSTALL, 8, 0x2030⟩⟩
      else ⟨⟨0, 0, 0⟩, ⟨0, 0, 0⟩⟩ }

/-- The string descriptor a GET_DESCRIPTOR(String) request with index byte `k` selects,
in the words of the specification: number `k` when `k < 3`, otherwise number 0. -/
def selectedString (k : Nat) : RomObj :=
  if k < 3 then
    match k with
    | 0 => .StringDescriptor0
    | 1 => .StringDescriptor1
    | _ => .StringDescriptor2
  else .StringDescriptor0

/-- GET_DESCRIPTOR(String) with index byte `k`, 255 bytes requested. -/
def getStringDescriptorPacket (k : Nat) : setupPacketStruct :=
  ⟨0x80, GET_DESCRIPTOR, k, STRING_DESCRIPTOR, 0x00, 0x00, 0xFF, 0x00⟩

/-- GET_DESCRIPTOR(Report) addressed to the HID interface. -/
def getReportDescriptorPacket : setupPacketStruct :=
  ⟨0x81, GET_DESCRIPTOR, 0x00, REPORT_DESCRIPTOR, 0x00, 0x00, 0x3F, 0x00⟩

/-! ## Further decomposition and inputs -/

/-- The state `SetupStage` reaches after both dispatchers ran, before it arms
endpoint 0. -/
def dispatched (L : Layout) (s : State) : State :=
  ProcessHIDRequest (ProcessStandardRequest L (SetupStage_init s))

/-- The number of bytes `InDataStage` sends: `bufferSize`. -/
def packetSize (s : State) : Nat := if s.wCount < E0SZ then s.wCount else E0SZ

/-- The assignments `InDataStage` makes before its copy loop. -/
def InDataStage_arm (L : Layout) (s : State) : State :=
  let bufferSize := packetSize s
  let s := s.modInput 0 fun b =>
    { b with Stat := b.Stat &&& (0xFF ^^^ (BC8 ||| BC9)) }
  let s := s.modInput 0 fun b =>
    { b with Stat := b.Stat ||| (((bufferSize &&& 0x0300) >>> 8) % 256) }
  let s := s.modInput 0 fun b => { b with Cnt := (bufferSize &&& 0xFF) % 256 }
  let s := s.modInput 0 fun b =>
    { b with ADDR := PTR16 L .ControlTransferBuffer }
  let s := { s with wCount := s.wCount - bufferSize }
  { s with inPtr := ⟨.ControlTransferBuffer, 0⟩ }

/-- The data-toggle flip `ProcessControlTransfer` makes after `OutDataStage`. -/
def toggleOut (s : State) : State :=
  if (s.Interfaces 0).Output.Stat &&& DTS ≠ 0 then
    s.modOutput 0 fun b => { b with Stat := UOWN ||| DTSEN }
  else
    s.modOutput 0 fun b => { b with Stat := UOWN ||| DTS ||| DTSEN }

/-- The bytes `n` reads of data memory starting at `p` yield in the state `s`. -/
def ramBytes (s : State) (p : RamPtr) (n : Nat) : List Nat :=
  (List.range n).map fun i => readByte s ⟨p.obj, p.off + i⟩

/-- The next `n` bytes of the pending transfer: read through `ROMoutPtr` when
`transferType` is 1, through `outPtr` otherwise. -/
def sourceBytes (L : Layout) (s : State) (n : Nat) : List Nat :=
  if s.transferType = 1 then romBytes L s.ROMoutPtr n else ramBytes s s.outPtr n

/-- The packets `k` successive calls of `InDataStage` stage. -/
def inPackets (L : Layout) : Nat → State → List (List Nat)
  | 0, _ => []
  | k + 1, s => stagedPacket (InDataStage L s) :: inPackets L k (InDataStage L s)

/-- The PID the SIE left in the status byte of endpoint 0 OUT, as
`ProcessControlTransfer` extracts it. -/
def outPID (s : State) : Nat := ((s.Interfaces 0).Output.Stat &&& 0x3C) >>> 2

/-- SET_IDLE (class request) addressed to interface 1, which is not the HID
interface. -/
def setIdleOtherInterfacePacket : setupPacketStruct :=
  ⟨0x21, SET_IDLE, 0x00, 0x05, 0x01, 0x00, 0x00, 0x00⟩

/-- SYNCH_FRAME for endpoint 1 IN. -/
def synchFramePacket : setupPacketStruct :=
  ⟨0x82, SYNCH_FRAME, 0x00, 0x00, 0x81, 0x00, 0x02, 0x00⟩

/-- A vendor request no dispatcher knows. -/
def vendorPacket : setupPacketStruct := ⟨0x40, 0x01, 0, 0, 0, 0, 0, 0⟩

/-- GET_DESCRIPTOR(Configuration) with 9 bytes requested. -/
def getConfigurationDescriptorPacket : setupPacketStruct :=
  ⟨0x80, GET_DESCRIPTOR, 0x00, CONFIGURATION_DESCRIPTOR, 0x00, 0x00, 0x09, 0x00⟩

/-- What `ProcessUSBTransactions` does once it found the device attached and not
suspended: the categories from reset to error, the check of the device state, and
the transaction-complete category. -/
def serviceRunning (L : Layout) (s : State) : State :=
  let u := serviceAll L [.reset, .idle, .startOfFrame, .stall, .error] s
  if u.DeviceState < DEFAULT then quiesce u
  else { service L .transactionComplete u with UsbInterrupt := 0 }

/-- A configured, running device with a bus reset and an idle event both pending and
enabled. -/
def resetAndIdlePending : State :=
  { zeroState with
    DeviceState := CONFIGURED
    UIR := USB_URST ||| USB_IDLE
    UIE := 0x7b }

/-- A suspended device with bus activity and an idle event both pending and
enabled. -/
def resumeAndIdlePending : State :=
  { zeroState with
    DeviceState := CONFIGURED
    UCON := ⟨0, 0, 0, 1, 1⟩
    UIR := USB_RESUM ||| USB_IDLE
    UIE := 0x7f }

/-- A device in the Default state with an idle event pending and a SET_ADDRESS(5)
Setup transaction just completed on endpoint 0 OUT (PID SETUP, 0xD, in bits 2 to 5
of the status byte). -/
def idleAndSetAddressPending : State :=
  { zeroState with
    DeviceState := DEFAULT
    UIR := USB_IDLE ||| USB_TRN
    UIE := 0x7b
    USTAT := 0x00
    SetupPacket := ⟨0x00, SET_ADDRESS, 0x05, 0x00, 0x00, 0x00, 0x00, 0x00⟩
    Interfaces := fun k =>
      if k = 0 then ⟨⟨0x34, 8, 0x2010⟩, ⟨0, 0, 0⟩⟩ else ⟨⟨0, 0, 0⟩, ⟨0, 0, 0⟩⟩ }

/-- A configured, running device with only an idle event pending and enabled. -/
def idlePending : State :=
  { zeroState with
    DeviceState := CONFIGURED
    UIR := USB_IDLE
    UIE := 0x7b }

/-- A GET_STATUS reply is pending: two bytes in the control transfer buffer, which is
also the source of the transfer. -/
def statusWordPending : State :=
  { zeroState with
    DeviceState := CONFIGURED
    CtrlTransferStage := DATA_IN_STAGE
    transferType := 0
    outPtr := ⟨.ControlTransferBuffer, 0⟩
    wCount := 2
    ControlTransferBuffer := fun k => if k = 0 then 0x01 else 0 }

/-- The Data-In stage of a control transfer after its last data packet went out:
nothing remains, the SIE has returned the endpoint-0 IN descriptor and reports an
endpoint-0 IN completion. -/
def drainedDataIn : State :=
  { zeroState with
    DeviceState := CONFIGURED
    CtrlTransferStage := DATA_IN_STAGE
    transferType := 1
    ROMoutPtr := ⟨.DeviceDescriptor, 18⟩
    wCount := 0
    USTAT := 0x04
    Interfaces := fun k =>
      if k = 0 then ⟨⟨UOWN, 8, 0x2010⟩, ⟨DTS ||| DTSEN, 2, 0x2020⟩⟩
      else ⟨⟨0, 0, 0⟩, ⟨0, 0, 0⟩⟩ }

/-- The Data-In stage with ten bytes of the device descriptor still to send and an
endpoint-0 IN completion reported. -/
def dataInProgress : State :=
  { zeroState with
    DeviceState := DEFAULT
    CtrlTransferStage := DATA_IN_STAGE
    transferType := 1
    ROMoutPtr := ⟨.DeviceDescriptor, 8⟩
    wCount := 10
    USTAT := 0x04
    Interfaces := fun k =>
      if k = 0 then ⟨⟨UOWN, 8, 0x2010⟩, ⟨DTS ||| DTSEN, 8, 0x2020⟩⟩
      else ⟨⟨0, 0, 0⟩, ⟨0, 0, 0⟩⟩ }

/-- The Data-Out stage of a SET_REPORT: the SIE reports an endpoint-0 OUT completion
with one data byte (PID OUT, 0x1, in bits 2 to 5 of the status byte) and DATA1. -/
def dataOutProgress : State :=
  { zeroState with
    DeviceState := CONFIGURED
    CtrlTransferStage := DATA_OUT_STAGE
    HIDPostProcess := 1
    inPtr := ⟨.ControlTransferBuffer, 0⟩
    USTAT := 0x00
    Interfaces := fun k =>
      if k = 0 then ⟨⟨DTS ||| 0x04, 1, 0x2020⟩, ⟨UOWN ||| DTS ||| DTSEN, 0, 0x2020⟩⟩
      else ⟨⟨0, 0, 0⟩, ⟨0, 0, 0⟩⟩ }

/-! ## Pointer conditions -/

/-- The data-memory source pointer does not point into the endpoint table. -/
def outPtrValid (s : State) : Prop := s.outPtr.obj ≠ .Interfaces

/-- GET_STATUS for endpoint 0 OUT sent with the direction bit clear (host-to-device)
and one byte announced for the data stage. -/
def misdirectedGetStatusPacket : setupPacketStruct :=
  ⟨0x02, GET_STATUS, 0x00, 0x00, 0x00, 0x00, 0x01, 0x00⟩

/-- The state after `SetupStage` processed `misdirectedGetStatusPacket` on a configured
device. -/
def afterMisdirectedGetStatus : State :=
  SetupStage sampleLayout { readyState with SetupPacket := misdirectedGetStatusPacket }

/-- The host then sends the announced data byte, 0x00, as a DATA1 packet: the SIE
stores it at the start of the control transfer buffer, returns the endpoint-0 OUT
descriptor with the byte count 1, the toggle bit of the packet (DTS set) and the PID
OUT (0x1) in bits 2 to 5, and reports an endpoint-0 OUT completion. -/
def misdirectedDataReceived : State :=
  { afterMisdirectedGetStatus with
    USTAT := 0x00
    ControlTransferBuffer := Function.update afterMisdirectedGetStatus.ControlTransferBuffer 0 0x00
    Interfaces := Function.update afterMisdirectedGetStatus.Interfaces 0
      { (afterMisdirectedGetStatus.Interfaces 0) with
        Output := ⟨DTS ||| 0x04, 1, (afterMisdirectedGetStatus.Interfaces 0).Output.ADDR⟩ } }

/-! ## The report a reading should give -/

/-- The key codes of the pressed non-modifier buttons, in the order of
`button_key_maps`. -/
def pressedKeyCodes (keypad_reading : Nat) : List Nat :=
  (button_key_maps.filter fun m =>
    decide (m.button ≠ 0 ∧ keypad_reading &&& m.button ≠ 0 ∧ m.key ≠ KEY_RIGHTSHIFT)).map
    KEYMAP.key

/-- The report as the claim describes it: the modifier byte (0x20 when SELECT is
pressed), a zero byte, the key codes of the pressed non-modifier buttons packed from
byte 2 as far as byte 6, and zeros up to byte 7. -/
def packedReport (keypad_reading : Nat) : List Nat :=
  [if keypad_reading &&& BUTTON_SELECT ≠ 0 then KEY_R_SHIFT else 0, 0]
    ++ (pressedKeyCodes keypad_reading).take 5
    ++ List.replicate (6 - ((pressedKeyCodes keypad_reading).take 5).length) 0

/-- The descriptor an endpoint address selects in the endpoint table: entry
`wIndex0 & 0x0F`, IN when bit 7 is set. -/
def addressedDescriptor (wIndex0 : Nat) (s : State) : BDT :=
  if wIndex0 &&& 0x80 ≠ 0 then (s.Interfaces (wIndex0 &&& 0x0F)).Input
  else (s.Interfaces (wIndex0 &&& 0x0F)).Output

/-- The 16-bit little-endian value at offset `k` of a table. -/
def wordAt (table : List Nat) (k : Nat) : Nat := table.getD k 0 + 256 * table.getD (k + 1) 0

/-- GET_DESCRIPTOR(Device), 64 bytes requested. -/
def getDeviceDescriptorPacket : setupPacketStruct :=
  ⟨0x80, GET_DESCRIPTOR, 0x00, DEVICE_DESCRIPTOR, 0x00, 0x00, 0x40, 0x00⟩

/-! # Theorems -/

/-! ## Bus reset -/

/-- C8: from any prior state `BusReset` yields the Default device state, the Setup
control stage, hardware address 0, cleared remote-wakeup, self-powered and
configuration values, endpoint-0 OUT armed for a Setup packet and endpoint-0 IN
returned to the firmware. -/
theorem BusReset_forces_default (L : Layout) (s : State) :
    (BusReset L s).DeviceState = DEFAULT ∧
    (BusReset L s).CtrlTransferStage = SETUP_STAGE ∧
    (BusReset L s).UADDR = 0 ∧
    (BusReset L s).RemoteWakeup = 0 ∧
    (BusReset L s).SelfPowered = 0 ∧
    (BusReset L s).CurrentConfiguration = 0 ∧
    ((BusReset L s).Interfaces 0).Output.Cnt = E0SZ ∧
    ((BusReset L s).Interfaces 0).Output.ADDR = L.SetupPacket ∧
    ((BusReset L s).Interfaces 0).Output.Stat = UOWN ||| DTSEN ∧
    ((BusReset L s).Interfaces 0).Input.Stat = 0 := by
  simp [BusReset, WaitForSetupStage]

/-! ## SET_CONFIGURATION -/

/-- `HIDInitEndpoints` runs its loop body once, for interface 0. -/
theorem HIDInitEndpoints_eq (L : Layout) (s : State) :
    HIDInitEndpoints L s = HIDInitEndpoints_body L { s with HidRxLen := 0 } 0 := by
  simp [HIDInitEndpoints, List.range_succ]

/-- What `ProcessStandardRequest` does with a standard-type SET_CONFIGURATION. -/
theorem ProcessStandardRequest_setConfiguration (L : Layout) (s : State)
    (hstd : s.SetupPacket.bmRequestType &&& 0x60 = 0x00)
    (hreq : s.SetupPacket.bRequest = SET_CONFIGURATION) :
    ProcessStandardRequest L s =
      if s.SetupPacket.wValue0 = 0 then
        { s with RequestHandled := 1, CurrentConfiguration := s.SetupPacket.wValue0,
                 DeviceState := ADDRESS }
      else
        HIDInitEndpoints L
          { s with RequestHandled := 1, CurrentConfiguration := s.SetupPacket.wValue0,
                   DeviceState := CONFIGURED } := by
  simp [ProcessStandardRequest, hstd, hreq]

/-- C5: a standard-type SET_CONFIGURATION marks the request handled, stores `wValue0`
as the current configuration, and sets the device state to Address when `wValue0` is
zero and to Configured otherwise, whatever the prior device state. -/
theorem SET_CONFIGURATION_sets_state (L : Layout) (s : State)
    (hstd : s.SetupPacket.bmRequestType &&& 0x60 = 0x00)
    (hreq : s.SetupPacket.bRequest = SET_CONFIGURATION) :
    (ProcessStandardRequest L s).RequestHandled = 1 ∧
    (ProcessStandardRequest L s).CurrentConfiguration = s.SetupPacket.wValue0 ∧
    (s.SetupPacket.wValue0 = 0 → (ProcessStandardRequest L s).DeviceState = ADDRESS) ∧
    (s.SetupPacket.wValue0 ≠ 0 → (ProcessStandardRequest L s).DeviceState = CONFIGURED) := by
  rw [ProcessStandardRequest_setConfiguration L s hstd hreq]
  by_cases h : s.SetupPacket.wValue0 = 0
  · simp [h]
  · simp [h, HIDInitEndpoints_eq, HIDInitEndpoints_body]

/-- Witness for C5: SET_CONFIGURATION(1) received in the Default state. -/
theorem SET_CONFIGURATION_sets_state_witness :
    (stateWithPacket ⟨0x00, 0x09, 1, 0, 0, 0, 0, 0⟩).SetupPacket.bmRequestType &&& 0x60 = 0x00 ∧
    (stateWithPacket ⟨0x00, 0x09, 1, 0, 0, 0, 0, 0⟩).SetupPacket.bRequest = SET_CONFIGURATION ∧
    (ProcessStandardRequest sampleLayout
      (stateWithPacket ⟨0x00, 0x09, 1, 0, 0, 0, 0, 0⟩)).DeviceState = CONFIGURED :=
  ⟨by decide, by decide,
   (SET_CONFIGURATION_sets_state sampleLayout (stateWithPacket ⟨0x00, 0x09, 1, 0, 0, 0, 0, 0⟩)
      (by decide) (by decide)).2.2.2 (by decide)⟩

/-- Counterexample to C6: after SET_CONFIGURATION(1) the OUT descriptor of endpoint 1
has its ownership bit set. -/
theorem SET_CONFIGURATION_out_is_hardware_owned :
    (stateWithPacket ⟨0x00, 0x09, 1, 0, 0, 0, 0, 0⟩).SetupPacket.wValue0 > 0 ∧
    ((ProcessStandardRequest sampleLayout
        (stateWithPacket ⟨0x00, 0x09, 1, 0, 0, 0, 0, 0⟩)).Interfaces 1).Output.Stat = 0x88 ∧
    ¬ (((ProcessStandardRequest sampleLayout
        (stateWithPacket ⟨0x00, 0x09, 1, 0, 0, 0, 0, 0⟩)).Interfaces 1).Output.Stat
          &&& UOWN = 0) := by
  decide

/-- C6 (amended): after a standard-type SET_CONFIGURATION(n) with n > 0, every
non-control endpoint's OUT descriptor is handed to the SIE (status `UOWN | DTSEN`,
ownership bit set) and its IN descriptor is left with the firmware (status `DTS`,
ownership bit clear). -/
theorem SET_CONFIGURATION_arms_out_keeps_in (L : Layout) (s : State)
    (hstd : s.SetupPacket.bmRequestType &&& 0x60 = 0x00)
    (hreq : s.SetupPacket.bRequest = SET_CONFIGURATION)
    (hn : s.SetupPacket.wValue0 > 0) (i : Nat) (hi : i < InterfaceCount) :
    ((ProcessStandardRequest L s).Interfaces (i + 1)).Output.Stat = UOWN ||| DTSEN ∧
    ((ProcessStandardRequest L s).Interfaces (i + 1)).Output.Stat &&& UOWN ≠ 0 ∧
    ((ProcessStandardRequest L s).Interfaces (i + 1)).Input.Stat = DTS ∧
    ((ProcessStandardRequest L s).Interfaces (i + 1)).Input.Stat &&& UOWN = 0 := by
  have hi0 : i = 0 := Nat.lt_one_iff.mp hi
  subst hi0
  rw [ProcessStandardRequest_setConfiguration L s hstd hreq]
  have h : s.SetupPacket.wValue0 ≠ 0 := by omega
  simp [h, HIDInitEndpoints_eq, HIDInitEndpoints_body]
  decide

/-- Witness for the amended C6: SET_CONFIGURATION(1), interface 0. -/
theorem SET_CONFIGURATION_arms_out_keeps_in_witness :
    (stateWithPacket ⟨0x00, 0x09, 1, 0, 0, 0, 0, 0⟩).SetupPacket.bmRequestType &&& 0x60 = 0x00 ∧
    (stateWithPacket ⟨0x00, 0x09, 1, 0, 0, 0, 0, 0⟩).SetupPacket.bRequest = SET_CONFIGURATION ∧
    (stateWithPacket ⟨0x00, 0x09, 1, 0, 0, 0, 0, 0⟩).SetupPacket.wValue0 > 0 ∧
    0 < InterfaceCount ∧
    ((ProcessStandardRequest sampleLayout
        (stateWithPacket ⟨0x00, 0x09, 1, 0, 0, 0, 0, 0⟩)).Interfaces (0 + 1)).Output.Stat
      = UOWN ||| DTSEN :=
  ⟨by decide, by decide, by decide, by decide,
   (SET_CONFIGURATION_arms_out_keeps_in sampleLayout
      (stateWithPacket ⟨0x00, 0x09, 1, 0, 0, 0, 0, 0⟩)
      (by decide) (by decide) (by decide) 0 (by decide)).1⟩

/-- C7: after a standard-type SET_CONFIGURATION(n) with n > 0, for every interface
`i < InterfaceCount` the descriptors of endpoint `i + 1` are initialised from
`Buffers`: OUT byte count and address from entry `2i + 1`, IN address from entry
`2i`, OUT expecting DATA0 (DTS clear, DTSEN set); and SET_CONFIGURATION(0) leaves
every endpoint descriptor unchanged. -/
theorem SET_CONFIGURATION_inits_endpoints (L : Layout) (s : State)
    (hstd : s.SetupPacket.bmRequestType &&& 0x60 = 0x00)
    (hreq : s.SetupPacket.bRequest = SET_CONFIGURATION) :
    (s.SetupPacket.wValue0 > 0 → ∀ i, i < InterfaceCount →
      ∃ bo bi, Buffers[2 * i + 1]? = some bo ∧ Buffers[2 * i]? = some bi ∧
        ((ProcessStandardRequest L s).Interfaces (i + 1)).Output.Cnt = bo.Size ∧
        ((ProcessStandardRequest L s).Interfaces (i + 1)).Output.ADDR = PTR16 L bo.Buffer ∧
        ((ProcessStandardRequest L s).Interfaces (i + 1)).Input.ADDR = PTR16 L bi.Buffer ∧
        ((ProcessStandardRequest L s).Interfaces (i + 1)).Output.Stat &&& DTS = 0 ∧
        ((ProcessStandardRequest L s).Interfaces (i + 1)).Output.Stat &&& DTSEN ≠ 0) ∧
    (s.SetupPacket.wValue0 = 0 →
      (ProcessStandardRequest L s).Interfaces = s.Interfaces) := by
  rw [ProcessStandardRequest_setConfiguration L s hstd hreq]
  constructor
  · intro hn i hi
    have hi0 : i = 0 := Nat.lt_one_iff.mp hi
    subst hi0
    have h : s.SetupPacket.wValue0 ≠ 0 := by omega
    refine ⟨⟨HidReportByteCount, .HIDRxBuffer⟩, ⟨HidReportByteCount, .HIDTxBuffer⟩, ?_⟩
    simp [h, HIDInitEndpoints_eq, HIDInitEndpoints_body, Buffers, BuffersAt]
    decide
  · intro h0
    simp [h0]

/-- Witness for C7: SET_CONFIGURATION(1) leaves endpoint 1 OUT with byte count 8. -/
theorem SET_CONFIGURATION_inits_endpoints_witness :
    (stateWithPacket ⟨0x00, 0x09, 1, 0, 0, 0, 0, 0⟩).SetupPacket.bmRequestType &&& 0x60 = 0x00 ∧
    (stateWithPacket ⟨0x00, 0x09, 1, 0, 0, 0, 0, 0⟩).SetupPacket.bRequest = SET_CONFIGURATION ∧
    ∃ bo bi, Buffers[2 * 0 + 1]? = some bo ∧ Buffers[2 * 0]? = some bi ∧
      ((ProcessStandardRequest sampleLayout
          (stateWithPacket ⟨0x00, 0x09, 1, 0, 0, 0, 0, 0⟩)).Interfaces (0 + 1)).Output.Cnt
        = bo.Size ∧
      ((ProcessStandardRequest sampleLayout
          (stateWithPacket ⟨0x00, 0x09, 1, 0, 0, 0, 0, 0⟩)).Interfaces (0 + 1)).Output.ADDR
        = PTR16 sampleLayout bo.Buffer ∧
      ((ProcessStandardRequest sampleLayout
          (stateWithPacket ⟨0x00, 0x09, 1, 0, 0, 0, 0, 0⟩)).Interfaces (0 + 1)).Input.ADDR
        = PTR16 sampleLayout bi.Buffer ∧
      ((ProcessStandardRequest sampleLayout
          (stateWithPacket ⟨0x00, 0x09, 1, 0, 0, 0, 0, 0⟩)).Interfaces (0 + 1)).Output.Stat
        &&& DTS = 0 ∧
      ((ProcessStandardRequest sampleLayout
          (stateWithPacket ⟨0x00, 0x09, 1, 0, 0, 0, 0, 0⟩)).Interfaces (0 + 1)).Output.Stat
        &&& DTSEN ≠ 0 :=
  ⟨by decide, by decide,
   (SET_CONFIGURATION_inits_endpoints sampleLayout
      (stateWithPacket ⟨0x00, 0x09, 1, 0, 0, 0, 0, 0⟩)
      (by decide) (by decide)).1 (by decide) 0 (by decide)⟩

/-! ## Report send and re-arm -/

/-- `HIDSend` on a descriptor the SIE owns returns the state it was given. -/
theorem HIDSend_of_owned (L : Layout) (n : Nat) (s : State)
    (h : (s.Interfaces (n + 1)).Input.Stat &&& UOWN ≠ 0) : HIDSend L n s = s := by
  simp [HIDSend, h]

/-- After `HIDSend` the IN descriptor is owned by the SIE. -/
theorem HIDSend_owned (L : Layout) (n : Nat) (s : State) :
    ((HIDSend L n s).Interfaces (n + 1)).Input.Stat &&& UOWN ≠ 0 := by
  by_cases h : (s.Interfaces (n + 1)).Input.Stat &&& UOWN ≠ 0
  · rw [HIDSend_of_owned L n s h]
    exact h
  · unfold HIDSend
    by_cases hd : (s.Interfaces (n + 1)).Input.Stat &&& DTS ≠ 0
    · simp [h, hd]
    · simp [h, hd]

/-- C9: arming a descriptor that the SIE already owns is a no-op: `HIDSend` leaves
the whole state unchanged when the endpoint's IN descriptor has UOWN set, and
`ReArmInterface` leaves it unchanged when the endpoint's OUT descriptor has UOWN
set. -/
theorem arm_of_hardware_owned_is_noop (L : Layout) (s : State) (InterfaceNo : Nat) :
    ((s.Interfaces (InterfaceNo + 1)).Input.Stat &&& UOWN ≠ 0 →
      HIDSend L InterfaceNo s = s) ∧
    ((s.Interfaces (InterfaceNo + 1)).Output.Stat &&& UOWN ≠ 0 →
      ReArmInterface L InterfaceNo s = s) := by
  constructor
  · intro h
    exact HIDSend_of_owned L InterfaceNo s h
  · intro h
    simp [ReArmInterface, h]

/-- Witness for C9: endpoint 1 in flight in both directions. -/
theorem arm_of_hardware_owned_is_noop_witness :
    (inFlightState.Interfaces (0 + 1)).Input.Stat &&& UOWN ≠ 0 ∧
    (inFlightState.Interfaces (0 + 1)).Output.Stat &&& UOWN ≠ 0 ∧
    HIDSend sampleLayout 0 inFlightState = inFlightState ∧
    ReArmInterface sampleLayout 0 inFlightState = inFlightState :=
  ⟨by decide, by decide,
   (arm_of_hardware_owned_is_noop sampleLayout inFlightState 0).1 (by decide),
   (arm_of_hardware_owned_is_noop sampleLayout inFlightState 0).2 (by decide)⟩

/-- C10: `HIDSend` is idempotent, and when the IN descriptor was owned by the firmware
the one effective call sets the byte count to the size `Buffers` configures for the
interface, inverts DTS, sets DTSEN and hands the descriptor to the SIE. -/
theorem HIDSend_idempotent (L : Layout) (s : State) (InterfaceNo : Nat) :
    HIDSend L InterfaceNo (HIDSend L InterfaceNo s) = HIDSend L InterfaceNo s ∧
    ((s.Interfaces (InterfaceNo + 1)).Input.Stat &&& UOWN = 0 →
      (InterfaceNo < InterfaceCount →
        ∃ b, Buffers[InterfaceNo * 2]? = some b ∧
          ((HIDSend L InterfaceNo s).Interfaces (InterfaceNo + 1)).Input.Cnt = b.Size) ∧
      (((HIDSend L InterfaceNo s).Interfaces (InterfaceNo + 1)).Input.Stat &&& DTS ≠ 0 ↔
        (s.Interfaces (InterfaceNo + 1)).Input.Stat &&& DTS = 0) ∧
      ((HIDSend L InterfaceNo s).Interfaces (InterfaceNo + 1)).Input.Stat &&& DTSEN ≠ 0 ∧
      ((HIDSend L InterfaceNo s).Interfaces (InterfaceNo + 1)).Input.Stat &&& UOWN ≠ 0) := by
  refine ⟨HIDSend_of_owned L InterfaceNo _ (HIDSend_owned L InterfaceNo s), ?_⟩
  intro h
  refine ⟨?_, ?_, ?_, HIDSend_owned L InterfaceNo s⟩
  · intro hn
    have hn0 : InterfaceNo = 0 := Nat.lt_one_iff.mp hn
    subst hn0
    refine ⟨⟨HidReportByteCount, .HIDTxBuffer⟩, by simp [Buffers], ?_⟩
    by_cases hd : (s.Interfaces (0 + 1)).Input.Stat &&& DTS = 0
    · simp [HIDSend, h, hd, BuffersAt, Buffers]
    · simp [HIDSend, h, hd, BuffersAt, Buffers]
  · by_cases hd : (s.Interfaces (InterfaceNo + 1)).Input.Stat &&& DTS = 0
    · simp [HIDSend, h, hd]
    · simp [HIDSend, h, hd]
      decide
  · by_cases hd : (s.Interfaces (InterfaceNo + 1)).Input.Stat &&& DTS = 0
    · simp [HIDSend, h, hd]
    · simp [HIDSend, h, hd]

/-- Witness for C10: the first report sent after configuration. -/
theorem HIDSend_idempotent_witness :
    (readyState.Interfaces (0 + 1)).Input.Stat &&& UOWN = 0 ∧
    0 < InterfaceCount ∧
    ((HIDSend sampleLayout 0 readyState).Interfaces (0 + 1)).Input.Stat &&& UOWN ≠ 0 ∧
    ∃ b, Buffers[0 * 2]? = some b ∧
      ((HIDSend sampleLayout 0 readyState).Interfaces (0 + 1)).Input.Cnt = b.Size :=
  ⟨by decide, by decide,
   ((HIDSend_idempotent sampleLayout readyState 0).2 (by decide)).2.2.2,
   ((HIDSend_idempotent sampleLayout readyState 0).2 (by decide)).1 (by decide)⟩

/-! ## Frame lemmas: what a store through a pointer cannot change -/

@[simp] theorem writeByte_RemoteWakeup (s : State) (p : RamPtr) (v : Nat) :
    (writeByte s p v).RemoteWakeup = s.RemoteWakeup := by
  unfold writeByte
  split <;> (try split) <;> rfl

@[simp] theorem writeByte_SelfPowered (s : State) (p : RamPtr) (v : Nat) :
    (writeByte s p v).SelfPowered = s.SelfPowered := by
  unfold writeByte
  split <;> (try split) <;> rfl

@[simp] theorem writeByte_CtrlTransferStage (s : State) (p : RamPtr) (v : Nat) :
    (writeByte s p v).CtrlTransferStage = s.CtrlTransferStage := by
  unfold writeByte
  split <;> (try split) <;> rfl

@[simp] theorem writeByte_HIDPostProcess (s : State) (p : RamPtr) (v : Nat) :
    (writeByte s p v).HIDPostProcess = s.HIDPostProcess := by
  unfold writeByte
  split <;> (try split) <;> rfl

@[simp] theorem writeByte_RequestHandled (s : State) (p : RamPtr) (v : Nat) :
    (writeByte s p v).RequestHandled = s.RequestHandled := by
  unfold writeByte
  split <;> (try split) <;> rfl

@[simp] theorem writeByte_ROMoutPtr (s : State) (p : RamPtr) (v : Nat) :
    (writeByte s p v).ROMoutPtr = s.ROMoutPtr := by
  unfold writeByte
  split <;> (try split) <;> rfl

@[simp] theorem writeByte_outPtr (s : State) (p : RamPtr) (v : Nat) :
    (writeByte s p v).outPtr = s.outPtr := by
  unfold writeByte
  split <;> (try split) <;> rfl

@[simp] theorem writeByte_inPtr (s : State) (p : RamPtr) (v : Nat) :
    (writeByte s p v).inPtr = s.inPtr := by
  unfold writeByte
  split <;> (try split) <;> rfl

@[simp] theorem writeByte_transferType (s : State) (p : RamPtr) (v : Nat) :
    (writeByte s p v).transferType = s.transferType := by
  unfold writeByte
  split <;> (try split) <;> rfl

@[simp] theorem writeByte_wCount (s : State) (p : RamPtr) (v : Nat) :
    (writeByte s p v).wCount = s.wCount := by
  unfold writeByte
  split <;> (try split) <;> rfl

@[simp] theorem writeByte_SetupPacket (s : State) (p : RamPtr) (v : Nat) :
    (writeByte s p v).SetupPacket = s.SetupPacket := by
  unfold writeByte
  split <;> (try split) <;> rfl

@[simp] theorem writeByte_DeviceState (s : State) (p : RamPtr) (v : Nat) :
    (writeByte s p v).DeviceState = s.DeviceState := by
  unfold writeByte
  split <;> (try split) <;> rfl

@[simp] theorem writeByte_UADDR (s : State) (p : RamPtr) (v : Nat) :
    (writeByte s p v).UADDR = s.UADDR := by
  unfold writeByte
  split <;> (try split) <;> rfl

@[simp] theorem writeByte_USTAT (s : State) (p : RamPtr) (v : Nat) :
    (writeByte s p v).USTAT = s.USTAT := by
  unfold writeByte
  split <;> (try split) <;> rfl

@[simp] theorem writeByte_UCON (s : State) (p : RamPtr) (v : Nat) :
    (writeByte s p v).UCON = s.UCON := by
  unfold writeByte
  split <;> (try split) <;> rfl

/-! ## Frame lemmas for the copy loops -/

@[simp] theorem copyFromRam_RemoteWakeup (n : Nat) (s : State) :
    (copyFromRam n s).RemoteWakeup = s.RemoteWakeup := by
  induction n generalizing s with
  | zero => rfl
  | succ n ih => simp [copyFromRam, copyFromRam_body, ih]

@[simp] theorem copyFromRam_SelfPowered (n : Nat) (s : State) :
    (copyFromRam n s).SelfPowered = s.SelfPowered := by
  induction n generalizing s with
  | zero => rfl
  | succ n ih => simp [copyFromRam, copyFromRam_body, ih]

@[simp] theorem copyFromRam_CtrlTransferStage (n : Nat) (s : State) :
    (copyFromRam n s).CtrlTransferStage = s.CtrlTransferStage := by
  induction n generalizing s with
  | zero => rfl
  | succ n ih => simp [copyFromRam, copyFromRam_body, ih]

@[simp] theorem copyFromRam_HIDPostProcess (n : Nat) (s : State) :
    (copyFromRam n s).HIDPostProcess = s.HIDPostProcess := by
  induction n generalizing s with
  | zero => rfl
  | succ n ih => simp [copyFromRam, copyFromRam_body, ih]

@[simp] theorem copyFromRam_RequestHandled (n : Nat) (s : State) :
    (copyFromRam n s).RequestHandled = s.RequestHandled := by
  induction n generalizing s with
  | zero => rfl
  | succ n ih => simp [copyFromRam, copyFromRam_body, ih]

@[simp] theorem copyFromRam_ROMoutPtr (n : Nat) (s : State) :
    (copyFromRam n s).ROMoutPtr = s.ROMoutPtr := by
  induction n generalizing s with
  | zero => rfl
  | succ n ih => simp [copyFromRam, copyFromRam_body, ih]

@[simp] theorem copyFromRam_transferType (n : Nat) (s : State) :
    (copyFromRam n s).transferType = s.transferType := by
  induction n generalizing s with
  | zero => rfl
  | succ n ih => simp [copyFromRam, copyFromRam_body, ih]

@[simp] theorem copyFromRam_wCount (n : Nat) (s : State) :
    (copyFromRam n s).wCount = s.wCount := by
  induction n generalizing s with
  | zero => rfl
  | succ n ih => simp [copyFromRam, copyFromRam_body, ih]

@[simp] theorem copyFromRam_SetupPacket (n : Nat) (s : State) :
    (copyFromRam n s).SetupPacket = s.SetupPacket := by
  induction n generalizing s with
  | zero => rfl
  | succ n ih => simp [copyFromRam, copyFromRam_body, ih]

@[simp] theorem copyFromRam_DeviceState (n : Nat) (s : State) :
    (copyFromRam n s).DeviceState = s.DeviceState := by
  induction n generalizing s with
  | zero => rfl
  | succ n ih => simp [copyFromRam, copyFromRam_body, ih]

@[simp] theorem copyFromRam_UADDR (n : Nat) (s : State) :
    (copyFromRam n s).UADDR = s.UADDR := by
  induction n generalizing s with
  | zero => rfl
  | succ n ih => simp [copyFromRam, copyFromRam_body, ih]

@[simp] theorem copyFromRam_USTAT (n : Nat) (s : State) :
    (copyFromRam n s).USTAT = s.USTAT := by
  induction n generalizing s with
  | zero => rfl
  | succ n ih => simp [copyFromRam, copyFromRam_body, ih]

@[simp] theorem copyFromRam_UCON (n : Nat) (s : State) :
    (copyFromRam n s).UCON = s.UCON := by
  induction n generalizing s with
  | zero => rfl
  | succ n ih => simp [copyFromRam, copyFromRam_body, ih]

@[simp] theorem copyFromRom_RemoteWakeup (L : Layout) (n : Nat) (s : State) :
    (copyFromRom L n s).RemoteWakeup = s.RemoteWakeup := by
  induction n generalizing s with
  | zero => rfl
  | succ n ih => simp [copyFromRom, copyFromRom_body, ih]

@[simp] theorem copyFromRom_SelfPowered (L : Layout) (n : Nat) (s : State) :
    (copyFromRom L n s).SelfPowered = s.SelfPowered := by
  induction n generalizing s with
  | zero => rfl
  | succ n ih => simp [copyFromRom, copyFromRom_body, ih]

@[simp] theorem copyFromRom_CtrlTransferStage (L : Layout) (n : Nat) (s : State) :
    (copyFromRom L n s).CtrlTransferStage = s.CtrlTransferStage := by
  induction n generalizing s with
  | zero => rfl
  | succ n ih => simp [copyFromRom, copyFromRom_body, ih]

@[simp] theorem copyFromRom_HIDPostProcess (L : Layout) (n : Nat) (s : State) :
    (copyFromRom L n s).HIDPostProcess = s.HIDPostProcess := by
  induction n generalizing s with
  | zero => rfl
  | succ n ih => simp [copyFromRom, copyFromRom_body, ih]

@[simp] theorem copyFromRom_RequestHandled (L : Layout) (n : Nat) (s : State) :
    (copyFromRom L n s).RequestHandled = s.RequestHandled := by
  induction n generalizing s with
  | zero => rfl
  | succ n ih => simp [copyFromRom, copyFromRom_body, ih]

@[simp] theorem copyFromRom_outPtr (L : Layout) (n : Nat) (s : State) :
    (copyFromRom L n s).outPtr = s.outPtr := by
  induction n generalizing s with
  | zero => rfl
  | succ n ih => simp [copyFromRom, copyFromRom_body, ih]

@[simp] theorem copyFromRom_transferType (L : Layout) (n : Nat) (s : State) :
    (copyFromRom L n s).transferType = s.transferType := by
  induction n generalizing s with
  | zero => rfl
  | succ n ih => simp [copyFromRom, copyFromRom_body, ih]

@[simp] theorem copyFromRom_wCount (L : Layout) (n : Nat) (s : State) :
    (copyFromRom L n s).wCount = s.wCount := by
  induction n generalizing s with
  | zero => rfl
  | succ n ih => simp [copyFromRom, copyFromRom_body, ih]

@[simp] theorem copyFromRom_SetupPacket (L : Layout) (n : Nat) (s : State) :
    (copyFromRom L n s).SetupPacket = s.SetupPacket := by
  induction n generalizing s with
  | zero => rfl
  | succ n ih => simp [copyFromRom, copyFromRom_body, ih]

@[simp] theorem copyFromRom_DeviceState (L : Layout) (n : Nat) (s : State) :
    (copyFromRom L n s).DeviceState = s.DeviceState := by
  induction n generalizing s with
  | zero => rfl
  | succ n ih => simp [copyFromRom, copyFromRom_body, ih]

@[simp] theorem copyFromRom_UADDR (L : Layout) (n : Nat) (s : State) :
    (copyFromRom L n s).UADDR = s.UADDR := by
  induction n generalizing s with
  | zero => rfl
  | succ n ih => simp [copyFromRom, copyFromRom_body, ih]

@[simp] theorem copyFromRom_USTAT (L : Layout) (n : Nat) (s : State) :
    (copyFromRom L n s).USTAT = s.USTAT := by
  induction n generalizing s with
  | zero => rfl
  | succ n ih => simp [copyFromRom, copyFromRom_body, ih]

@[simp] theorem copyFromRom_UCON (L : Layout) (n : Nat) (s : State) :
    (copyFromRom L n s).UCON = s.UCON := by
  induction n generalizing s with
  | zero => rfl
  | succ n ih => simp [copyFromRom, copyFromRom_body, ih]

/-! ## Frame lemmas for the request handlers -/

theorem HIDInitEndpoints_UADDR (L : Layout) (s : State) : (HIDInitEndpoints L s).UADDR = s.UADDR := by
  simp only [HIDInitEndpoints_eq, HIDInitEndpoints_body, apply_ite State.UADDR, ite_self]

theorem GetDescriptor_UADDR (L : Layout) (s : State) : (GetDescriptor L s).UADDR = s.UADDR := by
  simp only [GetDescriptor, apply_ite State.UADDR, ite_self]

theorem GetStatus_UADDR (s : State) : (GetStatus s).UADDR = s.UADDR := by
  simp only [GetStatus, apply_ite State.UADDR, ite_self]

theorem SetFeature_UADDR (s : State) : (SetFeature s).UADDR = s.UADDR := by
  simp only [SetFeature, writeByte_UADDR, apply_ite State.UADDR, ite_self]

theorem ProcessHIDRequest_UADDR (s : State) : (ProcessHIDRequest s).UADDR = s.UADDR := by
  simp only [ProcessHIDRequest, apply_ite State.UADDR, ite_self]

theorem InDataStage_UADDR (L : Layout) (s : State) : (InDataStage L s).UADDR = s.UADDR := by
  simp only [InDataStage, copyFromRom_UADDR, copyFromRam_UADDR, apply_ite State.UADDR, ite_self]

theorem OutDataStage_UADDR (s : State) : (OutDataStage s).UADDR = s.UADDR := by
  simp only [OutDataStage, copyFromRam_UADDR, apply_ite State.UADDR, ite_self]

theorem HIDInitEndpoints_SetupPacket (L : Layout) (s : State) : (HIDInitEndpoints L s).SetupPacket = s.SetupPacket := by
  simp only [HIDInitEndpoints_eq, HIDInitEndpoints_body, apply_ite State.SetupPacket, ite_self]

theorem GetDescriptor_SetupPacket (L : Layout) (s : State) : (GetDescriptor L s).SetupPacket = s.SetupPacket := by
  simp only [GetDescriptor, apply_ite State.SetupPacket, ite_self]

theorem GetStatus_SetupPacket (s : State) : (GetStatus s).SetupPacket = s.SetupPacket := by
  simp only [GetStatus, apply_ite State.SetupPacket, ite_self]

theorem SetFeature_SetupPacket (s : State) : (SetFeature s).SetupPacket = s.SetupPacket := by
  simp only [SetFeature, writeByte_SetupPacket, apply_ite State.SetupPacket, ite_self]

theorem ProcessHIDRequest_SetupPacket (s : State) : (ProcessHIDRequest s).SetupPacket = s.SetupPacket := by
  simp only [ProcessHIDRequest, apply_ite State.SetupPacket, ite_self]

theorem InDataStage_SetupPacket (L : Layout) (s : State) : (InDataStage L s).SetupPacket = s.SetupPacket := by
  simp only [InDataStage, copyFromRom_SetupPacket, copyFromRam_SetupPacket, apply_ite State.SetupPacket, ite_self]

theorem OutDataStage_SetupPacket (s : State) : (OutDataStage s).SetupPacket = s.SetupPacket := by
  simp only [OutDataStage, copyFromRam_SetupPacket, apply_ite State.SetupPacket, ite_self]

theorem HIDInitEndpoints_DeviceState (L : Layout) (s : State) : (HIDInitEndpoints L s).DeviceState = s.DeviceState := by
  simp only [HIDInitEndpoints_eq, HIDInitEndpoints_body, apply_ite State.DeviceState, ite_self]

theorem GetDescriptor_DeviceState (L : Layout) (s : State) : (GetDescriptor L s).DeviceState = s.DeviceState := by
  simp only [GetDescriptor, apply_ite State.DeviceState, ite_self]

theorem GetStatus_DeviceState (s : State) : (GetStatus s).DeviceState = s.DeviceState := by
  simp only [GetStatus, apply_ite State.DeviceState, ite_self]

theorem SetFeature_DeviceState (s : State) : (SetFeature s).DeviceState = s.DeviceState := by
  simp only [SetFeature, writeByte_DeviceState, apply_ite State.DeviceState, ite_self]

theorem ProcessHIDRequest_DeviceState (s : State) : (ProcessHIDRequest s).DeviceState = s.DeviceState := by
  simp only [ProcessHIDRequest, apply_ite State.DeviceState, ite_self]

theorem InDataStage_DeviceState (L : Layout) (s : State) : (InDataStage L s).DeviceState = s.DeviceState := by
  simp only [InDataStage, copyFromRom_DeviceState, copyFromRam_DeviceState, apply_ite State.DeviceState, ite_self]

theorem OutDataStage_DeviceState (s : State) : (OutDataStage s).DeviceState = s.DeviceState := by
  simp only [OutDataStage, copyFromRam_DeviceState, apply_ite State.DeviceState, ite_self]

theorem ProcessStandardRequest_UADDR (L : Layout) (s : State) : (ProcessStandardRequest L s).UADDR = s.UADDR := by
  simp only [ProcessStandardRequest, HIDInitEndpoints_UADDR, GetDescriptor_UADDR, GetStatus_UADDR, SetFeature_UADDR, apply_ite State.UADDR, ite_self]

theorem SetupStage_UADDR (L : Layout) (s : State) : (SetupStage L s).UADDR = s.UADDR := by
  simp only [SetupStage, InDataStage_UADDR, ProcessHIDRequest_UADDR, ProcessStandardRequest_UADDR, apply_ite State.UADDR, ite_self]

theorem ProcessStandardRequest_SetupPacket (L : Layout) (s : State) : (ProcessStandardRequest L s).SetupPacket = s.SetupPacket := by
  simp only [ProcessStandardRequest, HIDInitEndpoints_SetupPacket, GetDescriptor_SetupPacket, GetStatus_SetupPacket, SetFeature_SetupPacket, apply_ite State.SetupPacket, ite_self]

theorem SetupStage_SetupPacket (L : Layout) (s : State) : (SetupStage L s).SetupPacket = s.SetupPacket := by
  simp only [SetupStage, InDataStage_SetupPacket, ProcessHIDRequest_SetupPacket, ProcessStandardRequest_SetupPacket, apply_ite State.SetupPacket, ite_self]

theorem SetupStage_eq (L : Layout) (s : State) :
    SetupStage L s
      = SetupStage_finish L (ProcessHIDRequest (ProcessStandardRequest L (SetupStage_init s))) := by
  simp only [SetupStage, SetupStage_finish, SetupStage_init]

theorem ProcessStandardRequest_setAddress (L : Layout) (s : State)
    (hstd : s.SetupPacket.bmRequestType &&& 0x60 = 0x00)
    (hreq : s.SetupPacket.bRequest = SET_ADDRESS) :
    ProcessStandardRequest L s =
      { s with RequestHandled := 1, DeviceState := ADDRESS,
               DeviceAddress := s.SetupPacket.wValue0 } := by
  simp [ProcessStandardRequest, hstd, hreq]

theorem ProcessHIDRequest_of_standard (s : State)
    (hstd : s.SetupPacket.bmRequestType &&& 0x60 = 0x00)
    (hreq : s.SetupPacket.bRequest ≠ GET_DESCRIPTOR) :
    ProcessHIDRequest s = s := by
  simp [ProcessHIDRequest, hstd, hreq]

theorem SetupStage_finish_DeviceState (L : Layout) (s : State) :
    (SetupStage_finish L s).DeviceState = s.DeviceState := by
  simp only [SetupStage_finish, InDataStage_DeviceState, apply_ite State.DeviceState, ite_self]

theorem SetupStage_setAddress_DeviceState (L : Layout) (s : State)
    (hstd : s.SetupPacket.bmRequestType &&& 0x60 = 0x00)
    (hreq : s.SetupPacket.bRequest = SET_ADDRESS) :
    (SetupStage L s).DeviceState = ADDRESS := by
  have h1 : (SetupStage_init s).SetupPacket = s.SetupPacket := rfl
  rw [SetupStage_eq, ProcessStandardRequest_setAddress L _ (by rw [h1]; exact hstd) (by rw [h1]; exact hreq),
    ProcessHIDRequest_of_standard _ (by simpa [h1] using hstd) (by simp [h1, hreq]),
    SetupStage_finish_DeviceState]

theorem WaitForSetupStage_UADDR (L : Layout) (s : State) :
    (WaitForSetupStage L s).UADDR = s.UADDR := rfl

theorem ProcessControlTransfer_in_UADDR (L : Layout) (s : State) (h : s.USTAT = 0x04) :
    (ProcessControlTransfer L s).UADDR
      = if s.UADDR = 0 ∧ s.DeviceState = ADDRESS then s.SetupPacket.wValue0 else s.UADDR := by
  simp only [ProcessControlTransfer, h, InDataStage_UADDR, WaitForSetupStage_UADDR,
    apply_ite State.UADDR, ite_self]
  simp

/-- C3: starting with `UADDR = 0` (in particular from the Default state), a standard-type
SET_ADDRESS(addr) Setup packet processed by `SetupStage`, followed by one endpoint-0
IN completion (`USTAT = 0x04`) processed by `ProcessControlTransfer`, leaves
`UADDR = addr`. -/
theorem SET_ADDRESS_applied_at_status (L : Layout) (s : State)
    (hstd : s.SetupPacket.bmRequestType &&& 0x60 = 0x00)
    (hreq : s.SetupPacket.bRequest = SET_ADDRESS)
    (hU : s.UADDR = 0) :
    (ProcessControlTransfer L { SetupStage L s with USTAT := 0x04 }).UADDR
      = s.SetupPacket.wValue0 := by
  rw [ProcessControlTransfer_in_UADDR L _ rfl]
  simp [SetupStage_UADDR, SetupStage_SetupPacket, SetupStage_setAddress_DeviceState L s hstd hreq, hU]

theorem HIDInitEndpoints_RequestHandled (L : Layout) (s : State) :
    (HIDInitEndpoints L s).RequestHandled = s.RequestHandled := by
  simp only [HIDInitEndpoints_eq, HIDInitEndpoints_body]

theorem HIDInitEndpoints_wCount (L : Layout) (s : State) :
    (HIDInitEndpoints L s).wCount = s.wCount := by
  simp only [HIDInitEndpoints_eq, HIDInitEndpoints_body]

/-- Whether `ProcessStandardRequest` marks a request handled depends only on the Setup
packet and on the flag it starts from. -/
theorem ProcessStandardRequest_RequestHandled_congr (L : Layout) (s t : State)
    (hp : s.SetupPacket = t.SetupPacket) (hr : s.RequestHandled = t.RequestHandled) :
    (ProcessStandardRequest L s).RequestHandled
      = (ProcessStandardRequest L t).RequestHandled := by
  simp only [ProcessStandardRequest, GetDescriptor, GetStatus, SetFeature,
    HIDInitEndpoints_RequestHandled, writeByte_RequestHandled,
    apply_ite State.RequestHandled, apply_ite State.SetupPacket, ite_self, hp, hr]

theorem ProcessHIDRequest_RequestHandled_congr (s t : State)
    (hp : s.SetupPacket = t.SetupPacket) (hr : s.RequestHandled = t.RequestHandled) :
    (ProcessHIDRequest s).RequestHandled = (ProcessHIDRequest t).RequestHandled := by
  simp only [ProcessHIDRequest, apply_ite State.RequestHandled, apply_ite State.SetupPacket,
    ite_self, hp, hr]

theorem GetDescriptor_unhandledKeeps (L : Layout) (s : State) :
    unhandledKeeps s.wCount (GetDescriptor L s) := by
  simp only [GetDescriptor, apply_ite (unhandledKeeps s.wCount)]
  simp only [unhandledKeeps, apply_ite State.RequestHandled, ite_self]
  simp

theorem GetStatus_unhandledKeeps (s : State) :
    unhandledKeeps s.wCount (GetStatus s) := by
  simp only [GetStatus, apply_ite (unhandledKeeps s.wCount)]
  simp only [unhandledKeeps, apply_ite State.RequestHandled, apply_ite State.wCount, ite_self]
  split_ifs <;> simp_all

theorem SetFeature_wCount (s : State) : (SetFeature s).wCount = s.wCount := by
  simp only [SetFeature, writeByte_wCount, apply_ite State.wCount, ite_self]

theorem ProcessStandardRequest_unhandledKeeps (L : Layout) (s : State) :
    unhandledKeeps s.wCount (ProcessStandardRequest L s) := by
  have h1 := GetDescriptor_unhandledKeeps L s
  have h2 := GetStatus_unhandledKeeps s
  have h3 : unhandledKeeps s.wCount (SetFeature s) := fun _ => SetFeature_wCount s
  simp only [ProcessStandardRequest, apply_ite (unhandledKeeps s.wCount), h1, h2, h3]
  simp only [unhandledKeeps, HIDInitEndpoints_RequestHandled, apply_ite State.RequestHandled,
    ite_self]
  simp

theorem ProcessHIDRequest_unhandledKeeps (s : State) :
    unhandledKeeps s.wCount (ProcessHIDRequest s) := by
  simp only [ProcessHIDRequest, apply_ite (unhandledKeeps s.wCount)]
  simp only [unhandledKeeps, apply_ite State.RequestHandled, apply_ite State.wCount,
    apply_ite State.SetupPacket, ite_self]
  simp

/-- What `SetupStage` leaves when no dispatcher handled the request. -/
theorem SetupStage_finish_of_unhandled (L : Layout) (t : State) (h : t.RequestHandled = 0) :
    (SetupStage_finish L t).RequestHandled = 0 ∧
    ((SetupStage_finish L t).Interfaces 0).Output.Stat = UOWN ||| BSTALL ∧
    ((SetupStage_finish L t).Interfaces 0).Input.Stat = UOWN ||| BSTALL ∧
    (SetupStage_finish L t).wCount = t.wCount := by
  simp [SetupStage_finish, h]

/-- C1: when neither `ProcessStandardRequest` nor `ProcessHIDRequest` recognises the Setup
packet (each, run on its own from a cleared flag, leaves `RequestHandled` at 0),
`SetupStage` ends with `RequestHandled = 0`, both endpoint-0 descriptors stalled and
handed to the SIE (`Stat = UOWN | BSTALL`), and no pending transfer (`wCount = 0`). -/
theorem unrecognised_request_stalls (L : Layout) (s : State)
    (hstd : (ProcessStandardRequest L { s with RequestHandled := 0 }).RequestHandled = 0)
    (hhid : (ProcessHIDRequest { s with RequestHandled := 0 }).RequestHandled = 0) :
    (SetupStage L s).RequestHandled = 0 ∧
    ((SetupStage L s).Interfaces 0).Output.Stat = UOWN ||| BSTALL ∧
    ((SetupStage L s).Interfaces 0).Input.Stat = UOWN ||| BSTALL ∧
    (SetupStage L s).wCount = 0 := by
  have h1 : (ProcessStandardRequest L (SetupStage_init s)).RequestHandled = 0 := by
    rw [ProcessStandardRequest_RequestHandled_congr L (SetupStage_init s)
      { s with RequestHandled := 0 } rfl rfl]
    exact hstd
  have hp : (ProcessStandardRequest L (SetupStage_init s)).SetupPacket = s.SetupPacket :=
    ProcessStandardRequest_SetupPacket L (SetupStage_init s)
  have h2 : (ProcessHIDRequest (ProcessStandardRequest L (SetupStage_init s))).RequestHandled
      = 0 := by
    rw [ProcessHIDRequest_RequestHandled_congr _ { s with RequestHandled := 0 } hp h1]
    exact hhid
  have w1 : (ProcessStandardRequest L (SetupStage_init s)).wCount = 0 :=
    ProcessStandardRequest_unhandledKeeps L (SetupStage_init s) h1
  have w2 : (ProcessHIDRequest (ProcessStandardRequest L (SetupStage_init s))).wCount = 0 :=
    (ProcessHIDRequest_unhandledKeeps _ h2).trans w1
  rw [SetupStage_eq]
  have h := SetupStage_finish_of_unhandled L _ h2
  rw [w2] at h
  exact h

/-- Witness for C1: a vendor-type request (bmRequestType 0x40). -/
theorem unrecognised_request_stalls_witness :
    (ProcessStandardRequest sampleLayout
      { stateWithPacket ⟨0x40, 0x01, 0, 0, 0, 0, 0, 0⟩ with RequestHandled := 0 }).RequestHandled
        = 0 ∧
    (ProcessHIDRequest
      { stateWithPacket ⟨0x40, 0x01, 0, 0, 0, 0, 0, 0⟩ with RequestHandled := 0 }).RequestHandled
        = 0 ∧
    ((SetupStage sampleLayout (stateWithPacket ⟨0x40, 0x01, 0, 0, 0, 0, 0, 0⟩)).Interfaces 0).Input.Stat
        = UOWN ||| BSTALL :=
  ⟨by decide, by decide,
   (unrecognised_request_stalls sampleLayout (stateWithPacket ⟨0x40, 0x01, 0, 0, 0, 0, 0, 0⟩)
      (by decide) (by decide)).2.2.1⟩

theorem copyFromRom_spec (L : Layout) (n : Nat) (s : State) (k : Nat)
    (hin : s.inPtr = ⟨.ControlTransferBuffer, k⟩) :
    (copyFromRom L n s).ROMoutPtr = ⟨s.ROMoutPtr.obj, s.ROMoutPtr.off + n⟩ ∧
    (copyFromRom L n s).Interfaces = s.Interfaces ∧
    (∀ i, (copyFromRom L n s).ControlTransferBuffer i
      = if k ≤ i ∧ i < k + n then romRead L ⟨s.ROMoutPtr.obj, s.ROMoutPtr.off + (i - k)⟩
        else s.ControlTransferBuffer i) := by
  induction n generalizing s k with
  | zero =>
    refine ⟨rfl, rfl, ?_⟩
    intro i
    have : ¬ (k ≤ i ∧ i < k + 0) := by omega
    rw [if_neg this]
    rfl
  | succ n ih =>
    have hin1 : (copyFromRom_body L s).inPtr = ⟨.ControlTransferBuffer, k + 1⟩ := by
      simp [copyFromRom_body, RamPtr.succ, hin]
    have hrom : (copyFromRom_body L s).ROMoutPtr = ⟨s.ROMoutPtr.obj, s.ROMoutPtr.off + 1⟩ := by
      simp [copyFromRom_body, RomPtr.succ]
    have hifc : (copyFromRom_body L s).Interfaces = s.Interfaces := by
      simp [copyFromRom_body, writeByte, hin]
    have hctb : (copyFromRom_body L s).ControlTransferBuffer
        = Function.update s.ControlTransferBuffer k (romRead L s.ROMoutPtr) := by
      simp [copyFromRom_body, writeByte, hin]
    obtain ⟨h1, h2, h3⟩ := ih (copyFromRom_body L s) (k + 1) hin1
    refine ⟨?_, ?_, ?_⟩
    · show (copyFromRom L n (copyFromRom_body L s)).ROMoutPtr = _
      rw [h1, hrom]
      simp [Nat.add_assoc, Nat.add_comm 1 n]
    · show (copyFromRom L n (copyFromRom_body L s)).Interfaces = _
      rw [h2, hifc]
    · intro i
      show (copyFromRom L n (copyFromRom_body L s)).ControlTransferBuffer i = _
      rw [h3 i, hrom, hctb]
      by_cases hi : i = k
      · subst hi
        have c1 : ¬ (i + 1 ≤ i ∧ i < i + 1 + n) := by omega
        have c2 : (i ≤ i ∧ i < i + (n + 1)) := by omega
        rw [if_neg c1, if_pos c2]
        simp
      · by_cases hr : k + 1 ≤ i ∧ i < k + 1 + n
        · have c2 : (k ≤ i ∧ i < k + (n + 1)) := by omega
          have e : s.ROMoutPtr.off + 1 + (i - (k + 1)) = s.ROMoutPtr.off + (i - k) := by omega
          rw [if_pos hr, if_pos c2]
          simp only [e]
        · have c2 : ¬ (k ≤ i ∧ i < k + (n + 1)) := by omega
          rw [if_neg hr, if_neg c2, Function.update_noteq hi]

/-- `InDataStage` with a program-memory source: one packet of `min wCount E0SZ` bytes
is copied to the start of the control transfer buffer. -/
theorem InDataStage_rom (L : Layout) (s : State) (ht : s.transferType = 1) :
    (InDataStage L s).wCount = s.wCount - min s.wCount E0SZ ∧
    (InDataStage L s).ROMoutPtr = ⟨s.ROMoutPtr.obj, s.ROMoutPtr.off + min s.wCount E0SZ⟩ ∧
    ((InDataStage L s).Interfaces 0).Input.Cnt = min s.wCount E0SZ ∧
    (∀ i, i < min s.wCount E0SZ →
      (InDataStage L s).ControlTransferBuffer i
        = romRead L ⟨s.ROMoutPtr.obj, s.ROMoutPtr.off + i⟩) ∧
    (InDataStage L s).transferType = 1 ∧
    (InDataStage L s).CtrlTransferStage = s.CtrlTransferStage := by
  have hb : (if s.wCount < E0SZ then s.wCount else E0SZ) = min s.wCount E0SZ := by
    split_ifs with h
    · exact (min_eq_left (le_of_lt h)).symm
    · exact (min_eq_right (not_lt.mp h)).symm
  have hle : min s.wCount E0SZ ≤ 8 := min_le_right _ _
  have hcnt : (min s.wCount E0SZ &&& 0xFF) % 256 = min s.wCount E0SZ := by
    have : min s.wCount E0SZ &&& 0xFF = min s.wCount E0SZ % 256 :=
      Nat.and_pow_two_sub_one_eq_mod _ 8
    rw [this]
    omega
  simp only [InDataStage, ht, if_true, hb]
  refine ⟨?_, ?_, ?_, ?_, ?_, ?_⟩
  · simp only [copyFromRom_wCount]
  · rw [(copyFromRom_spec L _ _ 0 rfl).1]
  · rw [(copyFromRom_spec L _ _ 0 rfl).2.1]
    simp [hcnt]
  · intro i hi
    rw [(copyFromRom_spec L _ _ 0 rfl).2.2 i]
    have c : 0 ≤ i ∧ i < 0 + min s.wCount E0SZ := by omega
    rw [if_pos c]
    simp
  · simp only [copyFromRom_transferType, ht]
  · simp only [copyFromRom_CtrlTransferStage]

theorem applyAddress_CtrlTransferStage (s : State) :
    (applyAddress s).CtrlTransferStage = s.CtrlTransferStage := by
  simp only [applyAddress, apply_ite State.CtrlTransferStage, ite_self]

theorem applyAddress_transferType (s : State) :
    (applyAddress s).transferType = s.transferType := by
  simp only [applyAddress, apply_ite State.transferType, ite_self]

theorem applyAddress_wCount (s : State) : (applyAddress s).wCount = s.wCount := by
  simp only [applyAddress, apply_ite State.wCount, ite_self]

theorem applyAddress_ROMoutPtr (s : State) : (applyAddress s).ROMoutPtr = s.ROMoutPtr := by
  simp only [applyAddress, apply_ite State.ROMoutPtr, ite_self]

theorem ProcessControlTransfer_dataIn (L : Layout) (s : State) (h4 : s.USTAT = 0x04)
    (hs : s.CtrlTransferStage = DATA_IN_STAGE) :
    ProcessControlTransfer L s = toggleIn (InDataStage L (applyAddress s)) := by
  by_cases c : s.UADDR = 0 ∧ s.DeviceState = ADDRESS
  · by_cases c2 : s.SetupPacket.wValue0 = 0
    · simp [ProcessControlTransfer, toggleIn, applyAddress, h4, hs, c, c2]
    · simp [ProcessControlTransfer, toggleIn, applyAddress, h4, hs, c, c2]
  · simp [ProcessControlTransfer, toggleIn, applyAddress, h4, hs, c]

theorem completeIn_rom (L : Layout) (s : State) (hs : s.CtrlTransferStage = DATA_IN_STAGE)
    (ht : s.transferType = 1) :
    (completeIn L s).wCount = s.wCount - min s.wCount E0SZ ∧
    (completeIn L s).ROMoutPtr = ⟨s.ROMoutPtr.obj, s.ROMoutPtr.off + min s.wCount E0SZ⟩ ∧
    stagedPacket (completeIn L s) = romBytes L s.ROMoutPtr (min s.wCount E0SZ) ∧
    (completeIn L s).transferType = 1 ∧
    (completeIn L s).CtrlTransferStage = DATA_IN_STAGE := by
  have ht1 : (applyAddress { s with USTAT := 0x04 }).transferType = 1 := by
    rw [applyAddress_transferType]; exact ht
  obtain ⟨h1, h2, h3, h4, h5, h6⟩ := InDataStage_rom L (applyAddress { s with USTAT := 0x04 }) ht1
  rw [applyAddress_wCount] at h1 h2 h3 h4
  rw [applyAddress_ROMoutPtr] at h2 h4
  rw [applyAddress_CtrlTransferStage] at h6
  have e : completeIn L s = toggleIn (InDataStage L (applyAddress { s with USTAT := 0x04 })) :=
    ProcessControlTransfer_dataIn L { s with USTAT := 0x04 } rfl hs
  rw [e]
  refine ⟨?_, ?_, ?_, ?_, ?_⟩
  · simp only [toggleIn, apply_ite State.wCount, ite_self]
    exact h1
  · simp only [toggleIn, apply_ite State.ROMoutPtr, ite_self]
    exact h2
  · have hc : ((toggleIn (InDataStage L (applyAddress { s with USTAT := 0x04 }))).Interfaces
        0).Input.Cnt = min s.wCount E0SZ := by
      rw [← h3]
      unfold toggleIn
      split_ifs <;> simp
    have hb : (toggleIn (InDataStage L (applyAddress { s with USTAT := 0x04 }))).ControlTransferBuffer
        = (InDataStage L (applyAddress { s with USTAT := 0x04 })).ControlTransferBuffer := by
      simp only [toggleIn, apply_ite State.ControlTransferBuffer, ite_self]
    unfold stagedPacket romBytes
    rw [hc, hb]
    apply List.map_congr_left
    intro i hi
    exact h4 i (List.mem_range.mp hi)
  · simp only [toggleIn, apply_ite State.transferType, ite_self]
    exact h5
  · simp only [toggleIn, apply_ite State.CtrlTransferStage, ite_self]
    rw [h6]
    exact hs

theorem romBytes_add (L : Layout) (p : RomPtr) (a b : Nat) :
    romBytes L p (a + b) = romBytes L p a ++ romBytes L ⟨p.obj, p.off + a⟩ b := by
  simp [romBytes, List.range_add, List.map_map, Function.comp_def, Nat.add_assoc]

theorem romBytes_table (L : Layout) (o : RomObj) (m : Nat) (h : m ≤ (romTable o).length) :
    romBytes L ⟨o, 0⟩ m = (romTable o).take m := by
  apply List.ext_getElem
  · simp [romBytes, h]
  · intro i h1 h2
    have hi : i < m := by simpa [romBytes] using h1
    have hi2 : i < (romTable o).length := by omega
    simp [romBytes, romRead, hi2, List.getD_eq_getElem?_getD, List.getElem?_eq_getElem hi2]

/-- Draining a program-memory transfer stages the `wCount` bytes at `ROMoutPtr`, in
order, and ends with `wCount = 0`. -/
theorem drainIn_rom (L : Layout) (fuel : Nat) (s : State)
    (hs : s.CtrlTransferStage = DATA_IN_STAGE) (ht : s.transferType = 1)
    (hf : s.wCount ≤ E0SZ * fuel) :
    (drainIn L fuel s).1 = romBytes L s.ROMoutPtr s.wCount ∧
    (drainIn L fuel s).2.wCount = 0 ∧
    (drainIn L fuel s).2.ROMoutPtr = ⟨s.ROMoutPtr.obj, s.ROMoutPtr.off + s.wCount⟩ := by
  induction fuel generalizing s with
  | zero =>
    have h0 : s.wCount = 0 := by omega
    simp [drainIn, h0, romBytes]
  | succ fuel ih =>
    by_cases h0 : s.wCount = 0
    · simp [drainIn, h0, romBytes]
    · obtain ⟨c1, c2, c3, c4, c5⟩ := completeIn_rom L s hs ht
      have hf1 : (completeIn L s).wCount ≤ E0SZ * fuel := by
        rw [c1]
        have : min s.wCount E0SZ = s.wCount ∨ min s.wCount E0SZ = E0SZ := by
          rcases Nat.le_total s.wCount E0SZ with h | h
          · exact Or.inl (min_eq_left h)
          · exact Or.inr (min_eq_right h)
        have hm : min s.wCount E0SZ ≤ s.wCount := min_le_left _ _
        rcases this with h | h <;> rw [h] <;> simp only [E0SZ, Endpoint0BufferSize] at * <;> omega
      obtain ⟨i1, i2, i3⟩ := ih (completeIn L s) c5 c4 hf1
      have hsplit : s.wCount = min s.wCount E0SZ + (s.wCount - min s.wCount E0SZ) := by
        have hm : min s.wCount E0SZ ≤ s.wCount := min_le_left _ _
        omega
      simp only [drainIn, h0, if_false]
      refine ⟨?_, i2, ?_⟩
      · rw [c3, i1, c2, c1]
        conv_rhs => rw [hsplit]
        rw [romBytes_add]
      · rw [i3, c2, c1]
        have hm : min s.wCount E0SZ ≤ s.wCount := min_le_left _ _
        simp only [RomPtr.mk.injEq, true_and]
        omega

theorem clampCount_wCount (s : State) :
    (clampCount s).wCount = min s.SetupPacket.wLength s.wCount := by
  unfold clampCount
  split_ifs with h
  · exact (min_eq_left (le_of_lt h)).symm
  · exact (min_eq_right (not_lt.mp h)).symm

theorem clampCount_transferType (s : State) :
    (clampCount s).transferType = s.transferType := by
  simp only [clampCount, apply_ite State.transferType, ite_self]

theorem clampCount_ROMoutPtr (s : State) : (clampCount s).ROMoutPtr = s.ROMoutPtr := by
  simp only [clampCount, apply_ite State.ROMoutPtr, ite_self]

/-- `SetupStage_finish` on a handled device-to-host request: the first packet is staged
by `InDataStage` and the stage becomes Data-In. -/
theorem SetupStage_finish_dataIn (L : Layout) (t : State) (h : t.RequestHandled = 1)
    (hd : t.SetupPacket.bmRequestType &&& 0x80 ≠ 0) :
    (SetupStage_finish L t).wCount = (InDataStage L (clampCount t)).wCount ∧
    (SetupStage_finish L t).ROMoutPtr = (InDataStage L (clampCount t)).ROMoutPtr ∧
    ((SetupStage_finish L t).Interfaces 0).Input.Cnt
      = ((InDataStage L (clampCount t)).Interfaces 0).Input.Cnt ∧
    (SetupStage_finish L t).ControlTransferBuffer
      = (InDataStage L (clampCount t)).ControlTransferBuffer ∧
    (SetupStage_finish L t).transferType = (InDataStage L (clampCount t)).transferType ∧
    (SetupStage_finish L t).CtrlTransferStage = DATA_IN_STAGE := by
  simp [SetupStage_finish, clampCount, h, hd]

theorem ProcessHIDRequest_of_not_interface (s : State)
    (h : s.SetupPacket.bmRequestType &&& 0x1F ≠ 0x01) : ProcessHIDRequest s = s := by
  simp [ProcessHIDRequest, h]

theorem ProcessStandardRequest_getDeviceDescriptor (L : Layout) (s : State)
    (h80 : s.SetupPacket.bmRequestType = 0x80)
    (hreq : s.SetupPacket.bRequest = GET_DESCRIPTOR)
    (hdev : s.SetupPacket.wValue1 = DEVICE_DESCRIPTOR) :
    ProcessStandardRequest L s = pendingDeviceDescriptor s := by
  have hstd : s.SetupPacket.bmRequestType &&& 0x60 = 0x00 := by rw [h80]; decide
  simp only [ProcessStandardRequest, GetDescriptor, pendingDeviceDescriptor, hstd, hreq, hdev]
  simp [h80]

/-- The state `SetupStage` leaves for GET_DESCRIPTOR(Device). -/
theorem SetupStage_getDeviceDescriptor (L : Layout) (s : State)
    (h80 : s.SetupPacket.bmRequestType = 0x80)
    (hreq : s.SetupPacket.bRequest = GET_DESCRIPTOR)
    (hdev : s.SetupPacket.wValue1 = DEVICE_DESCRIPTOR) :
    (SetupStage L s).wCount
      = min s.SetupPacket.wLength 18 - min (min s.SetupPacket.wLength 18) E0SZ ∧
    (SetupStage L s).ROMoutPtr
      = ⟨.DeviceDescriptor, min (min s.SetupPacket.wLength 18) E0SZ⟩ ∧
    stagedPacket (SetupStage L s)
      = romBytes L ⟨.DeviceDescriptor, 0⟩ (min (min s.SetupPacket.wLength 18) E0SZ) ∧
    (SetupStage L s).transferType = 1 ∧
    (SetupStage L s).CtrlTransferStage = DATA_IN_STAGE := by
  have e1 : ProcessHIDRequest (ProcessStandardRequest L (SetupStage_init s))
      = pendingDeviceDescriptor (SetupStage_init s) := by
    rw [ProcessStandardRequest_getDeviceDescriptor L (SetupStage_init s) h80 hreq hdev]
    apply ProcessHIDRequest_of_not_interface
    show s.SetupPacket.bmRequestType &&& 0x1F ≠ 0x01
    rw [h80]
    decide
  rw [SetupStage_eq, e1]
  obtain ⟨f1, f2, f3, f4, f5, f6⟩ := SetupStage_finish_dataIn L
    (pendingDeviceDescriptor (SetupStage_init s)) rfl
    (by show s.SetupPacket.bmRequestType &&& 0x80 ≠ 0; rw [h80]; decide)
  obtain ⟨g1, g2, g3, g4, g5, _⟩ := InDataStage_rom L
    (clampCount (pendingDeviceDescriptor (SetupStage_init s)))
    (by rw [clampCount_transferType]; rfl)
  rw [clampCount_wCount] at g1 g2 g3 g4
  rw [clampCount_ROMoutPtr] at g2 g4
  have hw : (pendingDeviceDescriptor (SetupStage_init s)).SetupPacket.wLength
      = s.SetupPacket.wLength := rfl
  have hc : (pendingDeviceDescriptor (SetupStage_init s)).wCount = 18 := rfl
  have hp : (pendingDeviceDescriptor (SetupStage_init s)).ROMoutPtr
      = ⟨.DeviceDescriptor, 0⟩ := rfl
  rw [hw, hc] at g1 g2 g3 g4
  rw [hp] at g2 g4
  refine ⟨f1.trans g1, f2.trans (g2.trans (by simp)), ?_, f5.trans g5, f6⟩
  unfold stagedPacket romBytes
  rw [f3, g3, f4]
  apply List.map_congr_left
  intro i hi
  exact g4 i (List.mem_range.mp hi)

/-- C2: for every `wLength`, a GET_DESCRIPTOR(Device) Setup packet followed by draining
the Data-In stage (with fuel for at least two IN completions) stages exactly
`min wLength 18` bytes in total, these are the first `min wLength 18` bytes of
`DeviceDescriptor` in order, the transfer ends with `wCount = 0`, and the read cursor
`ROMoutPtr`, which is advanced past each byte read, ends at offset `min wLength 18`
of the table: no byte past index 17 is read. -/
theorem GET_DESCRIPTOR_device_drained (L : Layout) (s : State) (fuel : Nat)
    (hfuel : 2 ≤ fuel)
    (h80 : s.SetupPacket.bmRequestType = 0x80)
    (hreq : s.SetupPacket.bRequest = GET_DESCRIPTOR)
    (hdev : s.SetupPacket.wValue1 = DEVICE_DESCRIPTOR) :
    stagedPacket (SetupStage L s) ++ (drainIn L fuel (SetupStage L s)).1
      = DeviceDescriptor.take (min s.SetupPacket.wLength 18) ∧
    (stagedPacket (SetupStage L s) ++ (drainIn L fuel (SetupStage L s)).1).length
      = min s.SetupPacket.wLength 18 ∧
    (drainIn L fuel (SetupStage L s)).2.wCount = 0 ∧
    (drainIn L fuel (SetupStage L s)).2.ROMoutPtr
      = ⟨.DeviceDescriptor, min s.SetupPacket.wLength 18⟩ := by
  obtain ⟨a1, a2, a3, a4, a5⟩ := SetupStage_getDeviceDescriptor L s h80 hreq hdev
  have hm : min s.SetupPacket.wLength 18 ≤ 18 := min_le_right _ _
  have hk : min (min s.SetupPacket.wLength 18) E0SZ ≤ min s.SetupPacket.wLength 18 :=
    min_le_left _ _
  have hf : (SetupStage L s).wCount ≤ E0SZ * fuel := by
    rw [a1]
    have : min (min s.SetupPacket.wLength 18) E0SZ = min s.SetupPacket.wLength 18 ∨
        min (min s.SetupPacket.wLength 18) E0SZ = E0SZ := by
      rcases Nat.le_total (min s.SetupPacket.wLength 18) E0SZ with h | h
      · exact Or.inl (min_eq_left h)
      · exact Or.inr (min_eq_right h)
    rcases this with h | h <;> rw [h] <;> simp only [E0SZ, Endpoint0BufferSize] at * <;> omega
  obtain ⟨d1, d2, d3⟩ := drainIn_rom L fuel (SetupStage L s) a5 a4 hf
  have hall : stagedPacket (SetupStage L s) ++ (drainIn L fuel (SetupStage L s)).1
      = DeviceDescriptor.take (min s.SetupPacket.wLength 18) := by
    rw [a3, d1, a2, a1]
    have e := romBytes_add L ⟨.DeviceDescriptor, 0⟩ (min (min s.SetupPacket.wLength 18) E0SZ)
      (min s.SetupPacket.wLength 18 - min (min s.SetupPacket.wLength 18) E0SZ)
    simp only [Nat.zero_add] at e
    rw [← e, Nat.add_sub_cancel' hk]
    exact romBytes_table L .DeviceDescriptor _ hm
  refine ⟨hall, ?_, d2, ?_⟩
  · rw [hall, List.length_take]
    exact min_eq_left hm
  · rw [d3, a2, a1]
    simp only [RomPtr.mk.injEq, true_and]
    omega

/-- Witness for C2: the host asks for 64 bytes of the device descriptor. -/
theorem GET_DESCRIPTOR_device_drained_witness :
    (2 : Nat) ≤ 2 ∧
    (stateWithPacket ⟨0x80, 0x06, 0, 0x01, 0, 0, 64, 0⟩).SetupPacket.bmRequestType = 0x80 ∧
    (stateWithPacket ⟨0x80, 0x06, 0, 0x01, 0, 0, 64, 0⟩).SetupPacket.bRequest = GET_DESCRIPTOR ∧
    (stateWithPacket ⟨0x80, 0x06, 0, 0x01, 0, 0, 64, 0⟩).SetupPacket.wValue1
      = DEVICE_DESCRIPTOR ∧
    stagedPacket (SetupStage sampleLayout (stateWithPacket ⟨0x80, 0x06, 0, 0x01, 0, 0, 64, 0⟩))
        ++ (drainIn sampleLayout 2
              (SetupStage sampleLayout (stateWithPacket ⟨0x80, 0x06, 0, 0x01, 0, 0, 64, 0⟩))).1
      = DeviceDescriptor.take
          (min (stateWithPacket ⟨0x80, 0x06, 0, 0x01, 0, 0, 64, 0⟩).SetupPacket.wLength 18) :=
  ⟨by decide, by decide, by decide, by decide,
   (GET_DESCRIPTOR_device_drained sampleLayout
      (stateWithPacket ⟨0x80, 0x06, 0, 0x01, 0, 0, 64, 0⟩) 2 (by decide) (by decide)
      (by decide) (by decide)).1⟩

/-- Witness for C3: SET_ADDRESS(5) received in the Default state. -/
theorem SET_ADDRESS_applied_at_status_witness :
    (defaultStateWithPacket ⟨0x00, 0x05, 5, 0, 0, 0, 0, 0⟩).SetupPacket.bmRequestType
      &&& 0x60 = 0x00 ∧
    (defaultStateWithPacket ⟨0x00, 0x05, 5, 0, 0, 0, 0, 0⟩).SetupPacket.bRequest
      = SET_ADDRESS ∧
    (defaultStateWithPacket ⟨0x00, 0x05, 5, 0, 0, 0, 0, 0⟩).UADDR = 0 ∧
    (defaultStateWithPacket ⟨0x00, 0x05, 5, 0, 0, 0, 0, 0⟩).DeviceState = DEFAULT ∧
    (ProcessControlTransfer sampleLayout
      { SetupStage sampleLayout (defaultStateWithPacket ⟨0x00, 0x05, 5, 0, 0, 0, 0, 0⟩) with
        USTAT := 0x04 }).UADDR = 5 :=
  ⟨by decide, by decide, by decide, by decide,
   SET_ADDRESS_applied_at_status sampleLayout
     (defaultStateWithPacket ⟨0x00, 0x05, 5, 0, 0, 0, 0, 0⟩) (by decide) (by decide)
     (by decide)⟩

/-- C4: whatever the Setup packet (in particular SET_ADDRESS), `SetupStage` leaves the
hardware address register `UADDR` as it found it: the address is never applied
during the Setup stage. -/
theorem SetupStage_keeps_UADDR (L : Layout) (s : State) :
    (SetupStage L s).UADDR = s.UADDR :=
  SetupStage_UADDR L s

/-! ## Keypad translation -/

/-- The loop of `PrepareTxBuffer` never reads `HIDTxBuffer`: what it leaves at a
position depends only on what was there. -/
theorem PrepareTxBuffer_loop_congr (r : Nat) (maps : List KEYMAP) (index : Nat)
    (s t : State) (i : Nat) (h : s.HIDTxBuffer i = t.HIDTxBuffer i) :
    (PrepareTxBuffer_loop r maps index s).HIDTxBuffer i
      = (PrepareTxBuffer_loop r maps index t).HIDTxBuffer i := by
  induction maps generalizing index s t with
  | nil => exact h
  | cons m maps ih =>
    simp only [PrepareTxBuffer_loop]
    by_cases h0 : m.button = 0
    · simp only [h0, if_true]
      exact h
    · by_cases hp : r &&& m.button > 0
      · by_cases hk : m.key = KEY_RIGHTSHIFT
        · simp only [h0, hp, hk, if_true, if_false]
          apply ih
          simp only [Function.update_apply, h]
        · by_cases hi : index + 1 > 6
          · simp only [h0, hp, hk, hi, if_true, if_false]
            simp only [Function.update_apply, h]
          · simp only [h0, hp, hk, hi, if_true, if_false]
            apply ih
            simp only [Function.update_apply, h]
      · simp only [h0, hp, if_false]
        exact ih index s t h

/-- The buffer after the zeroing loop of `PrepareTxBuffer`. -/
theorem PrepareTxBuffer_clear_HIDTxBuffer (s : State) (i : Nat)
    (hi : i < HidReportByteCount) : (PrepareTxBuffer_clear s).HIDTxBuffer i = 0 := by
  have h8 : i < 8 := hi
  simp only [PrepareTxBuffer_clear, HidReportByteCount, List.range_succ, List.range_zero,
    List.nil_append, List.foldl_append, List.foldl_cons, List.foldl_nil, List.cons_append]
  simp only [Function.update_apply]
  interval_cases i <;> simp

/-- The report `PrepareTxBuffer` builds does not depend on the state it starts from. -/
theorem report_PrepareTxBuffer (r : Nat) (s : State) :
    report (PrepareTxBuffer r s) = reportOf r := by
  unfold reportOf report
  apply List.map_congr_left
  intro i hi
  have hi8 : i < HidReportByteCount := List.mem_range.mp hi
  have hz : (PrepareTxBuffer_clear s).HIDTxBuffer i
      = (PrepareTxBuffer_clear zeroState).HIDTxBuffer i := by
    rw [PrepareTxBuffer_clear_HIDTxBuffer s i hi8,
      PrepareTxBuffer_clear_HIDTxBuffer zeroState i hi8]
  unfold PrepareTxBuffer
  by_cases hr : r > 0
  · simp only [hr, if_true]
    apply PrepareTxBuffer_loop_congr
    exact hz
  · simp only [hr, if_false]
    exact hz

/-- C12: `PrepareTxBuffer` translates the single-button bitmasks as the scenario states:
0x00 gives the all-zero report, 0x04 (SELECT) gives the modifier byte 0x20 and no
key code, 0x01 (button A) gives key code 0x1B in byte 2, and every other
single-button bitmask of `button_key_maps` gives its key code in byte 2 and zeros
elsewhere. -/
theorem PrepareTxBuffer_single_button (s : State) :
    report (PrepareTxBuffer 0x00 s) = [0, 0, 0, 0, 0, 0, 0, 0] ∧
    report (PrepareTxBuffer 0x04 s) = [0x20, 0, 0, 0, 0, 0, 0, 0] ∧
    report (PrepareTxBuffer 0x01 s) = [0, 0, 0x1B, 0, 0, 0, 0, 0] ∧
    (∀ m ∈ button_key_maps, m.button ≠ 0 → m.button ≠ BUTTON_SELECT →
      report (PrepareTxBuffer m.button s) = [0, 0, m.key, 0, 0, 0, 0, 0]) := by
  refine ⟨?_, ?_, ?_, ?_⟩
  · rw [report_PrepareTxBuffer]; decide
  · rw [report_PrepareTxBuffer]; decide
  · rw [report_PrepareTxBuffer]; decide
  · intro m hm h0 hsel
    rw [report_PrepareTxBuffer]
    simp only [button_key_maps, List.mem_cons, List.mem_singleton, List.not_mem_nil,
      or_false] at hm
    rcases hm with rfl | rfl | rfl | rfl | rfl | rfl | rfl | rfl | rfl
    · decide
    · decide
    · exact absurd rfl hsel
    · decide
    · decide
    · decide
    · decide
    · decide
    · exact absurd rfl h0

/-- Witness for C12: the entry of button START. -/
theorem PrepareTxBuffer_single_button_witness :
    (⟨BUTTON_START, KEY_ENTER⟩ : KEYMAP) ∈ button_key_maps ∧
    BUTTON_START ≠ 0 ∧ BUTTON_START ≠ BUTTON_SELECT ∧
    report (PrepareTxBuffer BUTTON_START readyState) = [0, 0, KEY_ENTER, 0, 0, 0, 0, 0] :=
  ⟨by decide, by decide, by decide,
   (PrepareTxBuffer_single_button readyState).2.2.2 ⟨BUTTON_START, KEY_ENTER⟩ (by decide)
     (by decide) (by decide)⟩

/-- C13, evaluated at the failing input: with the six non-modifier buttons A, B, START,
UP, DOWN and LEFT pressed (reading 0x7B), `PrepareTxBuffer` writes five key codes, in
bytes 2 to 6; byte 7 stays 0 and the key code of LEFT is nowhere in the report. -/
theorem PrepareTxBuffer_six_buttons (s : State) :
    report (PrepareTxBuffer
      (BUTTON_A ||| BUTTON_B ||| BUTTON_START ||| BUTTON_UP ||| BUTTON_DOWN ||| BUTTON_LEFT) s)
      = [0, 0, KEY_X, KEY_Z, KEY_ENTER, KEY_UP, KEY_DOWN, 0] ∧
    KEY_LEFT ∉ report (PrepareTxBuffer
      (BUTTON_A ||| BUTTON_B ||| BUTTON_START ||| BUTTON_UP ||| BUTTON_DOWN ||| BUTTON_LEFT) s) := by
  rw [report_PrepareTxBuffer]
  decide

/-! ## The send path of the main loop -/

theorem PrepareTxBuffer_loop_Interfaces (r : Nat) (maps : List KEYMAP) (index : Nat)
    (s : State) : (PrepareTxBuffer_loop r maps index s).Interfaces = s.Interfaces := by
  induction maps generalizing index s with
  | nil => rfl
  | cons m maps ih =>
    simp only [PrepareTxBuffer_loop, apply_ite State.Interfaces, ih, ite_self]

theorem PrepareTxBuffer_clear_Interfaces (s : State) :
    (PrepareTxBuffer_clear s).Interfaces = s.Interfaces := by
  simp only [PrepareTxBuffer_clear, HidReportByteCount, List.range_succ, List.range_zero,
    List.nil_append, List.foldl_append, List.foldl_cons, List.foldl_nil, List.cons_append]

theorem PrepareTxBuffer_Interfaces (r : Nat) (s : State) :
    (PrepareTxBuffer r s).Interfaces = s.Interfaces := by
  simp only [PrepareTxBuffer, apply_ite State.Interfaces, PrepareTxBuffer_loop_Interfaces,
    PrepareTxBuffer_clear_Interfaces, ite_self]

theorem CheckUsb_last_keypad_reading (L : Layout) (s : State) :
    (CheckUsb L s).last_keypad_reading = s.last_keypad_reading := by
  simp only [CheckUsb, ReArmInterface, ProcessIncomingData,
    apply_ite State.last_keypad_reading, ite_self]

theorem CheckUsb_Input (L : Layout) (s : State) :
    ((CheckUsb L s).Interfaces 1).Input = (s.Interfaces 1).Input := by
  simp only [CheckUsb, ReArmInterface, ProcessIncomingData, HidInterfaceNumber]
  split_ifs <;> simp

/-- C11 (amended): when a second report is requested while the first is still in flight
(last reading `r1`, new reading `r2` different from it, endpoint-1 IN descriptor
owned by the SIE), `ProcessIO` arms no second transfer (the IN descriptor is as it
was) and records `r2` as the last reading, but `HIDTxBuffer` then holds the report
of `r2`: `PrepareTxBuffer` rewrites the buffer before `HIDSend` looks at the
ownership bit. -/
theorem ProcessIO_in_flight_overwrites (L : Layout) (IsUsbReady : Bool) (r1 r2 : Nat)
    (s : State) (hne : r1 ≠ r2) (hlast : s.last_keypad_reading = r1)
    (hown : (s.Interfaces 1).Input.Stat &&& UOWN ≠ 0) :
    report ( ProcessIO L IsUsbReady r2 s) = reportOf r2 ∧
    (( ProcessIO L IsUsbReady r2 s).Interfaces 1).Input = (s.Interfaces 1).Input ∧
    ( ProcessIO L IsUsbReady r2 s).last_keypad_reading = r2 := by
  have key : ∀ t : State, t.last_keypad_reading = r1 →
      (t.Interfaces 1).Input = (s.Interfaces 1).Input →
      report (let u := HIDSend L HidInterfaceNumber (PrepareTxBuffer r2 t)
              { u with last_keypad_reading := r2 }) = reportOf r2 ∧
      ((let u := HIDSend L HidInterfaceNumber (PrepareTxBuffer r2 t)
        ({ u with last_keypad_reading := r2 } : State)).Interfaces 1).Input
          = (s.Interfaces 1).Input := by
    intro t _ hin
    have ho : ((PrepareTxBuffer r2 t).Interfaces (HidInterfaceNumber + 1)).Input.Stat
        &&& UOWN ≠ 0 := by
      rw [PrepareTxBuffer_Interfaces]
      show (t.Interfaces 1).Input.Stat &&& UOWN ≠ 0
      rw [hin]
      exact hown
    rw [HIDSend_of_owned L HidInterfaceNumber _ ho]
    refine ⟨?_, ?_⟩
    · exact report_PrepareTxBuffer r2 t
    · show ((PrepareTxBuffer r2 t).Interfaces 1).Input = _
      rw [PrepareTxBuffer_Interfaces, hin]
  cases IsUsbReady with
  | false =>
    have hr : ¬ r2 = s.last_keypad_reading := by rw [hlast]; exact fun h => hne h.symm
    have e : ProcessIO L false r2 s
        = (let u := HIDSend L HidInterfaceNumber (PrepareTxBuffer r2 s)
           { u with last_keypad_reading := r2 }) := by
      simp [ ProcessIO, hr]
    rw [e]
    exact ⟨(key s hlast rfl).1, (key s hlast rfl).2, rfl⟩
  | true =>
    have hl : (CheckUsb L s).last_keypad_reading = r1 := by
      rw [CheckUsb_last_keypad_reading]; exact hlast
    have hr : ¬ r2 = (CheckUsb L s).last_keypad_reading := by
      rw [hl]; exact fun h => hne h.symm
    have e : ProcessIO L true r2 s
        = (let u := HIDSend L HidInterfaceNumber (PrepareTxBuffer r2 (CheckUsb L s))
           { u with last_keypad_reading := r2 }) := by
      simp [ ProcessIO, hr]
    rw [e]
    exact ⟨(key _ hl (CheckUsb_Input L s)).1, (key _ hl (CheckUsb_Input L s)).2, rfl⟩

/-- Witness for the amended C11: button B pressed while the report of button A is in
flight. -/
theorem ProcessIO_in_flight_overwrites_witness :
    (0x01 : Nat) ≠ 0x02 ∧
    firstReportInFlight.last_keypad_reading = 0x01 ∧
    (firstReportInFlight.Interfaces 1).Input.Stat &&& UOWN ≠ 0 ∧
    report ( ProcessIO sampleLayout true 0x02 firstReportInFlight) = reportOf 0x02 :=
  ⟨by decide, by decide, by decide,
   ( ProcessIO_in_flight_overwrites sampleLayout true 0x01 0x02 firstReportInFlight
      (by decide) (by decide) (by decide)).1⟩

/-- Counterexample to C11: the report of button A is in flight and button B is read;
after the send path `HIDTxBuffer` holds the report of button B, not that of
button A. -/
theorem ProcessIO_in_flight_report_changes :
    (0x01 : Nat) ≠ 0x02 ∧
    (firstReportInFlight.Interfaces 1).Input.Stat &&& UOWN ≠ 0 ∧
    report firstReportInFlight = reportOf 0x01 ∧
    report (HIDSend sampleLayout HidInterfaceNumber
      (PrepareTxBuffer 0x02 firstReportInFlight)) = [0, 0, KEY_Z, 0, 0, 0, 0, 0] ∧
    report (HIDSend sampleLayout HidInterfaceNumber
      (PrepareTxBuffer 0x02 firstReportInFlight)) ≠ reportOf 0x01 ∧
    report ( ProcessIO sampleLayout true 0x02 firstReportInFlight) ≠ reportOf 0x01 := by
  decide

/-! ## The dispatcher -/

/-- `ProcessUSBTransactions` as a sequence of category services between its three
early returns. -/
theorem ProcessUSBTransactions_eq (L : Layout) (s : State) :
    ProcessUSBTransactions L s =
      if s.DeviceState = DETACHED then quiesce s
      else if (service L .resume s).UCON.SUSPND = 1 then quiesce (service L .resume s)
      else if (serviceAll L [.reset, .idle, .startOfFrame, .stall, .error]
          (service L .resume s)).DeviceState < DEFAULT then
        quiesce (serviceAll L [.reset, .idle, .startOfFrame, .stall, .error]
          (service L .resume s))
      else
        { service L .transactionComplete
            (serviceAll L [.reset, .idle, .startOfFrame, .stall, .error]
              (service L .resume s)) with UsbInterrupt := 0 } := by
  simp only [ProcessUSBTransactions, service, serviceAll, List.foldl, BusEvent.pending,
    BusEvent.flag, BusEvent.handler, quiesce, clearErrors]

/-- C15: while Detached, or while suspended with no enabled bus-activity flag pending,
`ProcessUSBTransactions` only clears `UIR` and the global USB interrupt flag:
`DeviceState`, `CtrlTransferStage`, `wCount`, `UADDR`, every buffer descriptor and
everything else are as before, whatever flags are pending. -/
theorem ProcessUSBTransactions_detached_or_suspended (L : Layout) (s : State)
    (h : s.DeviceState = DETACHED ∨
      (s.UCON.SUSPND = 1 ∧ ¬ (s.UIR &&& USB_RESUM ≠ 0 ∧ s.UIE &&& USB_RESUM ≠ 0))) :
    ProcessUSBTransactions L s = { s with UIR := 0, UsbInterrupt := 0 } ∧
    (ProcessUSBTransactions L s).DeviceState = s.DeviceState ∧
    (ProcessUSBTransactions L s).CtrlTransferStage = s.CtrlTransferStage ∧
    (ProcessUSBTransactions L s).wCount = s.wCount ∧
    (ProcessUSBTransactions L s).UADDR = s.UADDR ∧
    (ProcessUSBTransactions L s).Interfaces = s.Interfaces := by
  have e : ProcessUSBTransactions L s = { s with UIR := 0, UsbInterrupt := 0 } := by
    rw [ProcessUSBTransactions_eq]
    by_cases hd : s.DeviceState = DETACHED
    · simp only [hd, if_true, quiesce]
    · rcases h with h | ⟨h1, h2⟩
      · exact absurd h hd
      · have hs : service L .resume s = s := by
          simp only [service, BusEvent.pending, BusEvent.flag, h2, if_false]
        simp only [hd, if_false, hs, h1, if_true, quiesce]
  rw [e]
  exact ⟨rfl, rfl, rfl, rfl, rfl, rfl⟩

/-- Witness for C15: a suspended device with a transaction flagged. -/
theorem ProcessUSBTransactions_detached_or_suspended_witness :
    (suspendedWithTransaction.DeviceState = DETACHED ∨
      (suspendedWithTransaction.UCON.SUSPND = 1 ∧
        ¬ (suspendedWithTransaction.UIR &&& USB_RESUM ≠ 0 ∧
            suspendedWithTransaction.UIE &&& USB_RESUM ≠ 0))) ∧
    suspendedWithTransaction.UIR &&& USB_TRN ≠ 0 ∧
    (ProcessUSBTransactions sampleLayout suspendedWithTransaction).Interfaces
      = suspendedWithTransaction.Interfaces :=
  ⟨by decide, by decide,
   (ProcessUSBTransactions_detached_or_suspended sampleLayout suspendedWithTransaction
      (by decide)).2.2.2.2.2⟩

theorem WaitForSetupStage_DeviceState (L : Layout) (s : State) :
    (WaitForSetupStage L s).DeviceState = s.DeviceState := rfl

/-- Servicing a category other than reset and transaction-complete keeps the device
state. -/
theorem service_DeviceState (L : Layout) (e : BusEvent) (s : State)
    (h1 : e ≠ .reset) (h2 : e ≠ .transactionComplete) :
    (service L e s).DeviceState = s.DeviceState := by
  cases e with
  | reset => exact absurd rfl h1
  | transactionComplete => exact absurd rfl h2
  | resume =>
    simp only [service, BusEvent.handler, ClearUsbInterruptFlag, UnSuspend,
      apply_ite State.DeviceState, ite_self]
  | idle =>
    simp only [service, BusEvent.handler, ClearUsbInterruptFlag, Suspend,
      apply_ite State.DeviceState, ite_self]
  | startOfFrame =>
    simp only [service, BusEvent.handler, ClearUsbInterruptFlag, StartOfFrame,
      apply_ite State.DeviceState, ite_self]
  | stall =>
    simp only [service, BusEvent.handler, ClearUsbInterruptFlag, Stall,
      apply_ite State.DeviceState, WaitForSetupStage_DeviceState, ite_self]
  | error =>
    simp only [service, BusEvent.handler, ClearUsbInterruptFlag, clearErrors,
      apply_ite State.DeviceState, ite_self]

/-- Servicing the reset category leaves the device state as it was or at Default. -/
theorem service_reset_DeviceState (L : Layout) (s : State) :
    (service L .reset s).DeviceState = s.DeviceState ∨
    (service L .reset s).DeviceState = DEFAULT := by
  unfold service
  split_ifs
  · right
    simp [BusEvent.handler, ClearUsbInterruptFlag, BusReset, WaitForSetupStage]
  · left
    rfl

theorem and_right_comm_nat (u a b : Nat) : (u &&& a) &&& b = (u &&& b) &&& a := by
  rw [Nat.and_assoc, Nat.and_comm a b, ← Nat.and_assoc]

/-- A reset that is not pending stays not pending while the resume category is
serviced. -/
theorem service_resume_reset_pending (L : Layout) (s : State) :
    BusEvent.reset.pending (service L .resume s) ↔ BusEvent.reset.pending s := by
  unfold service
  split_ifs
  · have e1 : ∀ u : Nat, ((u &&& 0xFB) &&& (0xFF ^^^ USB_RESUM)) &&& USB_URST = u &&& USB_URST := by
      intro u
      rw [Nat.and_assoc, Nat.and_assoc]
      rfl
    have e2 : ∀ u : Nat, (u &&& (0xFF ^^^ USB_RESUM)) &&& USB_URST = u &&& USB_URST := by
      intro u
      rw [Nat.and_assoc]
      rfl
    simp only [BusEvent.pending, BusEvent.flag, BusEvent.handler, ClearUsbInterruptFlag,
      UnSuspend, e1, e2]
  · rfl

theorem ClearUsbInterruptFlag_comm (a b : Nat) (s : State) :
    ClearUsbInterruptFlag a (ClearUsbInterruptFlag b s)
      = ClearUsbInterruptFlag b (ClearUsbInterruptFlag a s) := by
  simp only [ClearUsbInterruptFlag]
  rw [and_right_comm_nat s.UIR _ _]

theorem UnSuspend_ClearUsbInterruptFlag (x : Nat) (s : State) :
    UnSuspend (ClearUsbInterruptFlag x s) = ClearUsbInterruptFlag x (UnSuspend s) := by
  simp only [ClearUsbInterruptFlag, UnSuspend]
  rw [and_right_comm_nat s.UIR _ _]

theorem Suspend_ClearUsbInterruptFlag (x : Nat) (s : State) :
    Suspend (ClearUsbInterruptFlag x s) = ClearUsbInterruptFlag x (Suspend s) := by
  simp only [ClearUsbInterruptFlag, Suspend]
  rw [and_right_comm_nat s.UIR _ _]

theorem StartOfFrame_ClearUsbInterruptFlag (x : Nat) (s : State) :
    StartOfFrame (ClearUsbInterruptFlag x s) = ClearUsbInterruptFlag x (StartOfFrame s) := by
  simp only [ClearUsbInterruptFlag, StartOfFrame]
  rw [and_right_comm_nat s.UIR _ _]

theorem clearErrors_ClearUsbInterruptFlag (x : Nat) (s : State) :
    clearErrors (ClearUsbInterruptFlag x s) = ClearUsbInterruptFlag x (clearErrors s) := by
  simp only [ClearUsbInterruptFlag, clearErrors]
  rw [and_right_comm_nat s.UIR _ _]

theorem Stall_ClearUsbInterruptFlag (L : Layout) (x : Nat) (s : State) :
    Stall L (ClearUsbInterruptFlag x s) = ClearUsbInterruptFlag x (Stall L s) := by
  by_cases hs : s.UEP0 &&& 0x01 = 1
  · simp only [ClearUsbInterruptFlag, Stall, WaitForSetupStage, hs, if_true]
    rw [and_right_comm_nat s.UIR _ _]
  · simp only [ClearUsbInterruptFlag, Stall, hs, if_false]
    rw [and_right_comm_nat s.UIR _ _]

/-- Clearing the transaction-complete flag first does not change how a category other
than transaction-complete is serviced, reset apart. -/
theorem service_ClearUsbInterruptFlag_TRN (L : Layout) (e : BusEvent) (s : State)
    (h1 : e ≠ .reset) (h2 : e ≠ .transactionComplete) :
    service L e (ClearUsbInterruptFlag USB_TRN s)
      = ClearUsbInterruptFlag USB_TRN (service L e s) := by
  have hf : (0xFF ^^^ USB_TRN) &&& e.flag = e.flag := by
    cases e <;> first | rfl | exact absurd rfl h2
  have hh : e.handler L (ClearUsbInterruptFlag USB_TRN s)
      = ClearUsbInterruptFlag USB_TRN (e.handler L s) := by
    cases e with
    | reset => exact absurd rfl h1
    | transactionComplete => exact absurd rfl h2
    | resume => exact UnSuspend_ClearUsbInterruptFlag _ s
    | idle => exact Suspend_ClearUsbInterruptFlag _ s
    | startOfFrame => exact StartOfFrame_ClearUsbInterruptFlag _ s
    | stall => exact Stall_ClearUsbInterruptFlag L _ s
    | error => exact clearErrors_ClearUsbInterruptFlag _ s
  have hu : (ClearUsbInterruptFlag USB_TRN s).UIR &&& e.flag = s.UIR &&& e.flag := by
    show (s.UIR &&& (0xFF ^^^ USB_TRN)) &&& e.flag = _
    rw [Nat.and_assoc, hf]
  have hp : e.pending (ClearUsbInterruptFlag USB_TRN s) ↔ e.pending s := by
    show (_ ≠ 0 ∧ s.UIE &&& e.flag ≠ 0) ↔ _
    rw [hu]
  unfold service
  by_cases hq : e.pending s
  · rw [if_pos hq, if_pos (hp.mpr hq), hh, ClearUsbInterruptFlag_comm]
  · rw [if_neg hq, if_neg (fun h => hq (hp.mp h))]

theorem quiesce_ClearUsbInterruptFlag (x : Nat) (s : State) :
    quiesce (ClearUsbInterruptFlag x s) = quiesce s := rfl

/-- C16: while `DeviceState` is below Default (Attached or Powered) and no enabled
bus-reset flag is pending, a call of `ProcessUSBTransactions` gives the same result as
the call with TRNIF clear, whether or not TRNIF and TRNIE are set, so
`ProcessControlTransfer` has no part in it, and `DeviceState` is still below Default
afterwards. -/
theorem ProcessUSBTransactions_ignores_transaction_below_default (L : Layout) (s : State)
    (hd : s.DeviceState = ATTACHED ∨ s.DeviceState = POWERED)
    (hr : ¬ (s.UIR &&& USB_URST ≠ 0 ∧ s.UIE &&& USB_URST ≠ 0)) :
    ProcessUSBTransactions L s
      = ProcessUSBTransactions L { s with UIR := s.UIR &&& (0xFF ^^^ USB_TRN) } ∧
    (ProcessUSBTransactions L s).DeviceState < DEFAULT := by
  have hc : ({ s with UIR := s.UIR &&& (0xFF ^^^ USB_TRN) } : State)
      = ClearUsbInterruptFlag USB_TRN s := rfl
  rw [hc]
  have hnd : ¬ s.DeviceState = DETACHED := by
    rcases hd with h | h <;> rw [h] <;> decide
  have hnd2 : ¬ (ClearUsbInterruptFlag USB_TRN s).DeviceState = DETACHED := hnd
  -- the state after the resume category
  have e1 := service_ClearUsbInterruptFlag_TRN L .resume s (by decide) (by decide)
  have hr1 : ¬ BusEvent.reset.pending (service L .resume s) :=
    fun h => hr ((service_resume_reset_pending L s).mp h)
  have hreset : ∀ t : State, ¬ BusEvent.reset.pending t → service L .reset t = t := by
    intro t ht
    unfold service
    rw [if_neg ht]
  have hr1c : ¬ BusEvent.reset.pending (ClearUsbInterruptFlag USB_TRN (service L .resume s)) := by
    intro h
    apply hr1
    have hu : (ClearUsbInterruptFlag USB_TRN (service L .resume s)).UIR &&& USB_URST
        = (service L .resume s).UIR &&& USB_URST := by
      show ((service L .resume s).UIR &&& (0xFF ^^^ USB_TRN)) &&& USB_URST = _
      rw [Nat.and_assoc]
      rfl
    have h1 := h.1
    change (ClearUsbInterruptFlag USB_TRN (service L .resume s)).UIR &&& USB_URST ≠ 0 at h1
    rw [hu] at h1
    exact ⟨h1, h.2⟩
  -- the five middle categories
  have e5 : serviceAll L [.reset, .idle, .startOfFrame, .stall, .error]
      (ClearUsbInterruptFlag USB_TRN (service L .resume s))
      = ClearUsbInterruptFlag USB_TRN
          (serviceAll L [.reset, .idle, .startOfFrame, .stall, .error]
            (service L .resume s)) := by
    simp only [serviceAll, List.foldl]
    rw [hreset _ hr1c, hreset _ hr1,
      service_ClearUsbInterruptFlag_TRN L .idle _ (by decide) (by decide),
      service_ClearUsbInterruptFlag_TRN L .startOfFrame _ (by decide) (by decide),
      service_ClearUsbInterruptFlag_TRN L .stall _ (by decide) (by decide),
      service_ClearUsbInterruptFlag_TRN L .error _ (by decide) (by decide)]
  have hds : (serviceAll L [.reset, .idle, .startOfFrame, .stall, .error]
      (service L .resume s)).DeviceState = s.DeviceState := by
    simp only [serviceAll, List.foldl]
    rw [hreset _ hr1,
      service_DeviceState L .error _ (by decide) (by decide),
      service_DeviceState L .stall _ (by decide) (by decide),
      service_DeviceState L .startOfFrame _ (by decide) (by decide),
      service_DeviceState L .idle _ (by decide) (by decide),
      service_DeviceState L .resume _ (by decide) (by decide)]
  have hlt : s.DeviceState < DEFAULT := by
    rcases hd with h | h <;> rw [h] <;> decide
  have hlt6 : (serviceAll L [.reset, .idle, .startOfFrame, .stall, .error]
      (service L .resume s)).DeviceState < DEFAULT := by rw [hds]; exact hlt
  have main : ProcessUSBTransactions L s
      = if (service L .resume s).UCON.SUSPND = 1 then quiesce (service L .resume s)
        else quiesce (serviceAll L [.reset, .idle, .startOfFrame, .stall, .error]
          (service L .resume s)) := by
    rw [ProcessUSBTransactions_eq, if_neg hnd, if_pos hlt6]
  have main2 : ProcessUSBTransactions L (ClearUsbInterruptFlag USB_TRN s)
      = if (service L .resume s).UCON.SUSPND = 1 then quiesce (service L .resume s)
        else quiesce (serviceAll L [.reset, .idle, .startOfFrame, .stall, .error]
          (service L .resume s)) := by
    rw [ProcessUSBTransactions_eq, if_neg hnd2, e1, e5]
    have hlt6c : (ClearUsbInterruptFlag USB_TRN
        (serviceAll L [.reset, .idle, .startOfFrame, .stall, .error]
          (service L .resume s))).DeviceState < DEFAULT := hlt6
    rw [if_pos hlt6c, quiesce_ClearUsbInterruptFlag, quiesce_ClearUsbInterruptFlag]
    rfl
  refine ⟨main.trans main2.symm, ?_⟩
  rw [main]
  split_ifs
  · show (service L .resume s).DeviceState < DEFAULT
    rw [service_DeviceState L .resume _ (by decide) (by decide)]
    exact hlt
  · exact hlt6

/-- Witness for C16: a powered device that was never reset, with a transaction and a
start of frame flagged. -/
theorem ProcessUSBTransactions_ignores_transaction_below_default_witness :
    (poweredWithTransaction.DeviceState = ATTACHED ∨
      poweredWithTransaction.DeviceState = POWERED) ∧
    ¬ (poweredWithTransaction.UIR &&& USB_URST ≠ 0 ∧
        poweredWithTransaction.UIE &&& USB_URST ≠ 0) ∧
    (poweredWithTransaction.UIR &&& USB_TRN ≠ 0 ∧
      poweredWithTransaction.UIE &&& USB_TRN ≠ 0) ∧
    (ProcessUSBTransactions sampleLayout poweredWithTransaction).DeviceState < DEFAULT :=
  ⟨by decide, by decide, by decide,
   (ProcessUSBTransactions_ignores_transaction_below_default sampleLayout
      poweredWithTransaction (by decide) (by decide)).2⟩

/-- Servicing a category other than transaction-complete keeps a device that is at
least in the Default state there. -/
theorem service_keeps_default (L : Layout) (e : BusEvent) (s : State)
    (h2 : e ≠ .transactionComplete) (hd : DEFAULT ≤ s.DeviceState) :
    DEFAULT ≤ (service L e s).DeviceState := by
  by_cases h1 : e = .reset
  · subst h1
    rcases service_reset_DeviceState L s with h | h
    · rw [h]; exact hd
    · rw [h]
  · rw [service_DeviceState L e s h1 h2]
    exact hd

/-- The resume category leaves a device running when it was running or when its
bus-activity flag was pending and enabled. -/
theorem service_resume_SUSPND (L : Layout) (s : State)
    (h : s.UCON.SUSPND ≠ 1 ∨ BusEvent.resume.pending s) :
    (service L .resume s).UCON.SUSPND ≠ 1 := by
  unfold service
  by_cases hp : BusEvent.resume.pending s
  · rw [if_pos hp]
    show (0 : Nat) ≠ 1
    decide
  · rw [if_neg hp]
    rcases h with h | h
    · exact h
    · exact absurd h hp

/-- C14 (amended): for a device at least in the Default state that is not suspended (or
whose bus-activity flag is pending and enabled), one call of `ProcessUSBTransactions`
services every category that is pending and enabled when its turn comes, not only the
first: it is the sequence of the services of resume, reset, idle, start-of-frame,
stall, error and transaction-complete, in this order, each running its handler and
clearing its flag, followed by clearing the global USB interrupt flag. -/
theorem ProcessUSBTransactions_services_all_in_order (L : Layout) (s : State)
    (hd : DEFAULT ≤ s.DeviceState)
    (hs : s.UCON.SUSPND ≠ 1 ∨ BusEvent.resume.pending s) :
    ProcessUSBTransactions L s = { serviceAll L priorityOrder s with UsbInterrupt := 0 } := by
  have hnd : ¬ s.DeviceState = DETACHED := by
    intro h
    rw [h] at hd
    exact absurd hd (by decide)
  have h1 : DEFAULT ≤ (service L .resume s).DeviceState :=
    service_keeps_default L .resume s (by decide) hd
  have h6 : ¬ (serviceAll L [.reset, .idle, .startOfFrame, .stall, .error]
      (service L .resume s)).DeviceState < DEFAULT := by
    apply not_lt.mpr
    simp only [serviceAll, List.foldl]
    exact service_keeps_default L .error _ (by decide)
      (service_keeps_default L .stall _ (by decide)
        (service_keeps_default L .startOfFrame _ (by decide)
          (service_keeps_default L .idle _ (by decide)
            (service_keeps_default L .reset _ (by decide) h1))))
  rw [ProcessUSBTransactions_eq, if_neg hnd, if_neg (service_resume_SUSPND L s hs), if_neg h6]
  simp only [serviceAll, priorityOrder, List.foldl]

/-- Witness for the amended C14: an idle event and a completed transaction both
pending. -/
theorem ProcessUSBTransactions_services_all_in_order_witness :
    DEFAULT ≤ idleAndTransactionPending.DeviceState ∧
    (idleAndTransactionPending.UCON.SUSPND ≠ 1 ∨
      BusEvent.resume.pending idleAndTransactionPending) ∧
    ProcessUSBTransactions sampleLayout idleAndTransactionPending
      = { serviceAll sampleLayout priorityOrder idleAndTransactionPending with
          UsbInterrupt := 0 } :=
  ⟨by decide, by decide,
   ProcessUSBTransactions_services_all_in_order sampleLayout idleAndTransactionPending
     (by decide) (by decide)⟩

/-- Counterexample to C14: with an idle event and a completed endpoint-0 IN
transaction both pending and enabled, one call runs two handlers: `Suspend` (the
device ends suspended, with the bus-activity interrupt enabled) and
`ProcessControlTransfer` (endpoint 0 OUT ends re-armed for a Setup packet), though
idle is the only highest-priority pending category. -/
theorem ProcessUSBTransactions_runs_two_handlers :
    BusEvent.idle.pending idleAndTransactionPending ∧
    BusEvent.transactionComplete.pending idleAndTransactionPending ∧
    ¬ BusEvent.resume.pending idleAndTransactionPending ∧
    ¬ BusEvent.reset.pending idleAndTransactionPending ∧
    idleAndTransactionPending.UCON.SUSPND = 0 ∧
    (idleAndTransactionPending.Interfaces 0).Output.Stat = 0 ∧
    (ProcessUSBTransactions sampleLayout idleAndTransactionPending).UCON.SUSPND = 1 ∧
    (ProcessUSBTransactions sampleLayout idleAndTransactionPending).UIE &&& USB_RESUM ≠ 0 ∧
    ((ProcessUSBTransactions sampleLayout idleAndTransactionPending).Interfaces 0).Output.Stat
      = UOWN ||| DTSEN ∧
    ((ProcessUSBTransactions sampleLayout idleAndTransactionPending).Interfaces 0).Output.Cnt
      = E0SZ ∧
    (ProcessUSBTransactions sampleLayout idleAndTransactionPending).UIR &&& USB_TRN = 0 := by
  decide

/-! ## GET_STATUS -/

theorem ProcessStandardRequest_getStatus (L : Layout) (s : State)
    (hstd : s.SetupPacket.bmRequestType &&& 0x60 = 0x00)
    (hreq : s.SetupPacket.bRequest = GET_STATUS) :
    ProcessStandardRequest L s = GetStatus s := by
  simp [ProcessStandardRequest, hstd, hreq]

/-- The status byte of the descriptor a pointer `&Interfaces[0].Output + n * 8`,
advanced by 4 for the IN direction, points at. -/
theorem readByte_descriptor_Stat (s : State) (n : Nat) :
    readByte s ⟨.Interfaces, n * 8⟩ = (s.Interfaces n).Output.Stat ∧
    readByte s ⟨.Interfaces, n * 8 + 4⟩ = (s.Interfaces n).Input.Stat := by
  have a1 : n * 8 % 8 = 0 := by omega
  have a2 : n * 8 / 8 = n := by omega
  have a3 : n * 8 % 4 = 0 := by omega
  have b1 : (n * 8 + 4) % 8 = 4 := by omega
  have b2 : (n * 8 + 4) / 8 = n := by omega
  have b3 : (n * 8 + 4) % 4 = 0 := by omega
  constructor
  · simp [readByte, BDT.readByte, a1, a2, a3]
  · simp [readByte, BDT.readByte, b1, b2, b3]

theorem GetStatus_device (s : State) (h : s.SetupPacket.bmRequestType &&& 0x1F = 0x00) :
    (GetStatus s).RequestHandled = 1 ∧ (GetStatus s).wCount = 2 ∧
    (GetStatus s).transferType = 0 ∧ (GetStatus s).outPtr = ⟨.ControlTransferBuffer, 0⟩ ∧
    (GetStatus s).ControlTransferBuffer 1 = 0 ∧
    (GetStatus s).ControlTransferBuffer 0
      = (if s.SelfPowered ≠ 0 then 1 else 0) + (if s.RemoteWakeup ≠ 0 then 2 else 0) := by
  by_cases h1 : s.SelfPowered = 0 <;> by_cases h2 : s.RemoteWakeup = 0 <;>
    simp [GetStatus, h, h1, h2]

theorem GetStatus_interface (s : State) (h : s.SetupPacket.bmRequestType &&& 0x1F = 0x01) :
    (GetStatus s).RequestHandled = 1 ∧ (GetStatus s).wCount = 2 ∧
    (GetStatus s).transferType = 0 ∧ (GetStatus s).outPtr = ⟨.ControlTransferBuffer, 0⟩ ∧
    (GetStatus s).ControlTransferBuffer 1 = 0 ∧
    (GetStatus s).ControlTransferBuffer 0 = 0 := by
  simp [GetStatus, h]

theorem GetStatus_endpoint (s : State) (h : s.SetupPacket.bmRequestType &&& 0x1F = 0x02) :
    (GetStatus s).RequestHandled = 1 ∧ (GetStatus s).wCount = 2 ∧
    (GetStatus s).transferType = 0 ∧ (GetStatus s).outPtr = ⟨.ControlTransferBuffer, 0⟩ ∧
    (GetStatus s).ControlTransferBuffer 1 = 0 ∧
    (GetStatus s).ControlTransferBuffer 0
      = if (if s.SetupPacket.wIndex0 &&& 0x80 ≠ 0
            then (s.Interfaces (s.SetupPacket.wIndex0 &&& 0x0F)).Input
            else (s.Interfaces (s.SetupPacket.wIndex0 &&& 0x0F)).Output).Stat &&& BSTALL ≠ 0
        then 0x01 else 0 := by
  have ro : ∀ (t : State) (n : Nat), readByte t ⟨.Interfaces, n * 8⟩
      = (t.Interfaces n).Output.Stat := fun t n => (readByte_descriptor_Stat t n).1
  have ri : ∀ (t : State) (n : Nat), readByte t ⟨.Interfaces, n * 8 + 4⟩
      = (t.Interfaces n).Input.Stat := fun t n => (readByte_descriptor_Stat t n).2
  by_cases hd : s.SetupPacket.wIndex0 &&& 0x80 = 0
  · by_cases hb : (s.Interfaces (s.SetupPacket.wIndex0 &&& 0x0F)).Output.Stat &&& BSTALL = 0
    · simp [GetStatus, h, hd, hb, ro, ri]
    · simp [GetStatus, h, hd, hb, ro, ri]
  · by_cases hb : (s.Interfaces (s.SetupPacket.wIndex0 &&& 0x0F)).Input.Stat &&& BSTALL = 0
    · simp [GetStatus, h, hd, hb, ro, ri]
    · simp [GetStatus, h, hd, hb, ro, ri]

theorem GetStatus_other (s : State) (h0 : s.SetupPacket.bmRequestType &&& 0x1F ≠ 0x00)
    (h1 : s.SetupPacket.bmRequestType &&& 0x1F ≠ 0x01)
    (h2 : s.SetupPacket.bmRequestType &&& 0x1F ≠ 0x02) (hr : s.RequestHandled = 0) :
    (GetStatus s).RequestHandled = 0 ∧ (GetStatus s).wCount = s.wCount := by
  simp [GetStatus, h0, h1, h2, hr]

/-- The status byte a standard GET_STATUS for an endpoint recipient stages. -/
theorem GetStatus_endpoint_byte (L : Layout) (s : State)
    (hstd : s.SetupPacket.bmRequestType &&& 0x60 = 0x00)
    (hreq : s.SetupPacket.bRequest = GET_STATUS)
    (hrec : s.SetupPacket.bmRequestType &&& 0x1F = 0x02) :
    (ProcessStandardRequest L s).ControlTransferBuffer 0
      = if (if s.SetupPacket.wIndex0 &&& 0x80 ≠ 0
            then (s.Interfaces (s.SetupPacket.wIndex0 &&& 0x0F)).Input
            else (s.Interfaces (s.SetupPacket.wIndex0 &&& 0x0F)).Output).Stat &&& BSTALL ≠ 0
        then 0x01 else 0 := by
  rw [ProcessStandardRequest_getStatus L s hstd hreq]
  exact (GetStatus_endpoint s hrec).2.2.2.2.2

/-- C17: for every standard GET_STATUS Setup packet with device, interface or endpoint
recipient the request is handled and a 2-byte transfer from the control transfer
buffer is set up (`wCount = 2`, RAM source) whose second byte is 0 and whose first
byte is: for the device, bit 0 iff `SelfPowered` is non-zero plus bit 1 iff
`RemoteWakeup` is non-zero; for an interface, 0; for an endpoint, 0x01 iff the
addressed endpoint-direction descriptor has BSTALL set, else 0.  For any other
recipient a request that was not handled stays unhandled. -/
theorem GET_STATUS_status_word (L : Layout) (s : State)
    (hstd : s.SetupPacket.bmRequestType &&& 0x60 = 0x00)
    (hreq : s.SetupPacket.bRequest = GET_STATUS) :
    ((s.SetupPacket.bmRequestType &&& 0x1F = 0x00 ∨
      s.SetupPacket.bmRequestType &&& 0x1F = 0x01 ∨
      s.SetupPacket.bmRequestType &&& 0x1F = 0x02) →
        (ProcessStandardRequest L s).RequestHandled = 1 ∧
        (ProcessStandardRequest L s).wCount = 2 ∧
        (ProcessStandardRequest L s).transferType = 0 ∧
        (ProcessStandardRequest L s).outPtr = ⟨.ControlTransferBuffer, 0⟩ ∧
        (ProcessStandardRequest L s).ControlTransferBuffer 1 = 0) ∧
    (s.SetupPacket.bmRequestType &&& 0x1F = 0x00 →
      (ProcessStandardRequest L s).ControlTransferBuffer 0
        = (if s.SelfPowered ≠ 0 then 1 else 0) + (if s.RemoteWakeup ≠ 0 then 2 else 0)) ∧
    (s.SetupPacket.bmRequestType &&& 0x1F = 0x01 →
      (ProcessStandardRequest L s).ControlTransferBuffer 0 = 0) ∧
    (s.SetupPacket.bmRequestType &&& 0x1F = 0x02 →
      (ProcessStandardRequest L s).ControlTransferBuffer 0
        = if (if s.SetupPacket.wIndex0 &&& 0x80 ≠ 0
              then (s.Interfaces (s.SetupPacket.wIndex0 &&& 0x0F)).Input
              else (s.Interfaces (s.SetupPacket.wIndex0 &&& 0x0F)).Output).Stat
                &&& BSTALL ≠ 0
          then 0x01 else 0) ∧
    (s.SetupPacket.bmRequestType &&& 0x1F ≠ 0x00 →
      s.SetupPacket.bmRequestType &&& 0x1F ≠ 0x01 →
      s.SetupPacket.bmRequestType &&& 0x1F ≠ 0x02 →
      s.RequestHandled = 0 → (ProcessStandardRequest L s).RequestHandled = 0) := by
  rw [ProcessStandardRequest_getStatus L s hstd hreq]
  refine ⟨?_, ?_, ?_, ?_, ?_⟩
  · rintro (h | h | h)
    · obtain ⟨a, b, c, d, e, _⟩ := GetStatus_device s h
      exact ⟨a, b, c, d, e⟩
    · obtain ⟨a, b, c, d, e, _⟩ := GetStatus_interface s h
      exact ⟨a, b, c, d, e⟩
    · obtain ⟨a, b, c, d, e, _⟩ := GetStatus_endpoint s h
      exact ⟨a, b, c, d, e⟩
  · intro h
    exact (GetStatus_device s h).2.2.2.2.2
  · intro h
    exact (GetStatus_interface s h).2.2.2.2.2
  · intro h
    exact (GetStatus_endpoint s h).2.2.2.2.2
  · intro h0 h1 h2 hr
    exact (GetStatus_other s h0 h1 h2 hr).1

/-- Witness for C17: GET_STATUS for endpoint 1 IN while that endpoint is halted. -/
theorem GET_STATUS_status_word_witness :
    haltedInStatusRequest.SetupPacket.bmRequestType &&& 0x60 = 0x00 ∧
    haltedInStatusRequest.SetupPacket.bRequest = GET_STATUS ∧
    haltedInStatusRequest.SetupPacket.bmRequestType &&& 0x1F = 0x02 ∧
    (ProcessStandardRequest sampleLayout haltedInStatusRequest).ControlTransferBuffer 0
      = 0x01 :=
  ⟨by decide, by decide, by decide,
   ((GET_STATUS_status_word sampleLayout haltedInStatusRequest
      (by decide) (by decide)).2.2.2.1 (by decide)).trans (by decide)⟩

/-! ## Endpoint halt -/

/-- SET_FEATURE(ENDPOINT_HALT) for endpoint 1 writes 0x84 to the status byte of the
addressed descriptor. -/
theorem setHalt_Stat (L : Layout) (s : State) (ep : Nat) (hep : ep = 0x01 ∨ ep = 0x81) :
    (endpoint1Descriptor ep (standardRequest L (setHaltPacket ep) s)).Stat = 0x84 := by
  have e0 : (129 : Nat) &&& 15 = 1 := by decide
  rcases hep with rfl | rfl
  · simp +decide [standardRequest, setHaltPacket, endpoint1Descriptor, ProcessStandardRequest,
      SetFeature, writeByte, BDT.writeByte, e0]
  · simp +decide [standardRequest, setHaltPacket, endpoint1Descriptor, ProcessStandardRequest,
      SetFeature, writeByte, BDT.writeByte, e0]

/-- CLEAR_FEATURE(ENDPOINT_HALT) for endpoint 1 writes 0x88 to the status byte of the
addressed descriptor. -/
theorem clearHalt_Stat (L : Layout) (s : State) (ep : Nat) (hep : ep = 0x01 ∨ ep = 0x81) :
    (endpoint1Descriptor ep (standardRequest L (clearHaltPacket ep) s)).Stat = 0x88 := by
  have e0 : (129 : Nat) &&& 15 = 1 := by decide
  rcases hep with rfl | rfl
  · simp +decide [standardRequest, clearHaltPacket, endpoint1Descriptor,
      ProcessStandardRequest, SetFeature, writeByte, BDT.writeByte, e0]
  · simp +decide [standardRequest, clearHaltPacket, endpoint1Descriptor,
      ProcessStandardRequest, SetFeature, writeByte, BDT.writeByte, e0]

/-- GET_STATUS for endpoint 1 reports the BSTALL bit of the addressed descriptor. -/
theorem getEndpointStatus_byte (L : Layout) (s : State) (ep : Nat)
    (hep : ep = 0x01 ∨ ep = 0x81) :
    (standardRequest L (getEndpointStatusPacket ep) s).ControlTransferBuffer 0
      = if (endpoint1Descriptor ep s).Stat &&& BSTALL ≠ 0 then 0x01 else 0 := by
  have e0 : (129 : Nat) &&& 15 = 1 := by decide
  have e1 : (129 : Nat) &&& 128 = 128 := by decide
  rcases hep with rfl | rfl
  · have h := GetStatus_endpoint_byte L { s with SetupPacket := getEndpointStatusPacket 0x01 }
      (by decide : (0x82 : Nat) &&& 0x60 = 0x00) (by decide : GET_STATUS = GET_STATUS)
      (by decide : (0x82 : Nat) &&& 0x1F = 0x02)
    simpa +decide [standardRequest, endpoint1Descriptor, getEndpointStatusPacket] using h
  · have h := GetStatus_endpoint_byte L { s with SetupPacket := getEndpointStatusPacket 0x81 }
      (by decide : (0x82 : Nat) &&& 0x60 = 0x00) (by decide : GET_STATUS = GET_STATUS)
      (by decide : (0x82 : Nat) &&& 0x1F = 0x02)
    simpa +decide [standardRequest, endpoint1Descriptor, getEndpointStatusPacket, e0, e1] using h

/-- SET_FEATURE and CLEAR_FEATURE(ENDPOINT_HALT) for endpoint 1 are handled. -/
theorem halt_RequestHandled (L : Layout) (s : State) (ep : Nat) (hep : ep = 0x01 ∨ ep = 0x81) :
    (standardRequest L (setHaltPacket ep) s).RequestHandled = 1
      ∧ (standardRequest L (clearHaltPacket ep) s).RequestHandled = 1 := by
  have e0 : (129 : Nat) &&& 15 = 1 := by decide
  rcases hep with rfl | rfl
  · constructor <;>
    simp +decide [standardRequest, setHaltPacket, clearHaltPacket, ProcessStandardRequest,
      SetFeature, writeByte, BDT.writeByte, e0]
  · constructor <;>
    simp +decide [standardRequest, setHaltPacket, clearHaltPacket, ProcessStandardRequest,
      SetFeature, writeByte, BDT.writeByte, e0]

/-- A halt request addressed to endpoint 0 leaves the whole state as it was. -/
theorem halt_endpoint0_unchanged (L : Layout) (t : State)
    (hstd : t.SetupPacket.bmRequestType &&& 0x60 = 0x00)
    (hrec : t.SetupPacket.bmRequestType &&& 0x1F = 0x02)
    (hreq : t.SetupPacket.bRequest = SET_FEATURE ∨ t.SetupPacket.bRequest = CLEAR_FEATURE)
    (hnum : t.SetupPacket.wIndex0 &&& 0x0F = 0) :
    ProcessStandardRequest L t = t := by
  rcases hreq with h | h <;>
  simp +decide [ProcessStandardRequest, SetFeature, hstd, hrec, h, hnum]

/-- C18: endpoint halt round trip for endpoint 1 in either direction (`ep` is 0x01 for
OUT, 0x81 for IN).  SET_FEATURE(ENDPOINT_HALT) is handled and, in every state in which
the addressed descriptor is as it left it, GET_STATUS for the same endpoint reports halt
bit 1.  CLEAR_FEATURE(ENDPOINT_HALT) is handled and leaves the descriptor with DTS = 0,
and in every state in which the descriptor is as it left it GET_STATUS reports halt
bit 0.  A standard SET_FEATURE or CLEAR_FEATURE with endpoint recipient whose endpoint
number is 0 leaves the whole state unchanged: `RequestHandled` is not set and no
descriptor changes. -/
theorem endpoint_halt_round_trip (L : Layout) (s : State) (ep : Nat)
    (hep : ep = 0x01 ∨ ep = 0x81) :
    (standardRequest L (setHaltPacket ep) s).RequestHandled = 1
    ∧ (∀ s1 : State,
        endpoint1Descriptor ep s1 = endpoint1Descriptor ep (standardRequest L (setHaltPacket ep) s) →
        (standardRequest L (getEndpointStatusPacket ep) s1).ControlTransferBuffer 0 = 0x01)
    ∧ (standardRequest L (clearHaltPacket ep) s).RequestHandled = 1
    ∧ (endpoint1Descriptor ep (standardRequest L (clearHaltPacket ep) s)).Stat &&& DTS = 0
    ∧ (∀ s2 : State,
        endpoint1Descriptor ep s2
          = endpoint1Descriptor ep (standardRequest L (clearHaltPacket ep) s) →
        (standardRequest L (getEndpointStatusPacket ep) s2).ControlTransferBuffer 0 = 0x00)
    ∧ (∀ t : State,
        t.SetupPacket.bmRequestType &&& 0x60 = 0x00 →
        t.SetupPacket.bmRequestType &&& 0x1F = 0x02 →
        (t.SetupPacket.bRequest = SET_FEATURE ∨ t.SetupPacket.bRequest = CLEAR_FEATURE) →
        t.SetupPacket.wIndex0 &&& 0x0F = 0 →
        ProcessStandardRequest L t = t) := by
  refine ⟨(halt_RequestHandled L s ep hep).1, ?_, (halt_RequestHandled L s ep hep).2, ?_, ?_,
    fun t h1 h2 h3 h4 => halt_endpoint0_unchanged L t h1 h2 h3 h4⟩
  · intro s1 h
    rw [getEndpointStatus_byte L s1 ep hep, h, setHalt_Stat L s ep hep]
    decide
  · rw [clearHalt_Stat L s ep hep]; decide
  · intro s2 h
    rw [getEndpointStatus_byte L s2 ep hep, h, clearHalt_Stat L s ep hep]
    decide

/-- Witness for C18: the round trip for endpoint 1 IN on a configured device. -/
theorem endpoint_halt_round_trip_witness :
    ((0x81 : Nat) = 0x01 ∨ (0x81 : Nat) = 0x81)
    ∧ (standardRequest sampleLayout (getEndpointStatusPacket 0x81)
        (standardRequest sampleLayout (setHaltPacket 0x81) readyState)).ControlTransferBuffer 0
        = 0x01
    ∧ (standardRequest sampleLayout (getEndpointStatusPacket 0x81)
        (standardRequest sampleLayout (clearHaltPacket 0x81)
          (standardRequest sampleLayout (setHaltPacket 0x81) readyState))).ControlTransferBuffer 0
        = 0x00 :=
  ⟨Or.inr rfl,
   (endpoint_halt_round_trip sampleLayout readyState 0x81 (Or.inr rfl)).2.1 _ rfl,
   (endpoint_halt_round_trip sampleLayout
      (standardRequest sampleLayout (setHaltPacket 0x81) readyState) 0x81 (Or.inr rfl)).2.2.2.2.1
      _ rfl⟩

/-! ## String and HID descriptors -/

/-- What `GetDescriptor` does for the String type. -/
theorem GetDescriptor_string (L : Layout) (s : State)
    (htype : s.SetupPacket.bmRequestType = 0x80)
    (hstr : s.SetupPacket.wValue1 = STRING_DESCRIPTOR) :
    (GetDescriptor L s).RequestHandled = 1
    ∧ (GetDescriptor L s).transferType = 1
    ∧ (GetDescriptor L s).ROMoutPtr = ⟨selectedString s.SetupPacket.wValue0, 0⟩
    ∧ (GetDescriptor L s).wCount = romRead L ⟨selectedString s.SetupPacket.wValue0, 0⟩ := by
  by_cases h : s.SetupPacket.wValue0 ≥ StringDescriptorCount
  · have h3 : ¬ s.SetupPacket.wValue0 < 3 := by simpa using h
    simp +decide [GetDescriptor, htype, hstr, h, selectedString, h3]
  · have h3 : s.SetupPacket.wValue0 < 3 := by simpa using h
    have : s.SetupPacket.wValue0 = 0 ∨ s.SetupPacket.wValue0 = 1 ∨ s.SetupPacket.wValue0 = 2 := by
      omega
    rcases this with h0 | h0 | h0 <;>
    simp +decide [GetDescriptor, htype, hstr, h0, selectedString, StringDescriptorPointers]

/-- The first byte of each string descriptor is its size. -/
theorem selectedString_length (L : Layout) (k : Nat) :
    romRead L ⟨selectedString k, 0⟩ = (romTable (selectedString k)).length := by
  by_cases h3 : k < 3
  · have : k = 0 ∨ k = 1 ∨ k = 2 := by omega
    rcases this with h0 | h0 | h0 <;> subst h0 <;> rfl
  · simp only [selectedString, h3, if_false]; rfl

/-- C19: for every standard GET_DESCRIPTOR request with bmRequestType 0x80 and descriptor
type String, whatever the index byte wValue0, `ProcessStandardRequest` handles the
request and points the pending program-memory transfer at the start of string
descriptor number wValue0 when wValue0 < 3 and of string descriptor 0 otherwise; the
pending length wCount is the first byte of the selected descriptor, which is the size of
that descriptor in bytes.  The three sizes are 4, 28 and 26, and descriptor 0 is the
language-ID descriptor 0x0409. -/
theorem GET_DESCRIPTOR_string_selects (L : Layout) (s : State)
    (htype : s.SetupPacket.bmRequestType = 0x80)
    (hreq : s.SetupPacket.bRequest = GET_DESCRIPTOR)
    (hstr : s.SetupPacket.wValue1 = STRING_DESCRIPTOR) :
    (ProcessStandardRequest L s).RequestHandled = 1
    ∧ (ProcessStandardRequest L s).transferType = 1
    ∧ (ProcessStandardRequest L s).ROMoutPtr
        = (if s.SetupPacket.wValue0 < 3
           then StringDescriptorPointers.getD s.SetupPacket.wValue0 ⟨.null, 0⟩
           else ⟨.StringDescriptor0, 0⟩)
    ∧ (ProcessStandardRequest L s).ROMoutPtr = ⟨selectedString s.SetupPacket.wValue0, 0⟩
    ∧ (ProcessStandardRequest L s).wCount = romRead L (ProcessStandardRequest L s).ROMoutPtr
    ∧ (ProcessStandardRequest L s).wCount
        = (romTable (selectedString s.SetupPacket.wValue0)).length
    ∧ (romTable (selectedString 0)).length = 4
    ∧ (romTable (selectedString 1)).length = 28
    ∧ (romTable (selectedString 2)).length = 26
    ∧ romTable (selectedString 0) = [0x04, 0x03, 0x09, 0x04] := by
  have hp : ProcessStandardRequest L s = GetDescriptor L s := by
    simp +decide [ProcessStandardRequest, htype, hreq]
  obtain ⟨h1, h2, h3, h4⟩ := GetDescriptor_string L s htype hstr
  rw [hp]
  refine ⟨h1, h2, ?_, h3, ?_, ?_, rfl, rfl, rfl, rfl⟩
  · rw [h3]
    by_cases h : s.SetupPacket.wValue0 < 3
    · have : s.SetupPacket.wValue0 = 0 ∨ s.SetupPacket.wValue0 = 1
          ∨ s.SetupPacket.wValue0 = 2 := by omega
      rcases this with h0 | h0 | h0 <;> rw [h0] <;> rfl
    · simp only [selectedString, h, if_false]
  · rw [h4, h3]
  · rw [h4]; exact selectedString_length L _

/-- Witness for C19: index 7 falls back to the language-ID descriptor, 4 bytes long. -/
theorem GET_DESCRIPTOR_string_selects_witness :
    (stateWithPacket (getStringDescriptorPacket 7)).SetupPacket.bmRequestType = 0x80
    ∧ (stateWithPacket (getStringDescriptorPacket 7)).SetupPacket.bRequest = GET_DESCRIPTOR
    ∧ (stateWithPacket (getStringDescriptorPacket 7)).SetupPacket.wValue1 = STRING_DESCRIPTOR
    ∧ (ProcessStandardRequest sampleLayout
        (stateWithPacket (getStringDescriptorPacket 7))).ROMoutPtr = ⟨.StringDescriptor0, 0⟩
    ∧ (ProcessStandardRequest sampleLayout
        (stateWithPacket (getStringDescriptorPacket 7))).wCount = 4 :=
  ⟨rfl, rfl, rfl,
   (GET_DESCRIPTOR_string_selects sampleLayout (stateWithPacket (getStringDescriptorPacket 7))
      rfl rfl rfl).2.2.2.1,
   (GET_DESCRIPTOR_string_selects sampleLayout (stateWithPacket (getStringDescriptorPacket 7))
      rfl rfl rfl).2.2.2.2.2.1⟩

/-- C20: what the code does on GET_DESCRIPTOR addressed to the HID interface.  For the
HID type the pending transfer is the 32-byte member `HIDDescriptor` of the
configuration structure, which starts at offset 9 with the interface descriptor: the
first bytes served are 0x09, 0x04, and the packet staged by `SetupStage` for a 9-byte
request is the interface descriptor.  The HID class descriptor (0x09, 0x21) lies 9
bytes further on.  For the Report type the pending transfer is the table `HIDReport`
with its length 63. -/
theorem GET_DESCRIPTOR_hid_serves_interface_descriptor :
    (ProcessHIDRequest (stateWithPacket getHidDescriptorPacket)).RequestHandled = 1
    ∧ (ProcessHIDRequest (stateWithPacket getHidDescriptorPacket)).ROMoutPtr
        = ⟨.ConfigurationDescriptor, 9⟩
    ∧ (ProcessHIDRequest (stateWithPacket getHidDescriptorPacket)).wCount = 32
    ∧ romBytes sampleLayout
        (ProcessHIDRequest (stateWithPacket getHidDescriptorPacket)).ROMoutPtr 2 = [0x09, 0x04]
    ∧ stagedPacket (SetupStage sampleLayout (defaultStateWithPacket getHidDescriptorPacket))
        = [0x09, 0x04, 0x00, 0x00, 0x02, 0x03, 0x01, 0x01]
    ∧ romBytes sampleLayout ⟨.ConfigurationDescriptor, 18⟩ 2 = [0x09, 0x21]
    ∧ (ProcessHIDRequest (stateWithPacket getReportDescriptorPacket)).RequestHandled = 1
    ∧ (ProcessHIDRequest (stateWithPacket getReportDescriptorPacket)).ROMoutPtr
        = ⟨.HIDReport, 0⟩
    ∧ (ProcessHIDRequest (stateWithPacket getReportDescriptorPacket)).wCount = 63
    ∧ HIDReport.length = 63 := by
  decide

/-! ## The class dispatcher and the two dispatchers together -/

/-- C21: `ProcessHIDRequest` only applies to the HID interface.  For every Setup packet
whose recipient bits are not Interface (0x01) or whose `wIndex0` is not the HID
interface number 0, it leaves the entire state unchanged, in particular
`RequestHandled`, `HIDPostProcess`, `HidIdleRate`, `HidProtocol`, `wCount` and the
transfer pointers. -/
theorem ProcessHIDRequest_only_hid_interface (s : State)
    (h : s.SetupPacket.bmRequestType &&& 0x1F ≠ 0x01 ∨ s.SetupPacket.wIndex0 ≠ HidInterfaceNumber) :
    ProcessHIDRequest s = s ∧
    (ProcessHIDRequest s).RequestHandled = s.RequestHandled ∧
    (ProcessHIDRequest s).HIDPostProcess = s.HIDPostProcess ∧
    (ProcessHIDRequest s).HidIdleRate = s.HidIdleRate ∧
    (ProcessHIDRequest s).HidProtocol = s.HidProtocol ∧
    (ProcessHIDRequest s).wCount = s.wCount ∧
    (ProcessHIDRequest s).transferType = s.transferType ∧
    (ProcessHIDRequest s).ROMoutPtr = s.ROMoutPtr ∧
    (ProcessHIDRequest s).outPtr = s.outPtr ∧
    (ProcessHIDRequest s).inPtr = s.inPtr := by
  have e : ProcessHIDRequest s = s := by
    have h1 : s.SetupPacket.bmRequestType &&& 0x1F ≠ 0x01 ∨ s.SetupPacket.wIndex0 ≠ 0x00 := h
    simp only [ProcessHIDRequest, h1, if_true]
  rw [e]
  exact ⟨rfl, rfl, rfl, rfl, rfl, rfl, rfl, rfl, rfl, rfl⟩

/-- Witness for C21: SET_IDLE addressed to interface 1. -/
theorem ProcessHIDRequest_only_hid_interface_witness :
    ((stateWithPacket setIdleOtherInterfacePacket).SetupPacket.bmRequestType &&& 0x1F ≠ 0x01 ∨
      (stateWithPacket setIdleOtherInterfacePacket).SetupPacket.wIndex0 ≠ HidInterfaceNumber) ∧
    ProcessHIDRequest (stateWithPacket setIdleOtherInterfacePacket)
      = stateWithPacket setIdleOtherInterfacePacket :=
  ⟨by decide,
   (ProcessHIDRequest_only_hid_interface (stateWithPacket setIdleOtherInterfacePacket)
      (by decide)).1⟩

/-- C22: for every standard-type Setup packet whose `bRequest` is SET_DESCRIPTOR or
SYNCH_FRAME, whatever its recipient, value, index and length, `SetupStage` leaves
`RequestHandled` at 0 and ends in the protocol stall (both endpoint-0 descriptors
`UOWN | BSTALL`), and the device state (`DeviceState`, `CurrentConfiguration`,
`RemoteWakeup`, `SelfPowered`, `DeviceAddress`, `UADDR`) and the HID settings
(`HidIdleRate`, `HidProtocol`) are as before. -/
theorem SET_DESCRIPTOR_and_SYNCH_FRAME_stall (L : Layout) (s : State)
    (hstd : s.SetupPacket.bmRequestType &&& 0x60 = 0x00)
    (hreq : s.SetupPacket.bRequest = SET_DESCRIPTOR ∨ s.SetupPacket.bRequest = SYNCH_FRAME) :
    (SetupStage L s).RequestHandled = 0 ∧
    ((SetupStage L s).Interfaces 0).Output.Stat = UOWN ||| BSTALL ∧
    ((SetupStage L s).Interfaces 0).Input.Stat = UOWN ||| BSTALL ∧
    (SetupStage L s).DeviceState = s.DeviceState ∧
    (SetupStage L s).CurrentConfiguration = s.CurrentConfiguration ∧
    (SetupStage L s).RemoteWakeup = s.RemoteWakeup ∧
    (SetupStage L s).SelfPowered = s.SelfPowered ∧
    (SetupStage L s).DeviceAddress = s.DeviceAddress ∧
    (SetupStage L s).UADDR = s.UADDR ∧
    (SetupStage L s).HidIdleRate = s.HidIdleRate ∧
    (SetupStage L s).HidProtocol = s.HidProtocol := by
  have hp : (SetupStage_init s).SetupPacket = s.SetupPacket := rfl
  have h1 : ProcessStandardRequest L (SetupStage_init s) = SetupStage_init s := by
    rcases hreq with h | h <;>
    simp +decide [ProcessStandardRequest, hp, hstd, h]
  have h2 : ProcessHIDRequest (SetupStage_init s) = SetupStage_init s := by
    apply ProcessHIDRequest_of_standard _ (by rw [hp]; exact hstd)
    rw [hp]
    rcases hreq with h | h <;> rw [h] <;> decide
  rw [SetupStage_eq, h1, h2]
  simp [SetupStage_finish, SetupStage_init]

/-- Witness for C22: SYNCH_FRAME for endpoint 1 IN on a configured device. -/
theorem SET_DESCRIPTOR_and_SYNCH_FRAME_stall_witness :
    ({ readyState with SetupPacket := synchFramePacket } : State).SetupPacket.bmRequestType
      &&& 0x60 = 0x00 ∧
    (({ readyState with SetupPacket := synchFramePacket } : State).SetupPacket.bRequest
        = SET_DESCRIPTOR ∨
      ({ readyState with SetupPacket := synchFramePacket } : State).SetupPacket.bRequest
        = SYNCH_FRAME) ∧
    (SetupStage sampleLayout { readyState with SetupPacket := synchFramePacket }).RequestHandled
      = 0 :=
  ⟨by decide, by decide,
   (SET_DESCRIPTOR_and_SYNCH_FRAME_stall sampleLayout
      { readyState with SetupPacket := synchFramePacket } (by decide) (by decide)).1⟩

/-- A standard-type packet that `ProcessHIDRequest` acts on is not changed by
`ProcessStandardRequest`; every other standard-type packet is not changed by
`ProcessHIDRequest`. -/
theorem dispatchers_standard (L : Layout) (p : setupPacketStruct)
    (hstd : p.bmRequestType &&& 0x60 = 0x00) :
    (∀ t : State, t.SetupPacket = p → ProcessStandardRequest L t = t) ∨
    (∀ t : State, t.SetupPacket = p → ProcessHIDRequest t = t) := by
  by_cases hi : p.bmRequestType &&& 0x1F ≠ 0x01 ∨ p.wIndex0 ≠ 0x00
  · right
    intro t ht
    simp only [ProcessHIDRequest, ht, hi, if_true]
  · have hr : p.bmRequestType &&& 0x1F = 0x01 := by
      by_contra h
      exact hi (Or.inl h)
    by_cases hq : p.bRequest = GET_DESCRIPTOR
    · left
      intro t ht
      have h80 : p.bmRequestType ≠ 0x80 := by
        intro h
        rw [h] at hr
        exact absurd hr (by decide)
      simp +decide [ProcessStandardRequest, GetDescriptor, ht, hstd, hq, h80]
    · right
      intro t ht
      simp +decide [ProcessHIDRequest, ht, hstd, hq]

/-- C29: the two request dispatchers never both recognise the same Setup packet.  For
every Setup packet one of `ProcessStandardRequest` and `ProcessHIDRequest` leaves
every state holding that packet entirely unchanged (so it neither sets
`RequestHandled` nor writes `wCount`, `transferType` or a source pointer), and the
order in which the two are called does not change the resulting state. -/
theorem dispatchers_never_both_recognise (L : Layout) (s : State) :
    ((∀ t : State, t.SetupPacket = s.SetupPacket → ProcessStandardRequest L t = t) ∨
      (∀ t : State, t.SetupPacket = s.SetupPacket → ProcessHIDRequest t = t)) ∧
    ProcessHIDRequest (ProcessStandardRequest L s)
      = ProcessStandardRequest L (ProcessHIDRequest s) := by
  have key : (∀ t : State, t.SetupPacket = s.SetupPacket → ProcessStandardRequest L t = t) ∨
      (∀ t : State, t.SetupPacket = s.SetupPacket → ProcessHIDRequest t = t) := by
    by_cases hstd : s.SetupPacket.bmRequestType &&& 0x60 = 0x00
    · exact dispatchers_standard L s.SetupPacket hstd
    · left
      intro t ht
      have : t.SetupPacket.bmRequestType &&& 0x60 ≠ 0x00 := by rw [ht]; exact hstd
      simp only [ProcessStandardRequest]
      rw [if_pos this]
  refine ⟨key, ?_⟩
  rcases key with h | h
  · rw [h s rfl, h (ProcessHIDRequest s) (ProcessHIDRequest_SetupPacket s)]
  · rw [h s rfl, h (ProcessStandardRequest L s) (ProcessStandardRequest_SetupPacket L s)]

/-! ## The Data-In stage, for either kind of source -/

theorem InDataStage_eq (L : Layout) (s : State) :
    InDataStage L s =
      if s.transferType = 1 then copyFromRom L (packetSize s) (InDataStage_arm L s)
      else copyFromRam (packetSize s) (InDataStage_arm L s) := by
  simp only [InDataStage, InDataStage_arm, packetSize]

theorem packetSize_eq (s : State) : packetSize s = min s.wCount E0SZ := by
  unfold packetSize
  split_ifs with h
  · exact (min_eq_left (le_of_lt h)).symm
  · exact (min_eq_right (not_lt.mp h)).symm

theorem packetSize_le (s : State) : packetSize s ≤ 8 := by
  rw [packetSize_eq]
  exact min_le_right _ _

theorem small_count_bits (b : Nat) (h : b ≤ 8) :
    ((b &&& 0x0300) >>> 8) % 256 = 0 ∧ (b &&& 0xFF) % 256 = b := by
  interval_cases b <;> decide

/-- The endpoint-0 IN descriptor after the assignments of `InDataStage`. -/
theorem InDataStage_arm_Input (L : Layout) (s : State) :
    ((InDataStage_arm L s).Interfaces 0).Input
      = ⟨(s.Interfaces 0).Input.Stat &&& (0xFF ^^^ (BC8 ||| BC9)), packetSize s,
          PTR16 L .ControlTransferBuffer⟩ := by
  obtain ⟨h1, h2⟩ := small_count_bits (packetSize s) (packetSize_le s)
  simp [InDataStage_arm, h1, h2]

theorem InDataStage_arm_Output (L : Layout) (s : State) :
    ((InDataStage_arm L s).Interfaces 0).Output = (s.Interfaces 0).Output := by
  simp [InDataStage_arm]

theorem InDataStage_arm_Interfaces_ne (L : Layout) (s : State) (k : Nat) (hk : k ≠ 0) :
    (InDataStage_arm L s).Interfaces k = s.Interfaces k := by
  simp [InDataStage_arm, hk]

/-- Reading after a store into the control transfer buffer. -/
theorem readByte_update_ControlTransferBuffer (s : State) (k v : Nat) (p : RamPtr) :
    readByte { s with ControlTransferBuffer := Function.update s.ControlTransferBuffer k v } p
      = if p.obj = .ControlTransferBuffer ∧ p.off = k then v else readByte s p := by
  obtain ⟨o, off⟩ := p
  cases o <;> simp [readByte, Function.update_apply]

/-- The copy loop with a data-memory source and the control transfer buffer as
destination, when the source does not lie before the destination in that buffer. -/
theorem copyFromRam_spec (n : Nat) (s : State) (k : Nat)
    (hin : s.inPtr = ⟨.ControlTransferBuffer, k⟩)
    (hsrc : s.outPtr.obj = .ControlTransferBuffer → k ≤ s.outPtr.off) :
    (copyFromRam n s).outPtr = ⟨s.outPtr.obj, s.outPtr.off + n⟩ ∧
    (copyFromRam n s).Interfaces = s.Interfaces ∧
    (∀ i, (copyFromRam n s).ControlTransferBuffer i
      = if k ≤ i ∧ i < k + n then readByte s ⟨s.outPtr.obj, s.outPtr.off + (i - k)⟩
        else s.ControlTransferBuffer i) ∧
    (∀ p : RamPtr, (p.obj = .ControlTransferBuffer → p.off < k ∨ k + n ≤ p.off) →
      readByte (copyFromRam n s) p = readByte s p) := by
  induction n generalizing s k with
  | zero =>
    refine ⟨rfl, rfl, ?_, fun _ _ => rfl⟩
    intro i
    have : ¬ (k ≤ i ∧ i < k + 0) := by omega
    rw [if_neg this]
    rfl
  | succ n ih =>
    have hin1 : (copyFromRam_body s).inPtr = ⟨.ControlTransferBuffer, k + 1⟩ := by
      simp [copyFromRam_body, RamPtr.succ, hin]
    have hout : (copyFromRam_body s).outPtr = ⟨s.outPtr.obj, s.outPtr.off + 1⟩ := by
      simp [copyFromRam_body, RamPtr.succ]
    have hifc : (copyFromRam_body s).Interfaces = s.Interfaces := by
      simp [copyFromRam_body, writeByte, hin]
    have hctb : (copyFromRam_body s).ControlTransferBuffer
        = Function.update s.ControlTransferBuffer k (readByte s s.outPtr) := by
      simp [copyFromRam_body, writeByte, hin]
    have hread : ∀ p : RamPtr, readByte (copyFromRam_body s) p
        = if p.obj = .ControlTransferBuffer ∧ p.off = k then readByte s s.outPtr
          else readByte s p := by
      intro p
      rw [← readByte_update_ControlTransferBuffer s k (readByte s s.outPtr) p]
      obtain ⟨o, off⟩ := p
      cases o <;> simp [readByte, copyFromRam_body, writeByte, hin]
    have hsrc1 : (copyFromRam_body s).outPtr.obj = .ControlTransferBuffer →
        k + 1 ≤ (copyFromRam_body s).outPtr.off := by
      rw [hout]
      intro h
      have := hsrc h
      show k + 1 ≤ s.outPtr.off + 1
      omega
    obtain ⟨h1, h2, h3, h4⟩ := ih (copyFromRam_body s) (k + 1) hin1 hsrc1
    refine ⟨?_, ?_, ?_, ?_⟩
    · show (copyFromRam n (copyFromRam_body s)).outPtr = _
      rw [h1, hout]
      simp [Nat.add_assoc, Nat.add_comm 1 n]
    · show (copyFromRam n (copyFromRam_body s)).Interfaces = _
      rw [h2, hifc]
    · intro i
      show (copyFromRam n (copyFromRam_body s)).ControlTransferBuffer i = _
      rw [h3 i, hout, hctb]
      by_cases hi : i = k
      · subst hi
        have c1 : ¬ (i + 1 ≤ i ∧ i < i + 1 + n) := by omega
        have c2 : (i ≤ i ∧ i < i + (n + 1)) := by omega
        rw [if_neg c1, if_pos c2]
        simp
      · by_cases hr : k + 1 ≤ i ∧ i < k + 1 + n
        · have c2 : (k ≤ i ∧ i < k + (n + 1)) := by omega
          have e : s.outPtr.off + 1 + (i - (k + 1)) = s.outPtr.off + (i - k) := by omega
          rw [if_pos hr, if_pos c2]
          simp only [e]
          rw [hread]
          have c3 : ¬ ((⟨s.outPtr.obj, s.outPtr.off + (i - k)⟩ : RamPtr).obj
              = .ControlTransferBuffer ∧
              (⟨s.outPtr.obj, s.outPtr.off + (i - k)⟩ : RamPtr).off = k) := by
            rintro ⟨ho, hoff⟩
            have := hsrc ho
            simp only at hoff
            omega
          rw [if_neg c3]
        · have c2 : ¬ (k ≤ i ∧ i < k + (n + 1)) := by omega
          rw [if_neg hr, if_neg c2, Function.update_noteq hi]
    · intro p hp
      show readByte (copyFromRam n (copyFromRam_body s)) p = _
      rw [h4 p (by intro h; have := hp h; omega), hread]
      have c3 : ¬ (p.obj = .ControlTransferBuffer ∧ p.off = k) := by
        rintro ⟨ho, hoff⟩
        have := hp ho
        omega
      rw [if_neg c3]

theorem readByte_InDataStage_arm (L : Layout) (s : State) (p : RamPtr)
    (hp : p.obj ≠ .Interfaces) : readByte (InDataStage_arm L s) p = readByte s p := by
  obtain ⟨o, off⟩ := p
  cases o
  case Interfaces => exact absurd rfl hp
  all_goals rfl

theorem ramBytes_add (s : State) (p : RamPtr) (a b : Nat) :
    ramBytes s p (a + b) = ramBytes s p a ++ ramBytes s ⟨p.obj, p.off + a⟩ b := by
  simp [ramBytes, List.range_add, List.map_append, Nat.add_assoc]

/-- One call of `InDataStage`, for either kind of source.  A data-memory source is
taken to lie outside the endpoint table, whose first entry the call itself updates. -/
theorem InDataStage_spec (L : Layout) (s : State)
    (hsrc : s.transferType ≠ 1 → s.outPtr.obj ≠ .Interfaces) :
    (InDataStage L s).wCount = s.wCount - packetSize s ∧
    (InDataStage L s).transferType = s.transferType ∧
    (InDataStage L s).Interfaces = (InDataStage_arm L s).Interfaces ∧
    stagedPacket (InDataStage L s) = sourceBytes L s (packetSize s) ∧
    (InDataStage L s).ROMoutPtr
      = (if s.transferType = 1 then ⟨s.ROMoutPtr.obj, s.ROMoutPtr.off + packetSize s⟩
         else s.ROMoutPtr) ∧
    (InDataStage L s).outPtr
      = (if s.transferType = 1 then s.outPtr
         else ⟨s.outPtr.obj, s.outPtr.off + packetSize s⟩) ∧
    (∀ m, sourceBytes L (InDataStage L s) m
      = (sourceBytes L s (packetSize s + m)).drop (packetSize s)) := by
  have harm_in : (InDataStage_arm L s).inPtr = ⟨.ControlTransferBuffer, 0⟩ := rfl
  have harm_w : (InDataStage_arm L s).wCount = s.wCount - packetSize s := rfl
  have harm_t : (InDataStage_arm L s).transferType = s.transferType := rfl
  have harm_r : (InDataStage_arm L s).ROMoutPtr = s.ROMoutPtr := rfl
  have harm_o : (InDataStage_arm L s).outPtr = s.outPtr := rfl
  have harm_c : (InDataStage_arm L s).ControlTransferBuffer = s.ControlTransferBuffer := rfl
  have hcnt : ∀ t : State, t.Interfaces = (InDataStage_arm L s).Interfaces →
      (t.Interfaces 0).Input.Cnt = packetSize s := by
    intro t ht
    rw [ht, InDataStage_arm_Input]
  rw [InDataStage_eq]
  by_cases ht : s.transferType = 1
  · simp only [ht, if_true]
    obtain ⟨h1, h2, h3⟩ := copyFromRom_spec L (packetSize s) (InDataStage_arm L s) 0 harm_in
    refine ⟨?_, ?_, h2, ?_, ?_, ?_, ?_⟩
    · rw [copyFromRom_wCount, harm_w]
    · rw [copyFromRom_transferType, harm_t, ht]
    · unfold stagedPacket sourceBytes
      rw [hcnt _ h2, if_pos ht]
      unfold romBytes
      apply List.map_congr_left
      intro i hi
      have hi2 : 0 ≤ i ∧ i < 0 + packetSize s := by
        have := List.mem_range.mp hi
        omega
      rw [h3 i, if_pos hi2, harm_r]
      simp
    · rw [h1, harm_r]
    · rw [copyFromRom_outPtr, harm_o]
    · intro m
      unfold sourceBytes
      rw [copyFromRom_transferType, harm_t, if_pos ht, if_pos ht, h1, harm_r, romBytes_add]
      have hl : (romBytes L s.ROMoutPtr (packetSize s)).length = packetSize s := by
        simp [romBytes]
      rw [List.drop_append_of_le_length (le_of_eq hl.symm), List.drop_of_length_le (le_of_eq hl)]
      simp
  · simp only [ht, if_false]
    have hobj : s.outPtr.obj ≠ .Interfaces := hsrc ht
    obtain ⟨h1, h2, h3, h4⟩ := copyFromRam_spec (packetSize s) (InDataStage_arm L s) 0 harm_in
      (fun _ => Nat.zero_le _)
    refine ⟨?_, ?_, h2, ?_, ?_, ?_, ?_⟩
    · rw [copyFromRam_wCount, harm_w]
    · rw [copyFromRam_transferType, harm_t]
    · unfold stagedPacket sourceBytes
      rw [hcnt _ h2, if_neg ht]
      unfold ramBytes
      apply List.map_congr_left
      intro i hi
      have hi2 : 0 ≤ i ∧ i < 0 + packetSize s := by
        have := List.mem_range.mp hi
        omega
      rw [h3 i, if_pos hi2, harm_o,
        readByte_InDataStage_arm L s ⟨s.outPtr.obj, s.outPtr.off + (i - 0)⟩ hobj]
      simp
    · rw [copyFromRam_ROMoutPtr, harm_r]
    · rw [h1, harm_o]
    · intro m
      unfold sourceBytes
      rw [copyFromRam_transferType, harm_t, if_neg ht, if_neg ht, h1, harm_o, ramBytes_add]
      have hl : (ramBytes s s.outPtr (packetSize s)).length = packetSize s := by
        simp [ramBytes]
      rw [List.drop_append_of_le_length (le_of_eq hl.symm), List.drop_of_length_le (le_of_eq hl)]
      simp only [List.nil_append]
      unfold ramBytes
      apply List.map_congr_left
      intro i _
      rw [h4 _ (by intro _; right; show 0 + packetSize s ≤ s.outPtr.off + packetSize s + i; omega)]
      exact readByte_InDataStage_arm L s ⟨s.outPtr.obj, s.outPtr.off + packetSize s + i⟩ hobj

theorem sourceBytes_take (L : Layout) (s : State) (a b : Nat) :
    (sourceBytes L s (a + b)).take a = sourceBytes L s a := by
  unfold sourceBytes
  split_ifs
  · rw [romBytes_add]
    simp [romBytes]
  · rw [ramBytes_add]
    simp [ramBytes]

theorem sourceBytes_length (L : Layout) (s : State) (n : Nat) :
    (sourceBytes L s n).length = n := by
  unfold sourceBytes
  split_ifs <;> simp [romBytes, ramBytes]

/-- The source condition of `InDataStage_spec` still holds after a call. -/
theorem InDataStage_source (L : Layout) (s : State)
    (hsrc : s.transferType ≠ 1 → s.outPtr.obj ≠ .Interfaces) :
    (InDataStage L s).transferType ≠ 1 → (InDataStage L s).outPtr.obj ≠ .Interfaces := by
  obtain ⟨_, h2, _, _, _, h6, _⟩ := InDataStage_spec L s hsrc
  rw [h2, h6]
  intro ht
  rw [if_neg ht]
  exact hsrc ht

/-- After `k` calls of `InDataStage` the count is down by `8 * k` and the packets staged
so far are the first bytes of the source. -/
theorem InDataStage_iterate (L : Layout) (k : Nat) (s : State)
    (hsrc : s.transferType ≠ 1 → s.outPtr.obj ≠ .Interfaces) :
    ((InDataStage L)^[k] s).wCount = s.wCount - 8 * k ∧
    (inPackets L k s).flatten = sourceBytes L s (min s.wCount (8 * k)) ∧
    (((InDataStage L)^[k] s).transferType ≠ 1 →
      ((InDataStage L)^[k] s).outPtr.obj ≠ .Interfaces) := by
  induction k generalizing s with
  | zero =>
    refine ⟨rfl, ?_, hsrc⟩
    simp [inPackets, sourceBytes, romBytes, ramBytes]
  | succ k ih =>
    obtain ⟨h1, _, _, h4, _, _, h7⟩ := InDataStage_spec L s hsrc
    obtain ⟨i1, i2, i3⟩ := ih (InDataStage L s) (InDataStage_source L s hsrc)
    have hp : packetSize s = min s.wCount 8 := packetSize_eq s
    refine ⟨?_, ?_, ?_⟩
    · rw [Function.iterate_succ_apply, i1, h1, hp]
      omega
    · show (stagedPacket (InDataStage L s) :: inPackets L k (InDataStage L s)).flatten = _
      rw [List.flatten_cons, i2, h4, h7, h1]
      have e : min s.wCount (8 * (k + 1))
          = packetSize s + min (s.wCount - packetSize s) (8 * k) := by
        rw [hp]
        omega
      rw [e]
      have := sourceBytes_take L s (packetSize s) (min (s.wCount - packetSize s) (8 * k))
      rw [← this, List.take_append_drop]
    · rw [Function.iterate_succ_apply]
      exact i3

/-- C26: `InDataStage` drains the pending transfer one packet at a time.  Each call
stages exactly `min wCount E0SZ` bytes (E0SZ = 8), copied in order from the current
source position (`ROMoutPtr` when `transferType` is 1, `outPtr` otherwise), sets the
endpoint-0 IN byte count to that number, advances the source pointer by it and
decreases `wCount` by it.  Hence after `k` calls `wCount` is down by `8 * k` and the
concatenation of the staged packets is the first `min wCount (8 * k)` source bytes;
once `k` reaches `ceil (wCount / 8)`, `wCount` is 0, the concatenation is the first
`wCount` source bytes, and a further call stages a zero-length packet and leaves
`wCount` at 0.  A data-memory source is taken to lie outside the endpoint table, as
every value the firmware gives `outPtr` does. -/
theorem InDataStage_drains (L : Layout) (s : State)
    (hsrc : s.transferType ≠ 1 → s.outPtr.obj ≠ .Interfaces) :
    stagedPacket (InDataStage L s) = sourceBytes L s (min s.wCount E0SZ) ∧
    (stagedPacket (InDataStage L s)).length = min s.wCount E0SZ ∧
    ((InDataStage L s).Interfaces 0).Input.Cnt = min s.wCount E0SZ ∧
    (InDataStage L s).wCount = s.wCount - min s.wCount E0SZ ∧
    (s.transferType = 1 →
      (InDataStage L s).ROMoutPtr = ⟨s.ROMoutPtr.obj, s.ROMoutPtr.off + min s.wCount E0SZ⟩) ∧
    (s.transferType ≠ 1 →
      (InDataStage L s).outPtr = ⟨s.outPtr.obj, s.outPtr.off + min s.wCount E0SZ⟩) ∧
    (∀ k, ((InDataStage L)^[k] s).wCount = s.wCount - E0SZ * k ∧
      (inPackets L k s).flatten = sourceBytes L s (min s.wCount (E0SZ * k))) ∧
    (∀ k, (s.wCount + 7) / 8 ≤ k →
      ((InDataStage L)^[k] s).wCount = 0 ∧
      (inPackets L k s).flatten = sourceBytes L s s.wCount ∧
      stagedPacket (InDataStage L ((InDataStage L)^[k] s)) = [] ∧
      (InDataStage L ((InDataStage L)^[k] s)).wCount = 0) := by
  obtain ⟨h1, _, h3, h4, h5, h6, _⟩ := InDataStage_spec L s hsrc
  have hp : packetSize s = min s.wCount E0SZ := packetSize_eq s
  rw [hp] at h1 h4 h5 h6
  refine ⟨h4, ?_, ?_, h1, ?_, ?_, ?_, ?_⟩
  · rw [h4, sourceBytes_length]
  · rw [h3, InDataStage_arm_Input, hp]
  · intro ht
    rw [h5, if_pos ht]
  · intro ht
    rw [h6, if_neg ht]
  · intro k
    exact ⟨(InDataStage_iterate L k s hsrc).1, (InDataStage_iterate L k s hsrc).2.1⟩
  · intro k hk
    obtain ⟨i1, i2, i3⟩ := InDataStage_iterate L k s hsrc
    have hw : ((InDataStage L)^[k] s).wCount = 0 := by
      rw [i1]
      omega
    have hm : min s.wCount (8 * k) = s.wCount := by omega
    obtain ⟨j1, _, _, j4, _, _, _⟩ := InDataStage_spec L ((InDataStage L)^[k] s) i3
    have hp0 : packetSize ((InDataStage L)^[k] s) = 0 := by
      rw [packetSize_eq, hw]
      rfl
    refine ⟨hw, ?_, ?_, ?_⟩
    · rw [i2, hm]
    · rw [j4, hp0]
      exact List.eq_nil_of_length_eq_zero (sourceBytes_length L _ 0)
    · rw [j1, hw, Nat.zero_sub]

/-- Witness for C26: the two-byte GET_STATUS reply goes out in one call, and the 18-byte
device descriptor in three. -/
theorem InDataStage_drains_witness :
    (statusWordPending.transferType ≠ 1 → statusWordPending.outPtr.obj ≠ .Interfaces) ∧
    stagedPacket (InDataStage sampleLayout statusWordPending) = [0x01, 0x00] ∧
    ((InDataStage sampleLayout)^[1] statusWordPending).wCount = 0 ∧
    ((pendingDeviceDescriptor zeroState).transferType ≠ 1 →
      (pendingDeviceDescriptor zeroState).outPtr.obj ≠ .Interfaces) ∧
    (inPackets sampleLayout 3 (pendingDeviceDescriptor zeroState)).flatten = DeviceDescriptor :=
  ⟨fun _ => by decide,
   (InDataStage_drains sampleLayout statusWordPending (fun _ => by decide)).1.trans (by decide),
   ((InDataStage_drains sampleLayout statusWordPending (fun _ => by decide)).2.2.2.2.2.2.2 1
      (by decide)).1,
   fun _ => by decide,
   ((InDataStage_drains sampleLayout (pendingDeviceDescriptor zeroState)
      (fun _ => by decide)).2.2.2.2.2.2.2 3 (by decide)).2.1.trans (by decide)⟩

/-! ## Further frame lemmas -/

@[simp] theorem writeByte_UIE (s : State) (p : RamPtr) (v : Nat) :
    (writeByte s p v).UIE = s.UIE := by
  unfold writeByte
  split <;> (try split) <;> rfl

@[simp] theorem copyFromRam_UIE (n : Nat) (s : State) :
    (copyFromRam n s).UIE = s.UIE := by
  induction n generalizing s with
  | zero => rfl
  | succ n ih => simp [copyFromRam, copyFromRam_body, ih]

@[simp] theorem copyFromRom_UIE (L : Layout) (n : Nat) (s : State) :
    (copyFromRom L n s).UIE = s.UIE := by
  induction n generalizing s with
  | zero => rfl
  | succ n ih => simp [copyFromRom, copyFromRom_body, ih]

theorem HIDInitEndpoints_UIE (L : Layout) (s : State) :
    (HIDInitEndpoints L s).UIE = s.UIE := by
  simp only [HIDInitEndpoints_eq, HIDInitEndpoints_body, apply_ite State.UIE, ite_self]

theorem GetDescriptor_UIE (L : Layout) (s : State) : (GetDescriptor L s).UIE = s.UIE := by
  simp only [GetDescriptor, apply_ite State.UIE, ite_self]

theorem GetStatus_UIE (s : State) : (GetStatus s).UIE = s.UIE := by
  simp only [GetStatus, apply_ite State.UIE, ite_self]

theorem SetFeature_UIE (s : State) : (SetFeature s).UIE = s.UIE := by
  simp only [SetFeature, writeByte_UIE, apply_ite State.UIE, ite_self]

theorem ProcessHIDRequest_UIE (s : State) : (ProcessHIDRequest s).UIE = s.UIE := by
  simp only [ProcessHIDRequest, apply_ite State.UIE, ite_self]

theorem ProcessStandardRequest_UIE (L : Layout) (s : State) :
    (ProcessStandardRequest L s).UIE = s.UIE := by
  simp only [ProcessStandardRequest, HIDInitEndpoints_UIE, GetDescriptor_UIE, GetStatus_UIE,
    SetFeature_UIE, apply_ite State.UIE, ite_self]

theorem InDataStage_UIE (L : Layout) (s : State) : (InDataStage L s).UIE = s.UIE := by
  simp only [InDataStage, copyFromRom_UIE, copyFromRam_UIE, apply_ite State.UIE, ite_self]

theorem OutDataStage_UIE (s : State) : (OutDataStage s).UIE = s.UIE := by
  simp only [OutDataStage, copyFromRam_UIE, apply_ite State.UIE, ite_self]

theorem HIDInitEndpoints_UCON (L : Layout) (s : State) :
    (HIDInitEndpoints L s).UCON = s.UCON := by
  simp only [HIDInitEndpoints_eq, HIDInitEndpoints_body, apply_ite State.UCON, ite_self]

theorem GetDescriptor_UCON (L : Layout) (s : State) : (GetDescriptor L s).UCON = s.UCON := by
  simp only [GetDescriptor, apply_ite State.UCON, ite_self]

theorem GetStatus_UCON (s : State) : (GetStatus s).UCON = s.UCON := by
  simp only [GetStatus, apply_ite State.UCON, ite_self]

theorem SetFeature_UCON (s : State) : (SetFeature s).UCON = s.UCON := by
  simp only [SetFeature, writeByte_UCON, apply_ite State.UCON, ite_self]

theorem ProcessHIDRequest_UCON (s : State) : (ProcessHIDRequest s).UCON = s.UCON := by
  simp only [ProcessHIDRequest, apply_ite State.UCON, ite_self]

theorem ProcessStandardRequest_UCON (L : Layout) (s : State) :
    (ProcessStandardRequest L s).UCON = s.UCON := by
  simp only [ProcessStandardRequest, HIDInitEndpoints_UCON, GetDescriptor_UCON, GetStatus_UCON,
    SetFeature_UCON, apply_ite State.UCON, ite_self]

theorem InDataStage_UCON (L : Layout) (s : State) : (InDataStage L s).UCON = s.UCON := by
  simp only [InDataStage, copyFromRom_UCON, copyFromRam_UCON, apply_ite State.UCON, ite_self]

theorem OutDataStage_UCON (s : State) : (OutDataStage s).UCON = s.UCON := by
  simp only [OutDataStage, copyFromRam_UCON, apply_ite State.UCON, ite_self]

theorem HIDInitEndpoints_CtrlTransferStage (L : Layout) (s : State) :
    (HIDInitEndpoints L s).CtrlTransferStage = s.CtrlTransferStage := by
  simp only [HIDInitEndpoints_eq, HIDInitEndpoints_body, apply_ite State.CtrlTransferStage, ite_self]

theorem GetDescriptor_CtrlTransferStage (L : Layout) (s : State) : (GetDescriptor L s).CtrlTransferStage = s.CtrlTransferStage := by
  simp only [GetDescriptor, apply_ite State.CtrlTransferStage, ite_self]

theorem GetStatus_CtrlTransferStage (s : State) : (GetStatus s).CtrlTransferStage = s.CtrlTransferStage := by
  simp only [GetStatus, apply_ite State.CtrlTransferStage, ite_self]

theorem SetFeature_CtrlTransferStage (s : State) : (SetFeature s).CtrlTransferStage = s.CtrlTransferStage := by
  simp only [SetFeature, writeByte_CtrlTransferStage, apply_ite State.CtrlTransferStage, ite_self]

theorem ProcessHIDRequest_CtrlTransferStage (s : State) : (ProcessHIDRequest s).CtrlTransferStage = s.CtrlTransferStage := by
  simp only [ProcessHIDRequest, apply_ite State.CtrlTransferStage, ite_self]

theorem ProcessStandardRequest_CtrlTransferStage (L : Layout) (s : State) :
    (ProcessStandardRequest L s).CtrlTransferStage = s.CtrlTransferStage := by
  simp only [ProcessStandardRequest, HIDInitEndpoints_CtrlTransferStage, GetDescriptor_CtrlTransferStage, GetStatus_CtrlTransferStage,
    SetFeature_CtrlTransferStage, apply_ite State.CtrlTransferStage, ite_self]

theorem InDataStage_CtrlTransferStage (L : Layout) (s : State) : (InDataStage L s).CtrlTransferStage = s.CtrlTransferStage := by
  simp only [InDataStage, copyFromRom_CtrlTransferStage, copyFromRam_CtrlTransferStage, apply_ite State.CtrlTransferStage, ite_self]

theorem OutDataStage_CtrlTransferStage (s : State) : (OutDataStage s).CtrlTransferStage = s.CtrlTransferStage := by
  simp only [OutDataStage, copyFromRam_CtrlTransferStage, apply_ite State.CtrlTransferStage, ite_self]

theorem InDataStage_RequestHandled (L : Layout) (s : State) :
    (InDataStage L s).RequestHandled = s.RequestHandled := by
  simp only [InDataStage, copyFromRom_RequestHandled, copyFromRam_RequestHandled,
    apply_ite State.RequestHandled, ite_self]

theorem SetupStage_UIE (L : Layout) (s : State) : (SetupStage L s).UIE = s.UIE := by
  simp only [SetupStage, InDataStage_UIE, ProcessHIDRequest_UIE, ProcessStandardRequest_UIE,
    apply_ite State.UIE, ite_self]

theorem SetupStage_SUSPND (L : Layout) (s : State) :
    (SetupStage L s).UCON.SUSPND = s.UCON.SUSPND := by
  simp only [SetupStage, InDataStage_UCON, ProcessHIDRequest_UCON, ProcessStandardRequest_UCON,
    apply_ite State.UCON, ite_self]

theorem ProcessControlTransfer_UIE (L : Layout) (s : State) :
    (ProcessControlTransfer L s).UIE = s.UIE := by
  simp only [ProcessControlTransfer, SetupStage_UIE, InDataStage_UIE, OutDataStage_UIE,
    WaitForSetupStage, apply_ite State.UIE, ite_self]

theorem ProcessControlTransfer_SUSPND (L : Layout) (s : State) :
    (ProcessControlTransfer L s).UCON.SUSPND = s.UCON.SUSPND := by
  simp only [ProcessControlTransfer, SetupStage_SUSPND, InDataStage_UCON, OutDataStage_UCON,
    WaitForSetupStage, apply_ite State.UCON, apply_ite UCONbits.SUSPND, ite_self]

/-- The two dispatchers leave the control-transfer stage, the Setup packet and the
endpoint-0 registers alone. -/
theorem dispatched_frame (L : Layout) (s : State) :
    (dispatched L s).CtrlTransferStage = SETUP_STAGE ∧
    (dispatched L s).SetupPacket = s.SetupPacket ∧
    (dispatched L s).UCON = s.UCON := by
  refine ⟨?_, ?_, ?_⟩
  · simp only [dispatched, ProcessHIDRequest_CtrlTransferStage,
      ProcessStandardRequest_CtrlTransferStage, SetupStage_init]
  · simp only [dispatched, ProcessHIDRequest_SetupPacket, ProcessStandardRequest_SetupPacket,
      SetupStage_init]
  · simp only [dispatched, ProcessHIDRequest_UCON, ProcessStandardRequest_UCON, SetupStage_init]

theorem SetupStage_eq_dispatched (L : Layout) (s : State) :
    SetupStage L s = SetupStage_finish L (dispatched L s) := SetupStage_eq L s

/-! ## The three ways `SetupStage` ends -/

theorem InDataStage_Interfaces (L : Layout) (s : State) :
    (InDataStage L s).Interfaces = (InDataStage_arm L s).Interfaces := by
  rw [InDataStage_eq]
  split_ifs
  · exact (copyFromRom_spec L _ _ 0 rfl).2.1
  · exact (copyFromRam_spec _ _ 0 rfl (fun _ => Nat.zero_le _)).2.1

theorem InDataStage_wCount (L : Layout) (s : State) :
    (InDataStage L s).wCount = s.wCount - packetSize s := by
  rw [InDataStage_eq]
  split_ifs
  · rw [copyFromRom_wCount]; rfl
  · rw [copyFromRam_wCount]; rfl

theorem clampCount_wCount_min (s : State) :
    (clampCount s).wCount = min s.wCount s.SetupPacket.wLength := by
  unfold clampCount
  split_ifs with h
  · exact (min_eq_right (le_of_lt h)).symm
  · exact (min_eq_left (not_lt.mp h)).symm

/-- No dispatcher handled the request: protocol stall. -/
theorem SetupStage_finish_stall (L : Layout) (d : State) (h : d.RequestHandled = 0) :
    (SetupStage_finish L d).RequestHandled = 0 ∧
    (SetupStage_finish L d).CtrlTransferStage = d.CtrlTransferStage ∧
    ((SetupStage_finish L d).Interfaces 0).Output = ⟨UOWN ||| BSTALL, E0SZ, L.SetupPacket⟩ ∧
    ((SetupStage_finish L d).Interfaces 0).Input.Stat = UOWN ||| BSTALL ∧
    (SetupStage_finish L d).wCount = d.wCount ∧
    (SetupStage_finish L d).UCON.PKTDIS = 0 := by
  simp [SetupStage_finish, h]

/-- A handled device-to-host request: the first packet is staged and the Data-In stage
begins. -/
theorem SetupStage_finish_in (L : Layout) (d : State) (h : d.RequestHandled ≠ 0)
    (hd : d.SetupPacket.bmRequestType &&& 0x80 ≠ 0) :
    (SetupStage_finish L d).RequestHandled = d.RequestHandled ∧
    (SetupStage_finish L d).CtrlTransferStage = DATA_IN_STAGE ∧
    ((SetupStage_finish L d).Interfaces 0).Output = ⟨UOWN, E0SZ, L.SetupPacket⟩ ∧
    ((SetupStage_finish L d).Interfaces 0).Input
      = ⟨UOWN ||| DTS ||| DTSEN, packetSize (clampCount d), PTR16 L .ControlTransferBuffer⟩ ∧
    (SetupStage_finish L d).wCount = (clampCount d).wCount - packetSize (clampCount d) ∧
    (SetupStage_finish L d).ControlTransferBuffer
      = (InDataStage L (clampCount d)).ControlTransferBuffer ∧
    (SetupStage_finish L d).UCON.PKTDIS = 0 := by
  have e : SetupStage_finish L d =
      (let s := InDataStage L (clampCount d)
       let s := { s with CtrlTransferStage := DATA_IN_STAGE }
       let s := s.modOutput 0 fun b => { b with Cnt := E0SZ }
       let s := s.modOutput 0 fun b => { b with ADDR := L.SetupPacket }
       let s := s.modOutput 0 fun b => { b with Stat := UOWN }
       let s := s.modInput 0 fun b => { b with ADDR := PTR16 L .ControlTransferBuffer }
       let s := s.modInput 0 fun b => { b with Stat := UOWN ||| DTS ||| DTSEN }
       { s with UCON := { s.UCON with PKTDIS := 0 } }) := by
    simp only [SetupStage_finish, clampCount, if_neg h, if_pos hd]
  have hI := InDataStage_Interfaces L (clampCount d)
  have hIn := InDataStage_arm_Input L (clampCount d)
  rw [e]
  refine ⟨?_, rfl, ?_, ?_, ?_, rfl, rfl⟩
  · show (InDataStage L (clampCount d)).RequestHandled = _
    rw [InDataStage_RequestHandled]
    simp only [clampCount, apply_ite State.RequestHandled, ite_self]
  · simp
  · simp [hI, hIn]
  · show (InDataStage L (clampCount d)).wCount = _
    rw [InDataStage_wCount]

/-- A handled host-to-device request: endpoint 0 OUT is armed for data and the Data-Out
stage begins. -/
theorem SetupStage_finish_out (L : Layout) (d : State) (h : d.RequestHandled ≠ 0)
    (hd : ¬ d.SetupPacket.bmRequestType &&& 0x80 ≠ 0) :
    (SetupStage_finish L d).RequestHandled = d.RequestHandled ∧
    (SetupStage_finish L d).CtrlTransferStage = DATA_OUT_STAGE ∧
    ((SetupStage_finish L d).Interfaces 0).Output
      = ⟨UOWN ||| DTS ||| DTSEN, E0SZ, PTR16 L .ControlTransferBuffer⟩ ∧
    ((SetupStage_finish L d).Interfaces 0).Input
      = ⟨UOWN ||| DTS ||| DTSEN, 0, (d.Interfaces 0).Input.ADDR⟩ ∧
    (SetupStage_finish L d).wCount = d.wCount ∧
    (SetupStage_finish L d).UCON.PKTDIS = 0 := by
  simp [SetupStage_finish, h, hd]

/-- C30: for every Setup packet and every prior state, `SetupStage` returns with both
endpoint-0 buffer descriptors handed to the SIE (UOWN set) and with PKTDIS cleared,
in all three branches; in the two handled branches BSTALL is clear on both. -/
theorem SetupStage_hands_endpoint0_to_SIE (L : Layout) (s : State) :
    ((SetupStage L s).Interfaces 0).Input.Stat &&& UOWN ≠ 0 ∧
    ((SetupStage L s).Interfaces 0).Output.Stat &&& UOWN ≠ 0 ∧
    (SetupStage L s).UCON.PKTDIS = 0 ∧
    ((SetupStage L s).RequestHandled ≠ 0 →
      ((SetupStage L s).Interfaces 0).Input.Stat &&& BSTALL = 0 ∧
      ((SetupStage L s).Interfaces 0).Output.Stat &&& BSTALL = 0) := by
  have a1 : (UOWN ||| BSTALL) &&& UOWN ≠ 0 := by decide
  have a2 : UOWN &&& UOWN ≠ 0 := by decide
  have a3 : (UOWN ||| DTS ||| DTSEN) &&& UOWN ≠ 0 := by decide
  have b1 : (UOWN ||| DTS ||| DTSEN) &&& BSTALL = 0 := by decide
  have b2 : UOWN &&& BSTALL = 0 := by decide
  rw [SetupStage_eq_dispatched]
  by_cases h : (dispatched L s).RequestHandled = 0
  · obtain ⟨h1, _, h3, h4, _, h6⟩ := SetupStage_finish_stall L _ h
    rw [h1, h3, h4]
    exact ⟨a1, a1, h6, fun hh => absurd rfl hh⟩
  · by_cases hd : (dispatched L s).SetupPacket.bmRequestType &&& 0x80 ≠ 0
    · obtain ⟨_, _, h3, h4, _, _, h7⟩ := SetupStage_finish_in L _ h hd
      rw [h3, h4]
      exact ⟨a3, a2, h7, fun _ => ⟨b1, b2⟩⟩
    · obtain ⟨_, _, h3, h4, _, h6⟩ := SetupStage_finish_out L _ h hd
      rw [h3, h4]
      exact ⟨a3, a3, h6, fun _ => ⟨b1, b1⟩⟩

/-- Counterexample to C23: a vendor request that neither dispatcher handles leaves the
control-transfer stage at Setup (0), not at Status (3), with both endpoint-0
descriptors stalled. -/
theorem SetupStage_unhandled_stays_in_setup :
    (dispatched sampleLayout (stateWithPacket vendorPacket)).RequestHandled = 0 ∧
    (SetupStage sampleLayout (stateWithPacket vendorPacket)).CtrlTransferStage = SETUP_STAGE ∧
    (SetupStage sampleLayout (stateWithPacket vendorPacket)).CtrlTransferStage ≠ STATUS_STAGE ∧
    ((SetupStage sampleLayout (stateWithPacket vendorPacket)).Interfaces 0).Input.Stat
      = UOWN ||| BSTALL ∧
    ((SetupStage sampleLayout (stateWithPacket vendorPacket)).Interfaces 0).Output.Stat
      = UOWN ||| BSTALL := by
  decide

/-- C23 (amended): after `SetupStage` the control-transfer stage is determined by the
outcome of dispatch (`dispatched` is the state after both dispatchers ran).  If
neither dispatcher handled the request the stage is Setup, with both endpoint-0
descriptors stalled.  Else if bit 7 of `bmRequestType` is set the stage is DataIn:
`wCount` was clamped to `min wCount wLength` before the first packet was staged
(the packet is the one `InDataStage` stages from the clamped state, its size
`min (min wCount wLength) E0SZ`, and `wCount` is left as the clamped count less
that size), and endpoint-0 IN is armed (`UOWN | DTS | DTSEN`, address of the
staging buffer).  Else the stage is DataOut and endpoint-0 OUT is armed
(`UOWN | DTS | DTSEN`) with byte count E0SZ, pointing at the staging buffer. -/
theorem SetupStage_stage_by_outcome (L : Layout) (s : State) :
    ((dispatched L s).RequestHandled = 0 →
      (SetupStage L s).CtrlTransferStage = SETUP_STAGE ∧
      ((SetupStage L s).Interfaces 0).Input.Stat = UOWN ||| BSTALL ∧
      ((SetupStage L s).Interfaces 0).Output.Stat = UOWN ||| BSTALL) ∧
    ((dispatched L s).RequestHandled ≠ 0 → s.SetupPacket.bmRequestType &&& 0x80 ≠ 0 →
      (SetupStage L s).CtrlTransferStage = DATA_IN_STAGE ∧
      (SetupStage L s).ControlTransferBuffer
        = (InDataStage L
            { dispatched L s with
              wCount := min (dispatched L s).wCount s.SetupPacket.wLength }).ControlTransferBuffer ∧
      ((SetupStage L s).Interfaces 0).Input.Cnt
        = min (min (dispatched L s).wCount s.SetupPacket.wLength) E0SZ ∧
      (SetupStage L s).wCount
        = min (dispatched L s).wCount s.SetupPacket.wLength
          - min (min (dispatched L s).wCount s.SetupPacket.wLength) E0SZ ∧
      ((SetupStage L s).Interfaces 0).Input.Stat = UOWN ||| DTS ||| DTSEN ∧
      ((SetupStage L s).Interfaces 0).Input.ADDR = PTR16 L .ControlTransferBuffer) ∧
    ((dispatched L s).RequestHandled ≠ 0 → ¬ s.SetupPacket.bmRequestType &&& 0x80 ≠ 0 →
      (SetupStage L s).CtrlTransferStage = DATA_OUT_STAGE ∧
      ((SetupStage L s).Interfaces 0).Output.Stat = UOWN ||| DTS ||| DTSEN ∧
      ((SetupStage L s).Interfaces 0).Output.Cnt = E0SZ ∧
      ((SetupStage L s).Interfaces 0).Output.ADDR = PTR16 L .ControlTransferBuffer) := by
  obtain ⟨f1, f2, _⟩ := dispatched_frame L s
  rw [SetupStage_eq_dispatched]
  refine ⟨?_, ?_, ?_⟩
  · intro h
    obtain ⟨_, h2, h3, h4, _, _⟩ := SetupStage_finish_stall L _ h
    rw [h2, h3, h4, f1]
    exact ⟨rfl, rfl, rfl⟩
  · intro h hd
    rw [← f2] at hd
    obtain ⟨_, h2, _, h4, h5, h6, _⟩ := SetupStage_finish_in L _ h hd
    have hc : clampCount (dispatched L s)
        = { dispatched L s with
            wCount := min (dispatched L s).wCount s.SetupPacket.wLength } := by
      rw [← f2]
      unfold clampCount
      split_ifs with hlt
      · rw [min_eq_right (le_of_lt hlt)]
      · rw [min_eq_left (not_lt.mp hlt)]
    have hw : (clampCount (dispatched L s)).wCount
        = min (dispatched L s).wCount s.SetupPacket.wLength := by
      rw [clampCount_wCount_min, f2]
    rw [h2, h4, h5, h6, packetSize_eq, hw, ← hc]
    exact ⟨rfl, rfl, rfl, rfl, rfl, rfl⟩
  · intro h hd
    rw [← f2] at hd
    obtain ⟨_, h2, h3, _, _, _⟩ := SetupStage_finish_out L _ h hd
    rw [h2, h3]
    exact ⟨rfl, rfl, rfl, rfl⟩

/-- Witness for the amended C23: GET_DESCRIPTOR(Configuration) with 9 bytes requested
stages 8 bytes and leaves 1. -/
theorem SetupStage_stage_by_outcome_witness :
    (dispatched sampleLayout
      (defaultStateWithPacket getConfigurationDescriptorPacket)).RequestHandled ≠ 0 ∧
    (defaultStateWithPacket getConfigurationDescriptorPacket).SetupPacket.bmRequestType
      &&& 0x80 ≠ 0 ∧
    (SetupStage sampleLayout
      (defaultStateWithPacket getConfigurationDescriptorPacket)).CtrlTransferStage
      = DATA_IN_STAGE ∧
    (SetupStage sampleLayout (defaultStateWithPacket getConfigurationDescriptorPacket)).wCount
      = 1 :=
  ⟨by decide, by decide,
   ((SetupStage_stage_by_outcome sampleLayout
      (defaultStateWithPacket getConfigurationDescriptorPacket)).2.1
        (by decide) (by decide)).1,
   (((SetupStage_stage_by_outcome sampleLayout
      (defaultStateWithPacket getConfigurationDescriptorPacket)).2.1
        (by decide) (by decide)).2.2.2.1).trans (by decide)⟩

/-! ## Data toggle and the end of the Data-In stage -/

theorem applyAddress_Interfaces (s : State) : (applyAddress s).Interfaces = s.Interfaces := by
  simp only [applyAddress, apply_ite State.Interfaces, ite_self]

theorem applyAddress_ControlTransferBuffer (s : State) :
    (applyAddress s).ControlTransferBuffer = s.ControlTransferBuffer := by
  simp only [applyAddress, apply_ite State.ControlTransferBuffer, ite_self]

/-- Clearing BC8 and BC9 leaves the data-toggle bit as it was. -/
theorem clear_count_bits_DTS (x : Nat) : (x &&& (0xFF ^^^ (BC8 ||| BC9))) &&& DTS = x &&& DTS := by
  rw [Nat.and_assoc]
  rfl

/-- The flip after `InDataStage`: the descriptor is handed to the SIE with the toggle
bit inverted. -/
theorem toggleIn_Stat (t : State) :
    ((toggleIn t).Interfaces 0).Input.Stat &&& UOWN ≠ 0 ∧
    ((toggleIn t).Interfaces 0).Input.Stat &&& DTSEN ≠ 0 ∧
    (((toggleIn t).Interfaces 0).Input.Stat &&& DTS ≠ 0 ↔
      (t.Interfaces 0).Input.Stat &&& DTS = 0) ∧
    ((toggleIn t).Interfaces 0).Input.Cnt = (t.Interfaces 0).Input.Cnt ∧
    ((toggleIn t).Interfaces 0).Output = (t.Interfaces 0).Output ∧
    (toggleIn t).CtrlTransferStage = t.CtrlTransferStage ∧
    (toggleIn t).wCount = t.wCount ∧
    (toggleIn t).ControlTransferBuffer = t.ControlTransferBuffer := by
  unfold toggleIn
  by_cases h : (t.Interfaces 0).Input.Stat &&& DTS ≠ 0
  · rw [if_pos h]
    refine ⟨?_, ?_, ?_, ?_, ?_, rfl, rfl, rfl⟩
    · simp
    · simp
    · simp +decide [h]
    · simp
    · simp
  · rw [if_neg h]
    have h0 : (t.Interfaces 0).Input.Stat &&& DTS = 0 := by
      by_contra hc
      exact h hc
    refine ⟨?_, ?_, ?_, ?_, ?_, rfl, rfl, rfl⟩
    · simp
    · simp
    · simp +decide [h0]
    · simp
    · simp

/-- The flip after `OutDataStage`. -/
theorem toggleOut_Stat (t : State) :
    ((toggleOut t).Interfaces 0).Output.Stat &&& UOWN ≠ 0 ∧
    ((toggleOut t).Interfaces 0).Output.Stat &&& DTSEN ≠ 0 ∧
    (((toggleOut t).Interfaces 0).Output.Stat &&& DTS ≠ 0 ↔
      (t.Interfaces 0).Output.Stat &&& DTS = 0) := by
  unfold toggleOut
  by_cases h : (t.Interfaces 0).Output.Stat &&& DTS ≠ 0
  · rw [if_pos h]
    refine ⟨?_, ?_, ?_⟩
    · simp
    · simp
    · simp +decide [h]
  · rw [if_neg h]
    have h0 : (t.Interfaces 0).Output.Stat &&& DTS = 0 := by
      by_contra hc
      exact h hc
    refine ⟨?_, ?_, ?_⟩
    · simp
    · simp
    · simp +decide [h0]

theorem ProcessControlTransfer_dataOut (L : Layout) (s : State) (h0 : s.USTAT = 0)
    (hp : outPID s ≠ 0x0D) (hs : s.CtrlTransferStage = DATA_OUT_STAGE) :
    ProcessControlTransfer L s = toggleOut (OutDataStage s) := by
  have hp2 : ¬ ((s.Interfaces 0).Output.Stat &&& 0x3C) >>> 2 = 0x0D := hp
  simp only [ProcessControlTransfer, toggleOut, h0, hs, hp2, if_true, if_false]

theorem ProcessControlTransfer_out_other (L : Layout) (s : State) (h0 : s.USTAT = 0)
    (hp : outPID s ≠ 0x0D) (hs : s.CtrlTransferStage ≠ DATA_OUT_STAGE) :
    ProcessControlTransfer L s = WaitForSetupStage L s := by
  have hp2 : ¬ ((s.Interfaces 0).Output.Stat &&& 0x3C) >>> 2 = 0x0D := hp
  simp only [ProcessControlTransfer, h0, hs, hp2, if_true, if_false]

/-- A store through a pointer that is not the address of the endpoint table itself
leaves the status byte of endpoint 0 OUT alone. -/
theorem writeByte_Output0_Stat (s : State) (p : RamPtr) (v : Nat)
    (hp : p.obj = .Interfaces → 0 < p.off) :
    ((writeByte s p v).Interfaces 0).Output.Stat = (s.Interfaces 0).Output.Stat := by
  obtain ⟨o, off⟩ := p
  cases o
  case Interfaces =>
    have hoff : 0 < off := hp rfl
    simp only [writeByte]
    by_cases h8 : off / 8 = 0
    · have hlt : off < 8 := by omega
      by_cases h4 : off % 8 < 4
      · have hk : off % 4 ≠ 0 := by omega
        simp [h4, h8, BDT.writeByte, hk]
        split_ifs <;> rfl
      · simp [h4, h8]
    · have hne : (0 : Nat) ≠ off / 8 := fun h => h8 h.symm
      split_ifs <;> simp [Function.update_noteq hne]
  all_goals
    simp only [writeByte]
    try split_ifs
    all_goals rfl

theorem copyFromRam_Output0_Stat (n : Nat) (s : State)
    (hp : s.inPtr.obj = .Interfaces → 0 < s.inPtr.off) :
    ((copyFromRam n s).Interfaces 0).Output.Stat = (s.Interfaces 0).Output.Stat := by
  induction n generalizing s with
  | zero => rfl
  | succ n ih =>
    show ((copyFromRam n (copyFromRam_body s)).Interfaces 0).Output.Stat = _
    have h1 : (copyFromRam_body s).inPtr = ⟨s.inPtr.obj, s.inPtr.off + 1⟩ := by
      simp [copyFromRam_body, RamPtr.succ]
    rw [ih (copyFromRam_body s) (by rw [h1]; intro _; exact Nat.succ_pos _)]
    show ((writeByte s s.inPtr (readByte s s.outPtr)).Interfaces 0).Output.Stat = _
    exact writeByte_Output0_Stat s s.inPtr _ hp

theorem OutDataStage_Output0_Stat (s : State)
    (hp : s.inPtr.obj = .Interfaces → 0 < s.inPtr.off) :
    ((OutDataStage s).Interfaces 0).Output.Stat = (s.Interfaces 0).Output.Stat := by
  simp only [OutDataStage]
  exact copyFromRam_Output0_Stat _ _ hp

/-- The data toggle after a completion in a data stage.  In the DataIn stage an
endpoint-0 IN completion handled by `ProcessControlTransfer` leaves the endpoint-0 IN
descriptor owned by the SIE with DTSEN set and DTS inverted relative to its value
before the call.  In the DataOut stage a non-Setup endpoint-0 OUT completion leaves
the OUT descriptor owned by the SIE with DTSEN set; DTS is inverted relative to its
value before the call when the copy destination `inPtr`, which `OutDataStage` stores
through without setting it, is not the address of the status byte itself (the start
of the endpoint table). -/
theorem toggle_after_completion (L : Layout) (s : State) :
    (s.CtrlTransferStage = DATA_IN_STAGE → s.USTAT = 0x04 →
      ((ProcessControlTransfer L s).Interfaces 0).Input.Stat &&& UOWN ≠ 0 ∧
      ((ProcessControlTransfer L s).Interfaces 0).Input.Stat &&& DTSEN ≠ 0 ∧
      (((ProcessControlTransfer L s).Interfaces 0).Input.Stat &&& DTS ≠ 0 ↔
        (s.Interfaces 0).Input.Stat &&& DTS = 0)) ∧
    (s.CtrlTransferStage = DATA_OUT_STAGE → s.USTAT = 0 → outPID s ≠ 0x0D →
      ((ProcessControlTransfer L s).Interfaces 0).Output.Stat &&& UOWN ≠ 0 ∧
      ((ProcessControlTransfer L s).Interfaces 0).Output.Stat &&& DTSEN ≠ 0 ∧
      ((s.inPtr.obj = .Interfaces → 0 < s.inPtr.off) →
        (((ProcessControlTransfer L s).Interfaces 0).Output.Stat &&& DTS ≠ 0 ↔
          (s.Interfaces 0).Output.Stat &&& DTS = 0))) := by
  refine ⟨?_, ?_⟩
  · intro hs h4
    rw [ProcessControlTransfer_dataIn L s h4 hs]
    obtain ⟨t1, t2, t3, _⟩ := toggleIn_Stat (InDataStage L (applyAddress s))
    refine ⟨t1, t2, ?_⟩
    rw [t3, InDataStage_Interfaces, InDataStage_arm_Input, applyAddress_Interfaces]
    show (s.Interfaces 0).Input.Stat &&& (0xFF ^^^ (BC8 ||| BC9)) &&& DTS = 0 ↔ _
    rw [clear_count_bits_DTS]
  · intro hs h0 hp
    rw [ProcessControlTransfer_dataOut L s h0 hp hs]
    obtain ⟨t1, t2, t3⟩ := toggleOut_Stat (OutDataStage s)
    refine ⟨t1, t2, ?_⟩
    intro hin
    rw [t3, OutDataStage_Output0_Stat s hin]

/-- Instances: a Data-In packet sent with DATA1 is followed by one with DATA0, and a
Data-Out packet received with DATA1, with the copy destination in the control
transfer buffer, hands the descriptor back to the SIE. -/
theorem toggle_after_completion_instances :
    dataInProgress.CtrlTransferStage = DATA_IN_STAGE ∧ dataInProgress.USTAT = 0x04 ∧
    (dataInProgress.Interfaces 0).Input.Stat &&& DTS ≠ 0 ∧
    ¬ ((ProcessControlTransfer sampleLayout dataInProgress).Interfaces 0).Input.Stat
        &&& DTS ≠ 0 ∧
    dataOutProgress.CtrlTransferStage = DATA_OUT_STAGE ∧ dataOutProgress.USTAT = 0 ∧
    outPID dataOutProgress ≠ 0x0D ∧
    ((ProcessControlTransfer sampleLayout dataOutProgress).Interfaces 0).Output.Stat
      &&& UOWN ≠ 0 :=
  ⟨by decide, by decide, by decide,
   fun h => absurd
     (((toggle_after_completion sampleLayout dataInProgress).1 (by decide) (by decide)).2.2.mp h)
     (by decide),
   by decide, by decide, by decide,
   ((toggle_after_completion sampleLayout dataOutProgress).2 (by decide) (by decide)
      (by decide)).1⟩

/-- With nothing left to send `InDataStage` copies nothing: it only updates the
endpoint-0 IN descriptor. -/
theorem InDataStage_of_drained (L : Layout) (s : State) (hw : s.wCount = 0) :
    InDataStage L s = InDataStage_arm L s := by
  have hp : packetSize s = 0 := by
    rw [packetSize_eq, hw]
    rfl
  rw [InDataStage_eq, hp]
  split_ifs <;> rfl

/-- Counterexample to C28: in the DataIn stage with nothing left to send, an endpoint-0
IN completion does not return the stage to Setup and does not touch endpoint-0 OUT:
the stage stays DataIn and a zero-length packet is handed to the SIE on endpoint-0
IN. -/
theorem drained_DataIn_IN_completion_stays :
    drainedDataIn.CtrlTransferStage = DATA_IN_STAGE ∧
    drainedDataIn.wCount = 0 ∧
    drainedDataIn.USTAT = 0x04 ∧
    (ProcessControlTransfer sampleLayout drainedDataIn).CtrlTransferStage = DATA_IN_STAGE ∧
    (ProcessControlTransfer sampleLayout drainedDataIn).CtrlTransferStage ≠ SETUP_STAGE ∧
    ((ProcessControlTransfer sampleLayout drainedDataIn).Interfaces 0).Input.Stat
      = UOWN ||| DTSEN ∧
    ((ProcessControlTransfer sampleLayout drainedDataIn).Interfaces 0).Input.Cnt = 0 ∧
    ((ProcessControlTransfer sampleLayout drainedDataIn).Interfaces 0).Output
      = (drainedDataIn.Interfaces 0).Output := by
  decide

/-- C28 (amended): in the DataIn stage with `wCount = 0`, a non-Setup endpoint-0 OUT
completion handled by `ProcessControlTransfer` is treated as status: it is
`WaitForSetupStage`, which sends no further data packet (the IN descriptor is taken
back, `Stat = 0`, and the staging buffer is untouched), re-arms endpoint-0 OUT to
receive into `SetupPacket` and returns the stage to Setup.  An endpoint-0 IN
completion instead keeps the stage at DataIn with `wCount = 0`: it hands a
zero-length packet to the SIE on endpoint-0 IN, with the data toggle inverted, and
leaves endpoint-0 OUT and the staging buffer as they were. -/
theorem drained_DataIn_next_completion (L : Layout) (s : State)
    (hs : s.CtrlTransferStage = DATA_IN_STAGE) (hw : s.wCount = 0) :
    (s.USTAT = 0 → outPID s ≠ 0x0D →
      ProcessControlTransfer L s = WaitForSetupStage L s ∧
      (ProcessControlTransfer L s).CtrlTransferStage = SETUP_STAGE ∧
      ((ProcessControlTransfer L s).Interfaces 0).Output
        = ⟨UOWN ||| DTSEN, E0SZ, L.SetupPacket⟩ ∧
      ((ProcessControlTransfer L s).Interfaces 0).Input.Stat = 0x00 ∧
      (ProcessControlTransfer L s).wCount = 0 ∧
      (ProcessControlTransfer L s).ControlTransferBuffer = s.ControlTransferBuffer) ∧
    (s.USTAT = 0x04 →
      (ProcessControlTransfer L s).CtrlTransferStage = DATA_IN_STAGE ∧
      (ProcessControlTransfer L s).wCount = 0 ∧
      ((ProcessControlTransfer L s).Interfaces 0).Input.Cnt = 0 ∧
      ((ProcessControlTransfer L s).Interfaces 0).Input.Stat &&& UOWN ≠ 0 ∧
      (((ProcessControlTransfer L s).Interfaces 0).Input.Stat &&& DTS ≠ 0 ↔
        (s.Interfaces 0).Input.Stat &&& DTS = 0) ∧
      ((ProcessControlTransfer L s).Interfaces 0).Output = (s.Interfaces 0).Output ∧
      (ProcessControlTransfer L s).ControlTransferBuffer = s.ControlTransferBuffer) := by
  refine ⟨?_, ?_⟩
  · intro h0 hp
    have hne : s.CtrlTransferStage ≠ DATA_OUT_STAGE := by
      rw [hs]
      decide
    rw [ProcessControlTransfer_out_other L s h0 hp hne]
    refine ⟨rfl, rfl, ?_, ?_, hw, rfl⟩
    · simp [WaitForSetupStage]
    · simp [WaitForSetupStage]
  · intro h4
    rw [ProcessControlTransfer_dataIn L s h4 hs]
    have hwa : (applyAddress s).wCount = 0 := by rw [applyAddress_wCount, hw]
    have hpa : packetSize (applyAddress s) = 0 := by
      rw [packetSize_eq, hwa]
      rfl
    obtain ⟨t1, _, t3, t4, t5, t6, t7, t8⟩ := toggleIn_Stat (InDataStage L (applyAddress s))
    rw [t6, t7, t4, t5, t8, t3]
    rw [InDataStage_of_drained L _ hwa, InDataStage_arm_Input, InDataStage_arm_Output,
      applyAddress_Interfaces, hpa] at *
    refine ⟨?_, ?_, rfl, t1, ?_, rfl, ?_⟩
    · show (applyAddress s).CtrlTransferStage = _
      rw [applyAddress_CtrlTransferStage, hs]
    · show (applyAddress s).wCount - packetSize (applyAddress s) = 0
      rw [hwa, Nat.zero_sub]
    · show (s.Interfaces 0).Input.Stat &&& (0xFF ^^^ (BC8 ||| BC9)) &&& DTS = 0 ↔ _
      rw [clear_count_bits_DTS]
    · show (applyAddress s).ControlTransferBuffer = _
      rw [applyAddress_ControlTransferBuffer]

/-- Witness for the amended C28: the host's zero-length status packet arrives on
endpoint 0 OUT after the last data packet. -/
theorem drained_DataIn_next_completion_witness :
    ({ drainedDataIn with USTAT := 0 } : State).CtrlTransferStage = DATA_IN_STAGE ∧
    ({ drainedDataIn with USTAT := 0 } : State).wCount = 0 ∧
    ({ drainedDataIn with USTAT := 0 } : State).USTAT = 0 ∧
    outPID { drainedDataIn with USTAT := 0 } ≠ 0x0D ∧
    (ProcessControlTransfer sampleLayout { drainedDataIn with USTAT := 0 }).CtrlTransferStage
      = SETUP_STAGE :=
  ⟨by decide, by decide, by decide, by decide,
   ((drained_DataIn_next_completion sampleLayout { drainedDataIn with USTAT := 0 }
      (by decide) (by decide)).1 (by decide) (by decide)).2.1⟩

/-- C25, evaluated at the failing input: SET_FEATURE(ENDPOINT_HALT) for endpoint 2 OUT.
The endpoint table has `InterfaceCount + 1 = 2` descriptor pairs of 8 bytes, but
`SetFeature` stores 0x84 through `&Interfaces[0].Output + 2 * 8`, byte 16, which is
the first byte after the table (`Interfaces 2` here); nothing checks the endpoint
number against the table size.  A GET_STATUS for the same endpoint then reads its
halt bit from that byte, and for endpoint 15 IN the byte is at offset 124. -/
theorem endpoint_request_reaches_past_table :
    InterfaceCount + 1 = 2 ∧
    (standardRequest sampleLayout (setHaltPacket 0x02) readyState).RequestHandled = 1 ∧
    (standardRequest sampleLayout (setHaltPacket 0x02) readyState).inPtr
      = ⟨.Interfaces, 8 * (InterfaceCount + 1)⟩ ∧
    (readyState.Interfaces 2).Output.Stat = 0x00 ∧
    ((standardRequest sampleLayout (setHaltPacket 0x02) readyState).Interfaces 2).Output.Stat
      = 0x84 ∧
    (standardRequest sampleLayout (getEndpointStatusPacket 0x02)
      readyState).ControlTransferBuffer 0 = 0x00 ∧
    (standardRequest sampleLayout (getEndpointStatusPacket 0x02)
      (standardRequest sampleLayout (setHaltPacket 0x02) readyState)).ControlTransferBuffer 0
      = 0x01 ∧
    (standardRequest sampleLayout (setHaltPacket 0x8F) readyState).inPtr
      = ⟨.Interfaces, 124⟩ ∧
    ((standardRequest sampleLayout (setHaltPacket 0x8F) readyState).Interfaces 15).Input.Stat
      = 0x84 := by
  decide

/-! ## Suspend and resume -/

theorem and_and_of (u a b c : Nat) (h : a &&& b = c) : (u &&& a) &&& b = u &&& c := by
  rw [Nat.and_assoc, h]

theorem or_and_of (u a b : Nat) (h : b &&& a = 0) : (u ||| a) &&& b = u &&& b := by
  rw [Nat.and_comm, Nat.and_or_distrib_left, h, Nat.or_zero, Nat.and_comm]

theorem or_and_self_ne_zero (u : Nat) : (u ||| USB_RESUM) &&& USB_RESUM ≠ 0 := by
  intro h
  have h2 := congrArg (fun x => Nat.testBit x 2) h
  simp +decide [Nat.testBit_and, Nat.testBit_or] at h2

theorem service_of_not_pending (L : Layout) (e : BusEvent) (s : State)
    (h : ¬ e.pending s) : service L e s = s := by
  unfold service
  rw [if_neg h]

theorem ProcessUSBTransactions_eq_running (L : Layout) (s : State) :
    ProcessUSBTransactions L s =
      if s.DeviceState = DETACHED then quiesce s
      else if (service L .resume s).UCON.SUSPND = 1 then quiesce (service L .resume s)
      else serviceRunning L (service L .resume s) := by
  rw [ProcessUSBTransactions_eq]
  simp only [serviceRunning]

/-- The resume category: the suspend bit afterwards, and the flags of the idle and
transaction-complete categories, which it leaves alone. -/
theorem service_resume_facts (L : Layout) (s : State) :
    (service L .resume s).UCON.SUSPND
      = (if BusEvent.resume.pending s then 0 else s.UCON.SUSPND) ∧
    (BusEvent.idle.pending (service L .resume s) ↔ BusEvent.idle.pending s) ∧
    (BusEvent.transactionComplete.pending (service L .resume s) ↔
      BusEvent.transactionComplete.pending s) := by
  unfold service
  by_cases hp : BusEvent.resume.pending s
  · rw [if_pos hp, if_pos hp]
    have e1 : ∀ u : Nat, ((u &&& 0xFB) &&& (0xFF ^^^ USB_RESUM)) &&& USB_IDLE = u &&& USB_IDLE := by
      intro u
      rw [Nat.and_assoc, Nat.and_assoc]
      rfl
    have e2 : ∀ u : Nat, (u &&& (0xFF ^^^ USB_RESUM)) &&& USB_IDLE = u &&& USB_IDLE := by
      intro u
      rw [Nat.and_assoc]
      rfl
    have e3 : ∀ u : Nat, ((u &&& 0xFB) &&& (0xFF ^^^ USB_RESUM)) &&& USB_TRN = u &&& USB_TRN := by
      intro u
      rw [Nat.and_assoc, Nat.and_assoc]
      rfl
    have e4 : ∀ u : Nat, (u &&& (0xFF ^^^ USB_RESUM)) &&& USB_TRN = u &&& USB_TRN := by
      intro u
      rw [Nat.and_assoc]
      rfl
    refine ⟨rfl, ?_, ?_⟩
    · simp only [BusEvent.pending, BusEvent.flag, BusEvent.handler, ClearUsbInterruptFlag,
        UnSuspend, e1, e2]
    · simp only [BusEvent.pending, BusEvent.flag, BusEvent.handler, ClearUsbInterruptFlag,
        UnSuspend, e3, e4]
  · rw [if_neg hp, if_neg hp]
    exact ⟨rfl, Iff.rfl, Iff.rfl⟩

/-- The idle category when it is pending: the device is suspended, the bus-activity
interrupt enabled, and the transaction-complete flags are left alone. -/
theorem service_idle_facts (L : Layout) (s : State) (hp : BusEvent.idle.pending s) :
    (service L .idle s).UCON.SUSPND = 1 ∧
    (service L .idle s).UIE &&& USB_RESUM ≠ 0 ∧
    (BusEvent.transactionComplete.pending (service L .idle s) ↔
      BusEvent.transactionComplete.pending s) := by
  unfold service
  rw [if_pos hp]
  have e1 : ∀ u : Nat, ((u &&& 0xEF) &&& (0xFF ^^^ USB_IDLE)) &&& USB_TRN = u &&& USB_TRN := by
    intro u
    rw [Nat.and_assoc, Nat.and_assoc]
    rfl
  have e2 : ∀ u : Nat, (u ||| USB_RESUM) &&& USB_TRN = u &&& USB_TRN :=
    fun u => or_and_of u _ _ (by decide)
  refine ⟨rfl, ?_, ?_⟩
  · show (s.UIE ||| USB_RESUM) &&& USB_RESUM ≠ 0
    exact or_and_self_ne_zero _
  · simp only [BusEvent.pending, BusEvent.flag, BusEvent.handler, ClearUsbInterruptFlag,
      Suspend, e1, e2]

/-- The start-of-frame, stall and error categories leave `UCON`, `UIE` and the
transaction-complete flag alone. -/
theorem service_late_facts (L : Layout) (e : BusEvent) (s : State)
    (he : e = .startOfFrame ∨ e = .stall ∨ e = .error) :
    (service L e s).UCON = s.UCON ∧
    (service L e s).UIE = s.UIE ∧
    (BusEvent.transactionComplete.pending (service L e s) ↔
      BusEvent.transactionComplete.pending s) := by
  have e1 : ∀ u : Nat, ((u &&& (0xFF ^^^ USB_SOF)) &&& (0xFF ^^^ USB_SOF)) &&& USB_TRN
      = u &&& USB_TRN := by
    intro u
    rw [Nat.and_assoc, Nat.and_assoc]
    rfl
  have e2 : ∀ u : Nat, ((u &&& (0xFF ^^^ USB_STALL)) &&& (0xFF ^^^ USB_STALL)) &&& USB_TRN
      = u &&& USB_TRN := by
    intro u
    rw [Nat.and_assoc, Nat.and_assoc]
    rfl
  have e3 : ∀ u : Nat, ((u &&& (0xFF ^^^ USB_UERR)) &&& (0xFF ^^^ USB_UERR)) &&& USB_TRN
      = u &&& USB_TRN := by
    intro u
    rw [Nat.and_assoc, Nat.and_assoc]
    rfl
  unfold service
  by_cases hp : e.pending s
  · rw [if_pos hp]
    rcases he with rfl | rfl | rfl
    · refine ⟨rfl, rfl, ?_⟩
      simp only [BusEvent.pending, BusEvent.flag, BusEvent.handler, ClearUsbInterruptFlag,
        StartOfFrame, e1]
    · by_cases hs : s.UEP0 &&& 0x01 = 1
      · refine ⟨?_, ?_, ?_⟩
        · simp only [BusEvent.handler, ClearUsbInterruptFlag, Stall, WaitForSetupStage, hs,
            if_true]
        · simp only [BusEvent.handler, ClearUsbInterruptFlag, Stall, WaitForSetupStage, hs,
            if_true]
        · simp only [BusEvent.pending, BusEvent.flag, BusEvent.handler, ClearUsbInterruptFlag,
            Stall, WaitForSetupStage, hs, if_true, e2]
      · refine ⟨?_, ?_, ?_⟩
        · simp only [BusEvent.handler, ClearUsbInterruptFlag, Stall, hs, if_false]
        · simp only [BusEvent.handler, ClearUsbInterruptFlag, Stall, hs, if_false]
        · simp only [BusEvent.pending, BusEvent.flag, BusEvent.handler, ClearUsbInterruptFlag,
            Stall, hs, if_false, e2]
    · refine ⟨rfl, rfl, ?_⟩
      simp only [BusEvent.pending, BusEvent.flag, BusEvent.handler, ClearUsbInterruptFlag,
        clearErrors, e3]
  · rw [if_neg hp]
    exact ⟨rfl, rfl, Iff.rfl⟩

/-- The transaction-complete category leaves the suspend bit and `UIE` alone. -/
theorem service_transactionComplete_facts (L : Layout) (s : State) :
    (service L .transactionComplete s).UCON.SUSPND = s.UCON.SUSPND ∧
    (service L .transactionComplete s).UIE = s.UIE := by
  unfold service
  split_ifs
  · exact ⟨ProcessControlTransfer_SUSPND L s, ProcessControlTransfer_UIE L s⟩
  · exact ⟨rfl, rfl⟩

/-- The part of `ProcessUSBTransactions` that follows the suspend check, when no bus
reset is pending: the suspend bit and `UIE` end as the idle category leaves them, and
the device state is kept unless a transaction is processed. -/
theorem serviceRunning_facts (L : Layout) (s : State) (hr : ¬ BusEvent.reset.pending s) :
    (serviceRunning L s).UCON.SUSPND = (service L .idle s).UCON.SUSPND ∧
    (serviceRunning L s).UIE = (service L .idle s).UIE ∧
    (¬ BusEvent.transactionComplete.pending s →
      (serviceRunning L s).DeviceState = s.DeviceState) := by
  have h0 : service L .reset s = s := by
    unfold service
    rw [if_neg hr]
  obtain ⟨a1, a2, a3⟩ := service_late_facts L .startOfFrame (service L .idle s) (Or.inl rfl)
  obtain ⟨b1, b2, b3⟩ := service_late_facts L .stall
    (service L .startOfFrame (service L .idle s)) (Or.inr (Or.inl rfl))
  obtain ⟨c1, c2, c3⟩ := service_late_facts L .error
    (service L .stall (service L .startOfFrame (service L .idle s))) (Or.inr (Or.inr rfl))
  obtain ⟨t1, t2⟩ := service_transactionComplete_facts L
    (service L .error (service L .stall (service L .startOfFrame (service L .idle s))))
  have hU : serviceAll L [.reset, .idle, .startOfFrame, .stall, .error] s
      = service L .error (service L .stall (service L .startOfFrame (service L .idle s))) := by
    simp only [serviceAll, List.foldl, h0]
  have hD : (service L .error (service L .stall (service L .startOfFrame
      (service L .idle s)))).DeviceState = s.DeviceState := by
    rw [service_DeviceState L .error _ (by decide) (by decide),
      service_DeviceState L .stall _ (by decide) (by decide),
      service_DeviceState L .startOfFrame _ (by decide) (by decide),
      service_DeviceState L .idle _ (by decide) (by decide)]
  unfold serviceRunning
  simp only [hU]
  split_ifs with hlt
  · refine ⟨?_, ?_, ?_⟩
    · show (service L .error _).UCON.SUSPND = _
      rw [c1, b1, a1]
    · show (service L .error _).UIE = _
      rw [c2, b2, a2]
    · intro _
      exact hD
  · refine ⟨?_, ?_, ?_⟩
    · show (service L .transactionComplete _).UCON.SUSPND = _
      rw [t1, c1, b1, a1]
    · show (service L .transactionComplete _).UIE = _
      rw [t2, c2, b2, a2]
    · intro hn
      have hi : (BusEvent.transactionComplete.pending (service L .idle s) ↔
          BusEvent.transactionComplete.pending s) := by
        by_cases hp : BusEvent.idle.pending s
        · exact (service_idle_facts L s hp).2.2
        · unfold service
          rw [if_neg hp]
      have hn6 : ¬ BusEvent.transactionComplete.pending
          (service L .error (service L .stall (service L .startOfFrame (service L .idle s)))) :=
        fun h => hn (hi.mp (a3.mp (b3.mp (c3.mp h))))
      show (service L .transactionComplete _).DeviceState = _
      rw [service_of_not_pending L _ _ hn6]
      exact hD

/-- Counterexample to C24.  A configured, running device with a bus reset and an idle
event both pending: the call services the reset, which clears the idle flag, so the
device is not suspended and `DeviceState` changes to Default.  A suspended device with
bus activity and an idle event both pending: the call resumes and suspends again, so
`UCON.SUSPND` is not cleared.  A running device in the Default state with an idle
event and a SET_ADDRESS Setup transaction both pending: the call suspends and
`DeviceState` changes to Address. -/
theorem suspend_depends_on_other_events :
    (resetAndIdlePending.DeviceState ≠ DETACHED ∧
      resetAndIdlePending.UCON.SUSPND ≠ 1 ∧
      BusEvent.idle.pending resetAndIdlePending ∧
      (ProcessUSBTransactions sampleLayout resetAndIdlePending).UCON.SUSPND ≠ 1 ∧
      (ProcessUSBTransactions sampleLayout resetAndIdlePending).DeviceState
        ≠ resetAndIdlePending.DeviceState) ∧
    (resumeAndIdlePending.UCON.SUSPND = 1 ∧
      BusEvent.resume.pending resumeAndIdlePending ∧
      (ProcessUSBTransactions sampleLayout resumeAndIdlePending).UCON.SUSPND = 1) ∧
    (idleAndSetAddressPending.DeviceState ≠ DETACHED ∧
      idleAndSetAddressPending.UCON.SUSPND ≠ 1 ∧
      BusEvent.idle.pending idleAndSetAddressPending ∧
      (ProcessUSBTransactions sampleLayout idleAndSetAddressPending).UCON.SUSPND = 1 ∧
      (ProcessUSBTransactions sampleLayout idleAndSetAddressPending).DeviceState
        ≠ idleAndSetAddressPending.DeviceState) := by
  decide

/-- C24 (amended): suspend is orthogonal to the lifecycle state when no bus reset is
serviced in the same call.  For every non-Detached state with no enabled bus-reset
flag pending: if the device is not suspended and the idle flag is pending and
enabled, `ProcessUSBTransactions` sets `UCON.SUSPND` and enables the bus-activity
interrupt; if the device is suspended, the bus-activity flag is pending and enabled
and no enabled idle flag is pending, it clears `UCON.SUSPND`.  In both cases
`DeviceState` is unchanged when no enabled transaction-complete flag is pending. -/
theorem suspend_orthogonal_to_DeviceState (L : Layout) (s : State)
    (hd : s.DeviceState ≠ DETACHED) (hr : ¬ BusEvent.reset.pending s) :
    (s.UCON.SUSPND ≠ 1 → BusEvent.idle.pending s →
      (ProcessUSBTransactions L s).UCON.SUSPND = 1 ∧
      (ProcessUSBTransactions L s).UIE &&& USB_RESUM ≠ 0 ∧
      (¬ BusEvent.transactionComplete.pending s →
        (ProcessUSBTransactions L s).DeviceState = s.DeviceState)) ∧
    (s.UCON.SUSPND = 1 → BusEvent.resume.pending s → ¬ BusEvent.idle.pending s →
      (ProcessUSBTransactions L s).UCON.SUSPND = 0 ∧
      (¬ BusEvent.transactionComplete.pending s →
        (ProcessUSBTransactions L s).DeviceState = s.DeviceState)) := by
  obtain ⟨r1, r2, r3⟩ := service_resume_facts L s
  have hr1 : ¬ BusEvent.reset.pending (service L .resume s) :=
    fun h => hr ((service_resume_reset_pending L s).mp h)
  obtain ⟨f1, f2, f3⟩ := serviceRunning_facts L (service L .resume s) hr1
  have hD1 : (service L .resume s).DeviceState = s.DeviceState :=
    service_DeviceState L .resume s (by decide) (by decide)
  rw [ProcessUSBTransactions_eq_running, if_neg hd]
  refine ⟨?_, ?_⟩
  · intro hs hi
    have hns : ¬ (service L .resume s).UCON.SUSPND = 1 :=
      service_resume_SUSPND L s (Or.inl hs)
    obtain ⟨i1, i2, _⟩ := service_idle_facts L (service L .resume s) (r2.mpr hi)
    rw [if_neg hns, f1, f2]
    refine ⟨i1, i2, ?_⟩
    intro hn
    rw [f3 (fun h => hn (r3.mp h)), hD1]
  · intro hs hp hi
    have h0 : (service L .resume s).UCON.SUSPND = 0 := by
      rw [r1, if_pos hp]
    have hns : ¬ (service L .resume s).UCON.SUSPND = 1 := by
      rw [h0]
      decide
    have hid : service L .idle (service L .resume s) = service L .resume s :=
      service_of_not_pending L _ _ (fun h => hi (r2.mp h))
    rw [if_neg hns, f1, hid]
    refine ⟨h0, ?_⟩
    intro hn
    rw [f3 (fun h => hn (r3.mp h)), hD1]

/-- Witness for the amended C24: a configured device goes idle, and a suspended device
sees bus activity. -/
theorem suspend_orthogonal_to_DeviceState_witness :
    idlePending.DeviceState ≠ DETACHED ∧ ¬ BusEvent.reset.pending idlePending ∧
    idlePending.UCON.SUSPND ≠ 1 ∧ BusEvent.idle.pending idlePending ∧
    (ProcessUSBTransactions sampleLayout idlePending).UCON.SUSPND = 1 ∧
    ({ suspendedWithTransaction with UIR := USB_RESUM } : State).UCON.SUSPND = 1 ∧
    BusEvent.resume.pending { suspendedWithTransaction with UIR := USB_RESUM } ∧
    (ProcessUSBTransactions sampleLayout
      { suspendedWithTransaction with UIR := USB_RESUM }).UCON.SUSPND = 0 :=
  ⟨by decide, by decide, by decide, by decide,
   ((suspend_orthogonal_to_DeviceState sampleLayout idlePending (by decide) (by decide)).1
      (by decide) (by decide)).1,
   by decide, by decide,
   ((suspend_orthogonal_to_DeviceState sampleLayout
      { suspendedWithTransaction with UIR := USB_RESUM } (by decide) (by decide)).2
        (by decide) (by decide) (by decide)).1⟩

/-! ## The source pointer stays outside the endpoint table -/

theorem copyFromRam_outPtr_obj (n : Nat) (s : State) :
    (copyFromRam n s).outPtr.obj = s.outPtr.obj := by
  induction n generalizing s with
  | zero => rfl
  | succ n ih =>
    show (copyFromRam n (copyFromRam_body s)).outPtr.obj = _
    rw [ih]
    simp [copyFromRam_body, RamPtr.succ]

theorem InDataStage_outPtrValid (L : Layout) (s : State) (h : outPtrValid s) :
    outPtrValid (InDataStage L s) := by
  unfold outPtrValid at *
  rw [InDataStage_eq]
  split_ifs
  · rw [copyFromRom_outPtr]
    exact h
  · rw [copyFromRam_outPtr_obj]
    exact h

theorem OutDataStage_outPtrValid (s : State) : outPtrValid (OutDataStage s) := by
  unfold outPtrValid
  simp only [OutDataStage]
  rw [copyFromRam_outPtr_obj]
  exact fun hc => by cases hc

theorem HIDInitEndpoints_outPtr (L : Layout) (s : State) :
    (HIDInitEndpoints L s).outPtr = s.outPtr := by
  simp only [HIDInitEndpoints_eq, HIDInitEndpoints_body]

theorem GetDescriptor_outPtr (L : Layout) (s : State) :
    (GetDescriptor L s).outPtr = s.outPtr := by
  simp only [GetDescriptor, apply_ite State.outPtr, ite_self]

theorem SetFeature_outPtr (s : State) : (SetFeature s).outPtr = s.outPtr := by
  simp only [SetFeature, writeByte_outPtr, apply_ite State.outPtr, ite_self]

theorem GetStatus_outPtrValid (s : State) (h : outPtrValid s) : outPtrValid (GetStatus s) := by
  simp only [GetStatus, apply_ite outPtrValid]
  simp only [outPtrValid, apply_ite State.outPtr, ite_self] at *
  split_ifs <;> first | exact h | exact fun hc => by cases hc

theorem ProcessStandardRequest_outPtrValid (L : Layout) (s : State) (h : outPtrValid s) :
    outPtrValid (ProcessStandardRequest L s) := by
  have h1 := GetStatus_outPtrValid s h
  simp only [ProcessStandardRequest, apply_ite outPtrValid, h1]
  simp only [outPtrValid, HIDInitEndpoints_outPtr, GetDescriptor_outPtr, SetFeature_outPtr,
    apply_ite State.outPtr, ite_self] at *
  simp [h]

theorem ProcessHIDRequest_outPtrValid (s : State) (h : outPtrValid s) :
    outPtrValid (ProcessHIDRequest s) := by
  simp only [ProcessHIDRequest, apply_ite outPtrValid]
  simp only [outPtrValid, apply_ite State.outPtr, ite_self] at *
  simp [h]

theorem SetupStage_finish_outPtr (L : Layout) (d : State) :
    (SetupStage_finish L d).outPtr = d.outPtr ∨
    (SetupStage_finish L d).outPtr = (InDataStage L (clampCount d)).outPtr := by
  by_cases h : d.RequestHandled = 0
  · left
    simp [SetupStage_finish, h]
  · by_cases hd : d.SetupPacket.bmRequestType &&& 0x80 ≠ 0
    · right
      simp [SetupStage_finish, clampCount, h, hd]
    · left
      simp [SetupStage_finish, h, hd]

theorem SetupStage_outPtrValid (L : Layout) (s : State) (h : outPtrValid s) :
    outPtrValid (SetupStage L s) := by
  have h0 : outPtrValid (SetupStage_init s) := h
  have hd := ProcessHIDRequest_outPtrValid _ (ProcessStandardRequest_outPtrValid L _ h0)
  have hc : outPtrValid (clampCount (ProcessHIDRequest
      (ProcessStandardRequest L (SetupStage_init s)))) := by
    unfold clampCount
    split_ifs
    · exact hd
    · exact hd
  have hi := InDataStage_outPtrValid L _ hc
  rw [SetupStage_eq]
  unfold outPtrValid at *
  rcases SetupStage_finish_outPtr L
    (ProcessHIDRequest (ProcessStandardRequest L (SetupStage_init s))) with e | e
  · rw [e]
    exact hd
  · rw [e]
    exact hi

theorem ProcessControlTransfer_outPtrValid (L : Layout) (s : State) (h : outPtrValid s) :
    outPtrValid (ProcessControlTransfer L s) := by
  have ha : outPtrValid (applyAddress s) := by
    have e : (applyAddress s).outPtr = s.outPtr := by
      simp only [applyAddress, apply_ite State.outPtr, ite_self]
    unfold outPtrValid
    rw [e]
    exact h
  have h1 := SetupStage_outPtrValid L s h
  have h2 := OutDataStage_outPtrValid s
  have h3 := InDataStage_outPtrValid L _ ha
  by_cases h0 : s.USTAT = 0
  · by_cases hp : outPID s = 0x0D
    · have e : ProcessControlTransfer L s = SetupStage L s := by
        have hp2 : ((s.Interfaces 0).Output.Stat &&& 0x3C) >>> 2 = 0x0D := hp
        simp only [ProcessControlTransfer, h0, hp2, if_true]
      rw [e]
      exact h1
    · by_cases hs : s.CtrlTransferStage = DATA_OUT_STAGE
      · rw [ProcessControlTransfer_dataOut L s h0 hp hs]
        unfold toggleOut
        split_ifs <;> exact h2
      · rw [ProcessControlTransfer_out_other L s h0 hp hs]
        exact h
  · by_cases h4 : s.USTAT = 0x04
    · by_cases hs : s.CtrlTransferStage = DATA_IN_STAGE
      · rw [ProcessControlTransfer_dataIn L s h4 hs]
        unfold toggleIn
        split_ifs <;> exact h3
      · have e : ProcessControlTransfer L s = WaitForSetupStage L (applyAddress s) := by
          by_cases c : s.UADDR = 0 ∧ s.DeviceState = ADDRESS
          · by_cases c2 : s.SetupPacket.wValue0 = 0
            · simp [ProcessControlTransfer, applyAddress, h4, hs, c, c2]
            · simp [ProcessControlTransfer, applyAddress, h4, hs, c, c2]
          · simp [ProcessControlTransfer, applyAddress, h4, hs, c]
        rw [e]
        exact ha
    · have e : ProcessControlTransfer L s = s := by
        simp only [ProcessControlTransfer, h0, h4, if_false]
      rw [e]
      exact h

/-- The source pointer is outside the endpoint table at program start and stays there
whatever bus events `ProcessUSBTransactions` services. -/
theorem ProcessUSBTransactions_outPtrValid (L : Layout) (s : State) (h : outPtrValid s) :
    outPtrValid zeroState ∧ outPtrValid (ProcessUSBTransactions L s) := by
  refine ⟨(fun hc => by cases hc), ?_⟩
  have hs : ∀ (e : BusEvent) (t : State), outPtrValid t → outPtrValid (service L e t) := by
    intro e t ht
    unfold service
    split_ifs
    · cases e with
      | transactionComplete => exact ProcessControlTransfer_outPtrValid L t ht
      | stall =>
        show outPtrValid (ClearUsbInterruptFlag _ (Stall L t))
        simp only [ClearUsbInterruptFlag, Stall, WaitForSetupStage]
        split_ifs <;> exact ht
      | resume => exact ht
      | reset =>
        unfold outPtrValid at *
        simp only [BusEvent.handler, ClearUsbInterruptFlag, BusReset, WaitForSetupStage,
          apply_ite State.outPtr, ite_self]
        exact ht
      | idle => exact ht
      | startOfFrame => exact ht
      | error => exact ht
    · exact ht
  rw [ProcessUSBTransactions_eq]
  simp only [serviceAll, List.foldl]
  split_ifs
  · exact h
  · exact hs _ _ h
  · exact hs _ _ (hs _ _ (hs _ _ (hs _ _ (hs _ _ (hs _ _ h)))))
  · exact hs _ _ (hs _ _ (hs _ _ (hs _ _ (hs _ _ (hs _ _ (hs _ _ h))))))

theorem PrepareTxBuffer_outPtr (r : Nat) (s : State) :
    (PrepareTxBuffer r s).outPtr = s.outPtr := by
  have hl : ∀ (maps : List KEYMAP) (index : Nat) (t : State),
      (PrepareTxBuffer_loop r maps index t).outPtr = t.outPtr := by
    intro maps
    induction maps with
    | nil => intro _ _; rfl
    | cons m maps ih =>
      intro index t
      simp only [PrepareTxBuffer_loop, apply_ite State.outPtr, ih, ite_self]
  have hc : (PrepareTxBuffer_clear s).outPtr = s.outPtr := by
    simp only [PrepareTxBuffer_clear, HidReportByteCount, List.range_succ, List.range_zero,
      List.nil_append, List.foldl_append, List.foldl_cons, List.foldl_nil, List.cons_append]
  simp only [PrepareTxBuffer, apply_ite State.outPtr, hl, hc, ite_self]

/-- The main-loop step leaves the source pointer alone. -/
theorem ProcessIO_outPtr (L : Layout) (IsUsbReady : Bool) (reading : Nat) (s : State) :
    ( ProcessIO L IsUsbReady reading s).outPtr = s.outPtr := by
  have hc : (CheckUsb L s).outPtr = s.outPtr := by
    simp only [CheckUsb, ReArmInterface, ProcessIncomingData, apply_ite State.outPtr, ite_self]
  have hs : ∀ t : State, (HIDSend L HidInterfaceNumber t).outPtr = t.outPtr := by
    intro t
    simp only [HIDSend, apply_ite State.outPtr, ite_self]
  cases IsUsbReady
  · simp only [ ProcessIO, apply_ite State.outPtr, hs, PrepareTxBuffer_outPtr, ite_self,
      Bool.false_eq_true, if_false]
  · simp only [ ProcessIO, apply_ite State.outPtr, hs, PrepareTxBuffer_outPtr, hc, ite_self,
      if_true]

/-- C27, evaluated at the failing input: a GET_STATUS for endpoint 0 OUT sent with the
direction bit clear and one data byte announced, followed by that data byte (0x00,
DATA1).  `SetupStage` handles the request, enters the DataOut stage and arms
endpoint 0 OUT, and `GetStatus` has left `inPtr` at `&Interfaces[0].Output`.  On the
OUT completion `OutDataStage` copies the received byte through `inPtr`, that is into
the status byte of the endpoint-0 OUT descriptor, before `ProcessControlTransfer`
tests DTS there: the descriptor goes back to the SIE with DTS set, as it was before
the call, not inverted. -/
theorem OutDataStage_overwrites_toggle :
    afterMisdirectedGetStatus.RequestHandled = 1 ∧
    afterMisdirectedGetStatus.CtrlTransferStage = DATA_OUT_STAGE ∧
    (afterMisdirectedGetStatus.Interfaces 0).Output
      = ⟨UOWN ||| DTS ||| DTSEN, E0SZ, PTR16 sampleLayout .ControlTransferBuffer⟩ ∧
    afterMisdirectedGetStatus.inPtr = ⟨.Interfaces, 0⟩ ∧
    misdirectedDataReceived.CtrlTransferStage = DATA_OUT_STAGE ∧
    misdirectedDataReceived.USTAT = 0 ∧
    outPID misdirectedDataReceived ≠ 0x0D ∧
    (misdirectedDataReceived.Interfaces 0).Output.Stat &&& DTS ≠ 0 ∧
    ((OutDataStage misdirectedDataReceived).Interfaces 0).Output.Stat = 0x00 ∧
    ((ProcessControlTransfer sampleLayout misdirectedDataReceived).Interfaces 0).Output.Stat
      = UOWN ||| DTS ||| DTSEN ∧
    ((ProcessControlTransfer sampleLayout misdirectedDataReceived).Interfaces 0).Output.Stat
      &&& DTS ≠ 0 := by
  decide

/-! ## The report buffer is the only memory `PrepareTxBuffer` writes -/

/-- The loop only changes `HIDTxBuffer`. -/
theorem PrepareTxBuffer_loop_frame (r : Nat) (maps : List KEYMAP) (index : Nat) (s : State) :
    { PrepareTxBuffer_loop r maps index s with HIDTxBuffer := s.HIDTxBuffer } = s := by
  induction maps generalizing index s with
  | nil => rfl
  | cons m maps ih =>
    simp only [PrepareTxBuffer_loop]
    by_cases h0 : m.button = 0
    · simp only [h0, if_true]
    · by_cases hp : r &&& m.button > 0
      · by_cases hk : m.key = KEY_RIGHTSHIFT
        · simp only [h0, hp, hk, if_true, if_false]
          have := ih index { s with HIDTxBuffer := Function.update s.HIDTxBuffer 0 KEY_R_SHIFT }
          exact (congrArg (fun t : State => { t with HIDTxBuffer := s.HIDTxBuffer }) this)
        · by_cases hi : index + 1 > 6
          · simp only [h0, hp, hk, hi, if_true, if_false]
          · simp only [h0, hp, hk, hi, if_true, if_false]
            have := ih (index + 1)
              { s with HIDTxBuffer := Function.update s.HIDTxBuffer index (m.key % 256) }
            exact (congrArg (fun t : State => { t with HIDTxBuffer := s.HIDTxBuffer }) this)
      · simp only [h0, hp, if_false]
        exact ih index s

/-- The loop, entered with a write position of at most 6, writes a key code only at
positions from that one up to 6, and the modifier at position 0. -/
theorem PrepareTxBuffer_loop_writes (r : Nat) (maps : List KEYMAP) (index : Nat) (s : State)
    (hidx : index ≤ 6) (i : Nat) (hi0 : i ≠ 0) (hi : i < index ∨ 6 < i) :
    (PrepareTxBuffer_loop r maps index s).HIDTxBuffer i = s.HIDTxBuffer i := by
  induction maps generalizing index s with
  | nil => rfl
  | cons m maps ih =>
    simp only [PrepareTxBuffer_loop]
    by_cases h0 : m.button = 0
    · simp only [h0, if_true]
    · by_cases hp : r &&& m.button > 0
      · by_cases hk : m.key = KEY_RIGHTSHIFT
        · simp only [h0, hp, hk, if_true, if_false]
          rw [ih index _ hidx hi]
          exact Function.update_noteq hi0 _ _
        · have hne : i ≠ index := by omega
          by_cases hb : index + 1 > 6
          · simp only [h0, hp, hk, hb, if_true, if_false]
            exact Function.update_noteq hne _ _
          · simp only [h0, hp, hk, hb, if_true, if_false]
            rw [ih (index + 1) _ (by omega) (by omega)]
            exact Function.update_noteq hne _ _
      · simp only [h0, hp, if_false]
        exact ih index s hidx hi

/-- The loop stops at the end marker: what follows the marker in memory is never
read. -/
theorem PrepareTxBuffer_loop_stops_at_marker (r : Nat) (pre rest : List KEYMAP) (k : Nat)
    (index : Nat) (s : State) :
    PrepareTxBuffer_loop r (pre ++ ⟨0, k⟩ :: rest) index s
      = PrepareTxBuffer_loop r (pre ++ [⟨0, k⟩]) index s := by
  induction pre generalizing index s with
  | nil => simp [PrepareTxBuffer_loop]
  | cons m pre ih =>
    show PrepareTxBuffer_loop r (m :: (pre ++ ⟨0, k⟩ :: rest)) index s
      = PrepareTxBuffer_loop r (m :: (pre ++ [⟨0, k⟩])) index s
    simp only [PrepareTxBuffer_loop, ih]

/-- The zeroing loop writes positions 0 to 7 only. -/
theorem PrepareTxBuffer_clear_frame (s : State) :
    { PrepareTxBuffer_clear s with HIDTxBuffer := s.HIDTxBuffer } = s ∧
    ∀ i, 8 ≤ i → (PrepareTxBuffer_clear s).HIDTxBuffer i = s.HIDTxBuffer i := by
  refine ⟨?_, ?_⟩
  · simp only [PrepareTxBuffer_clear, HidReportByteCount, List.range_succ, List.range_zero,
      List.nil_append, List.foldl_append, List.foldl_cons, List.foldl_nil, List.cons_append]
  · intro i hi
    simp only [PrepareTxBuffer_clear, HidReportByteCount, List.range_succ, List.range_zero,
      List.nil_append, List.foldl_append, List.foldl_cons, List.foldl_nil, List.cons_append]
    simp only [Function.update_apply]
    have h0 : i ≠ 0 := by omega
    have h1 : i ≠ 1 := by omega
    have h2 : i ≠ 2 := by omega
    have h3 : i ≠ 3 := by omega
    have h4 : i ≠ 4 := by omega
    have h5 : i ≠ 5 := by omega
    have h6 : i ≠ 6 := by omega
    have h7 : i ≠ 7 := by omega
    simp only [h0, h1, h2, h3, h4, h5, h6, h7, if_false]

set_option maxRecDepth 100000 in
/-- For each of the 256 readings the report built from the state at program start is the
packed report. -/
theorem reportOf_packed : ∀ r, r < 256 → reportOf r = packedReport r := by
  decide

set_option maxRecDepth 100000 in
/-- Bytes 0, 1 and 7 of the packed report. -/
theorem packedReport_bytes : ∀ r, r < 256 →
    (packedReport r).length = 8 ∧
    (packedReport r).getD 0 0 = (if r &&& BUTTON_SELECT ≠ 0 then 0x20 else 0) ∧
    (packedReport r).getD 1 0 = 0 ∧
    (packedReport r).getD 7 0 = 0 := by
  decide

theorem report_getD (t : State) (i : Nat) (hi : i < 8) :
    (report t).getD i 0 = t.HIDTxBuffer i := by
  interval_cases i <;> rfl

theorem PrepareTxBuffer_frame (r : Nat) (s : State) :
    { PrepareTxBuffer r s with HIDTxBuffer := s.HIDTxBuffer, LED := s.LED } = s := by
  have hc := (PrepareTxBuffer_clear_frame s).1
  unfold PrepareTxBuffer
  by_cases hr : r > 0
  · simp only [hr, if_true]
    have h1 := PrepareTxBuffer_loop_frame r button_key_maps 2
      { PrepareTxBuffer_clear s with LED := 1 }
    have h2 := congrArg
      (fun t : State => { t with HIDTxBuffer := s.HIDTxBuffer, LED := s.LED }) h1
    have h3 := congrArg (fun t : State => { t with LED := s.LED }) hc
    exact h2.trans h3
  · simp only [hr, if_false]
    exact congrArg (fun t : State => { t with LED := s.LED }) hc

/-- C31: for every 8-bit reading `PrepareTxBuffer` (a total function: its loop ends at
the end marker of `button_key_maps`, whatever follows the marker in memory) writes only
inside the 8-byte report buffer.  The loop writes key codes only at positions 2 to 6
and the modifier at position 0; positions from 8 on and every other variable but the
LED pin are as before.  In the resulting report byte 1 is 0, byte 7 is 0, byte 0 is
0x20 if SELECT is pressed and 0 otherwise, and the report is the packed report: the
key codes of the pressed non-modifier buttons in `button_key_maps` order, packed from
byte 2 with no gaps as far as byte 6, then zeros. -/
theorem PrepareTxBuffer_writes_inside_report (r : Nat) (hr : r < 256) (s : State) :
    report (PrepareTxBuffer r s) = packedReport r ∧
    (PrepareTxBuffer r s).HIDTxBuffer 0 = (if r &&& BUTTON_SELECT ≠ 0 then 0x20 else 0) ∧
    (PrepareTxBuffer r s).HIDTxBuffer 1 = 0 ∧
    (PrepareTxBuffer r s).HIDTxBuffer 7 = 0 ∧
    (∀ i, 8 ≤ i → (PrepareTxBuffer r s).HIDTxBuffer i = s.HIDTxBuffer i) ∧
    { PrepareTxBuffer r s with HIDTxBuffer := s.HIDTxBuffer, LED := s.LED } = s ∧
    (∀ (t : State) (i : Nat), i ≠ 0 → (i < 2 ∨ 6 < i) →
      (PrepareTxBuffer_loop r button_key_maps 2 t).HIDTxBuffer i = t.HIDTxBuffer i) ∧
    (∀ (rest : List KEYMAP) (t : State),
      PrepareTxBuffer_loop r (button_key_maps ++ rest) 2 t
        = PrepareTxBuffer_loop r button_key_maps 2 t) := by
  have hrep : report (PrepareTxBuffer r s) = packedReport r := by
    rw [report_PrepareTxBuffer, reportOf_packed r hr]
  obtain ⟨_, b0, b1, b7⟩ := packedReport_bytes r hr
  refine ⟨hrep, ?_, ?_, ?_, ?_, PrepareTxBuffer_frame r s, ?_, ?_⟩
  · rw [← report_getD _ 0 (by decide), hrep, b0]
  · rw [← report_getD _ 1 (by decide), hrep, b1]
  · rw [← report_getD _ 7 (by decide), hrep, b7]
  · intro i hi
    have hc := (PrepareTxBuffer_clear_frame s).2 i hi
    unfold PrepareTxBuffer
    by_cases h0 : r > 0
    · simp only [h0, if_true]
      rw [PrepareTxBuffer_loop_writes r button_key_maps 2 _ (by decide) i (by omega)
        (Or.inr (by omega))]
      exact hc
    · simp only [h0, if_false]
      exact hc
  · intro t i hi0 hi
    exact PrepareTxBuffer_loop_writes r button_key_maps 2 t (by decide) i hi0 hi
  · intro rest t
    have e1 : button_key_maps ++ rest
        = (button_key_maps.take 8) ++ ⟨0, 0⟩ :: rest := rfl
    have e2 : button_key_maps = (button_key_maps.take 8) ++ [⟨0, 0⟩] := rfl
    rw [e1, PrepareTxBuffer_loop_stops_at_marker]
    rw [← e2]

/-- Witness for C31: all eight buttons pressed. -/
theorem PrepareTxBuffer_writes_inside_report_witness :
    (0xFF : Nat) < 256 ∧
    report (PrepareTxBuffer 0xFF readyState)
      = [KEY_R_SHIFT, 0, KEY_X, KEY_Z, KEY_ENTER, KEY_UP, KEY_DOWN, 0] :=
  ⟨by decide,
   (PrepareTxBuffer_writes_inside_report 0xFF (by decide) readyState).1.trans (by decide)⟩

/-! ## CLEAR_FEATURE(ENDPOINT_HALT) -/

/-- The direction value `wIndex0 & 0x80` is 0 or 0x80. -/
theorem direction_bit_values (x : Nat) : x &&& 0x80 = 0 ∨ x &&& 0x80 = 0x80 := by
  have h := Nat.and_two_pow x 7
  cases hb : x.testBit 7 <;> simp [hb] at h
  · left; exact h
  · right; exact h

/-- A store through `&Interfaces[0].Output + n * 8` sets the status byte of the OUT
descriptor of entry `n`; 4 bytes further on, that of the IN descriptor. -/
theorem writeByte_descriptor_Stat (s : State) (n v : Nat) :
    ((writeByte s ⟨.Interfaces, n * 8⟩ v).Interfaces n).Output.Stat = v ∧
    ((writeByte s ⟨.Interfaces, n * 8 + 4⟩ v).Interfaces n).Input.Stat = v := by
  have a1 : n * 8 % 8 = 0 := by omega
  have a2 : n * 8 / 8 = n := by omega
  have a3 : n * 8 % 4 = 0 := by omega
  have b1 : (n * 8 + 4) % 8 = 4 := by omega
  have b2 : (n * 8 + 4) / 8 = n := by omega
  have b3 : (n * 8 + 4) % 4 = 0 := by omega
  constructor
  · simp [writeByte, BDT.writeByte, a1, a2, a3]
  · simp [writeByte, BDT.writeByte, b1, b2, b3]

/-- What `SetFeature` does with a CLEAR_FEATURE(ENDPOINT_HALT) it handles. -/
theorem SetFeature_clear_halt (s : State)
    (hreq : s.SetupPacket.bRequest ≠ SET_FEATURE)
    (hrec : s.SetupPacket.bmRequestType &&& 0x1F = 0x02)
    (hfeat : s.SetupPacket.wValue0 = ENDPOINT_HALT)
    (hnum : s.SetupPacket.wIndex0 &&& 0x0F ≠ 0) :
    (SetFeature s).RequestHandled = 1 ∧
    (addressedDescriptor s.SetupPacket.wIndex0 (SetFeature s)).Stat = 0x88 := by
  have hd1 : ¬ s.SetupPacket.wIndex0 &&& 0x80 = 1 := by
    rcases direction_bit_values s.SetupPacket.wIndex0 with h | h <;> rw [h] <;> decide
  by_cases hdir : s.SetupPacket.wIndex0 &&& 0x80 ≠ 0
  · have e : SetFeature s
        = writeByte { s with RequestHandled := 1,
                             inPtr := ⟨.Interfaces, (s.SetupPacket.wIndex0 &&& 0x0F) * 8 + 4⟩ }
            ⟨.Interfaces, (s.SetupPacket.wIndex0 &&& 0x0F) * 8 + 4⟩ 0x88 := by
      simp +decide [SetFeature, hreq, hrec, hfeat, hnum, hdir, hd1]
    rw [e]
    refine ⟨by rw [writeByte_RequestHandled], ?_⟩
    unfold addressedDescriptor
    rw [if_pos hdir]
    exact (writeByte_descriptor_Stat _ _ _).2
  · have e : SetFeature s
        = writeByte { s with RequestHandled := 1,
                             inPtr := ⟨.Interfaces, (s.SetupPacket.wIndex0 &&& 0x0F) * 8⟩ }
            ⟨.Interfaces, (s.SetupPacket.wIndex0 &&& 0x0F) * 8⟩ 0x88 := by
      simp +decide [SetFeature, hreq, hrec, hfeat, hnum, hdir, hd1]
    rw [e]
    refine ⟨by rw [writeByte_RequestHandled], ?_⟩
    unfold addressedDescriptor
    rw [if_neg hdir]
    exact (writeByte_descriptor_Stat _ _ _).1

/-- A CLEAR_FEATURE(ENDPOINT_HALT) is handled only for an endpoint recipient and an
endpoint number other than 0. -/
theorem SetFeature_clear_halt_handled (s : State)
    (hfeat : s.SetupPacket.wValue0 = ENDPOINT_HALT)
    (h0 : s.RequestHandled = 0) (hh : (SetFeature s).RequestHandled ≠ 0) :
    s.SetupPacket.bmRequestType &&& 0x1F = 0x02 ∧ s.SetupPacket.wIndex0 &&& 0x0F ≠ 0 := by
  by_cases hrec : s.SetupPacket.bmRequestType &&& 0x1F = 0x02
  · refine ⟨hrec, ?_⟩
    intro hn
    apply hh
    simp +decide [SetFeature, hrec, hfeat, hn, h0]
  · exfalso
    apply hh
    by_cases hr0 : s.SetupPacket.bmRequestType &&& 0x1F = 0x00
    · simp +decide [SetFeature, hr0, hfeat, h0]
    · simp +decide [SetFeature, hr0, hrec, h0]

/-- C32: for every handled CLEAR_FEATURE(ENDPOINT_HALT) request (standard type, taken
by `ProcessStandardRequest` from a cleared `RequestHandled` to a set one), whatever
the direction bit of `wIndex0`, the status byte of the addressed descriptor is left
at 0x88, which is `UOWN | DTSEN`.  The direction value `wIndex0 & 0x80` is 0 or 0x80
and never 1, so the branch that writes 0x00 is never taken; the request is for an
endpoint recipient with a non-zero endpoint number; and when the direction is IN the
IN descriptor ends owned by the SIE. -/
theorem CLEAR_FEATURE_halt_writes_0x88 (L : Layout) (s : State)
    (hstd : s.SetupPacket.bmRequestType &&& 0x60 = 0x00)
    (hreq : s.SetupPacket.bRequest = CLEAR_FEATURE)
    (hfeat : s.SetupPacket.wValue0 = ENDPOINT_HALT)
    (h0 : s.RequestHandled = 0)
    (hh : (ProcessStandardRequest L s).RequestHandled ≠ 0) :
    (addressedDescriptor s.SetupPacket.wIndex0 (ProcessStandardRequest L s)).Stat = 0x88 ∧
    0x88 = UOWN ||| DTSEN ∧
    (s.SetupPacket.wIndex0 &&& 0x80 = 0 ∨ s.SetupPacket.wIndex0 &&& 0x80 = 0x80) ∧
    s.SetupPacket.wIndex0 &&& 0x80 ≠ 1 ∧
    s.SetupPacket.bmRequestType &&& 0x1F = 0x02 ∧
    s.SetupPacket.wIndex0 &&& 0x0F ≠ 0 ∧
    (s.SetupPacket.wIndex0 &&& 0x80 ≠ 0 →
      ((ProcessStandardRequest L s).Interfaces (s.SetupPacket.wIndex0 &&& 0x0F)).Input.Stat
        = 0x88 ∧
      ((ProcessStandardRequest L s).Interfaces (s.SetupPacket.wIndex0 &&& 0x0F)).Input.Stat
        &&& UOWN ≠ 0) := by
  have e : ProcessStandardRequest L s = SetFeature s := by
    simp +decide [ProcessStandardRequest, hstd, hreq]
  rw [e] at hh ⊢
  obtain ⟨hrec, hnum⟩ := SetFeature_clear_halt_handled s hfeat h0 hh
  have hns : s.SetupPacket.bRequest ≠ SET_FEATURE := by
    rw [hreq]
    decide
  obtain ⟨_, hst⟩ := SetFeature_clear_halt s hns hrec hfeat hnum
  have hd := direction_bit_values s.SetupPacket.wIndex0
  refine ⟨hst, rfl, hd, ?_, hrec, hnum, ?_⟩
  · rcases hd with h | h <;> rw [h] <;> decide
  · intro hdir
    have hi : ((SetFeature s).Interfaces (s.SetupPacket.wIndex0 &&& 0x0F)).Input.Stat = 0x88 := by
      have := hst
      unfold addressedDescriptor at this
      rw [if_pos hdir] at this
      exact this
    rw [hi]
    exact ⟨rfl, by decide⟩

/-- Witness for C32: clearing the halt of endpoint 1 IN on a configured device. -/
theorem CLEAR_FEATURE_halt_writes_0x88_witness :
    ({ readyState with SetupPacket := clearHaltPacket 0x81 } : State).SetupPacket.bmRequestType
      &&& 0x60 = 0x00 ∧
    ({ readyState with SetupPacket := clearHaltPacket 0x81 } : State).SetupPacket.bRequest
      = CLEAR_FEATURE ∧
    ({ readyState with SetupPacket := clearHaltPacket 0x81 } : State).SetupPacket.wValue0
      = ENDPOINT_HALT ∧
    ({ readyState with SetupPacket := clearHaltPacket 0x81 } : State).RequestHandled = 0 ∧
    (ProcessStandardRequest sampleLayout
      { readyState with SetupPacket := clearHaltPacket 0x81 }).RequestHandled ≠ 0 ∧
    ((ProcessStandardRequest sampleLayout
      { readyState with SetupPacket := clearHaltPacket 0x81 }).Interfaces 1).Input.Stat
      = 0x88 :=
  ⟨by decide, by decide, by decide, by decide, by decide,
   ((CLEAR_FEATURE_halt_writes_0x88 sampleLayout
      { readyState with SetupPacket := clearHaltPacket 0x81 }
      (by decide) (by decide) (by decide) (by decide) (by decide)).2.2.2.2.2.2
        (by decide)).1⟩

/-! ## Declared lengths and pending lengths -/

/-- C33: every descriptor's self-declared length equals the pending length the engine
sets when serving it (`dispatched` is the state after both dispatchers ran).  Byte 0
of `DeviceDescriptor` is 0x12 and 18 bytes of that table are pending for
GET_DESCRIPTOR(Device).  wTotalLength of the configuration descriptor (bytes 2-3) is
0x0029 = 9+9+9+7+7 and 41 bytes, the whole structure, are pending for
GET_DESCRIPTOR(Configuration).  The report-descriptor length declared in the HID
class descriptor (bytes 7-8 of the descriptor at offset 18 of the configuration
structure) is 0x003F and the 63 bytes of `HIDReport` are pending for
GET_DESCRIPTOR(Report) addressed to the HID interface. -/
theorem declared_lengths_are_served (L : Layout) (s : State) :
    (DeviceDescriptor.getD 0 0 = 0x12 ∧ DeviceDescriptor.length = 18 ∧
      wordAt ConfigurationDescriptor 2 = 0x0029 ∧ 9 + 9 + 9 + 7 + 7 = 0x0029 ∧
      ConfigurationDescriptor.length = 41 ∧
      ConfigurationDescriptor.getD 18 0 = 0x09 ∧
      ConfigurationDescriptor.getD 19 0 = HID_DESCRIPTOR ∧
      wordAt ConfigurationDescriptor (18 + 7) = 0x003F ∧ HIDReport.length = 63) ∧
    (s.SetupPacket.bmRequestType = 0x80 → s.SetupPacket.bRequest = GET_DESCRIPTOR →
      s.SetupPacket.wValue1 = DEVICE_DESCRIPTOR →
      (dispatched L s).RequestHandled = 1 ∧
      (dispatched L s).transferType = 1 ∧
      (dispatched L s).ROMoutPtr = ⟨.DeviceDescriptor, 0⟩ ∧
      (dispatched L s).wCount = DeviceDescriptor.getD 0 0) ∧
    (s.SetupPacket.bmRequestType = 0x80 → s.SetupPacket.bRequest = GET_DESCRIPTOR →
      s.SetupPacket.wValue1 = CONFIGURATION_DESCRIPTOR →
      (dispatched L s).RequestHandled = 1 ∧
      (dispatched L s).transferType = 1 ∧
      (dispatched L s).ROMoutPtr = ⟨.ConfigurationDescriptor, 0⟩ ∧
      (dispatched L s).wCount = wordAt ConfigurationDescriptor 2) ∧
    (s.SetupPacket.bmRequestType &&& 0x1F = 0x01 → s.SetupPacket.wIndex0 = HidInterfaceNumber →
      s.SetupPacket.bRequest = GET_DESCRIPTOR → s.SetupPacket.wValue1 = REPORT_DESCRIPTOR →
      (dispatched L s).RequestHandled = 1 ∧
      (dispatched L s).transferType = 1 ∧
      (dispatched L s).ROMoutPtr = ⟨.HIDReport, 0⟩ ∧
      (dispatched L s).wCount = wordAt ConfigurationDescriptor (18 + 7)) := by
  have hp : (SetupStage_init s).SetupPacket = s.SetupPacket := rfl
  have w0 : DeviceDescriptor.getD 0 0 = DeviceDescriptor.length := by decide
  have w1 : wordAt ConfigurationDescriptor 2 = CONFIG_HEADER_SIZE + HidDescriptorSize := by
    decide
  have w2 : wordAt ConfigurationDescriptor (18 + 7) = HIDReport.length := by decide
  refine ⟨by decide, ?_, ?_, ?_⟩
  · intro h80 hreq hdev
    have hstd : s.SetupPacket.bmRequestType &&& 0x60 = 0x00 := by rw [h80]; decide
    have hrec : s.SetupPacket.bmRequestType &&& 0x1F ≠ 0x01 := by rw [h80]; decide
    unfold dispatched
    rw [ProcessHIDRequest_of_not_interface _
      (by rw [ProcessStandardRequest_SetupPacket, hp]; exact hrec), w0]
    simp +decide [ProcessStandardRequest, GetDescriptor, hp, hstd, hreq, hdev, h80]
  · intro h80 hreq hcfg
    have hstd : s.SetupPacket.bmRequestType &&& 0x60 = 0x00 := by rw [h80]; decide
    have hrec : s.SetupPacket.bmRequestType &&& 0x1F ≠ 0x01 := by rw [h80]; decide
    unfold dispatched
    rw [ProcessHIDRequest_of_not_interface _
      (by rw [ProcessStandardRequest_SetupPacket, hp]; exact hrec), w1]
    simp +decide [ProcessStandardRequest, GetDescriptor, hp, hstd, hreq, hcfg, h80]
  · intro hrec hidx hreq hrep
    have hidx0 : s.SetupPacket.wIndex0 = 0x00 := hidx
    have h80 : s.SetupPacket.bmRequestType ≠ 0x80 := by
      intro h
      rw [h] at hrec
      exact absurd hrec (by decide)
    have e1 : ProcessStandardRequest L (SetupStage_init s) = SetupStage_init s := by
      by_cases hstd : s.SetupPacket.bmRequestType &&& 0x60 = 0x00
      · simp +decide [ProcessStandardRequest, GetDescriptor, hp, hstd, hreq, h80]
      · simp only [ProcessStandardRequest]
        rw [if_pos (by rw [hp]; exact hstd)]
    unfold dispatched
    rw [e1, w2]
    by_cases hcls : s.SetupPacket.bmRequestType &&& 0x60 = 0x20
    · simp +decide [ProcessHIDRequest, hp, hrec, hidx0, hreq, hrep, hcls]
    · simp +decide [ProcessHIDRequest, hp, hrec, hidx0, hreq, hrep, hcls]

/-- Witness for C33: the three requests as a host sends them. -/
theorem declared_lengths_are_served_witness :
    (stateWithPacket getDeviceDescriptorPacket).SetupPacket.bmRequestType = 0x80 ∧
    (stateWithPacket getDeviceDescriptorPacket).SetupPacket.bRequest = GET_DESCRIPTOR ∧
    (stateWithPacket getDeviceDescriptorPacket).SetupPacket.wValue1 = DEVICE_DESCRIPTOR ∧
    (dispatched sampleLayout (stateWithPacket getDeviceDescriptorPacket)).wCount = 18 ∧
    (dispatched sampleLayout (stateWithPacket getConfigurationDescriptorPacket)).wCount = 41 ∧
    (dispatched sampleLayout (stateWithPacket getReportDescriptorPacket)).wCount = 63 :=
  ⟨rfl, rfl, rfl,
   ((declared_lengths_are_served sampleLayout (stateWithPacket getDeviceDescriptorPacket)).2.1
      rfl rfl rfl).2.2.2.trans (by decide),
   ((declared_lengths_are_served sampleLayout
      (stateWithPacket getConfigurationDescriptorPacket)).2.2.1
      rfl rfl rfl).2.2.2.trans (by decide),
   ((declared_lengths_are_served sampleLayout (stateWithPacket getReportDescriptorPacket)).2.2.2
      (by decide) rfl rfl rfl).2.2.2.trans (by decide)⟩

end NESKeyboard
